import Mathlib

/-!
# terraform-provider-artifactory: repository resources

A shallow embedding of `pkg/artifactory/repositories.go` (validators, the retry
predicate, the CRUD orchestrator and the reflection-driven packer) together with
the properties established about it.

Conventions of the embedding

* Go `string` values are Lean `String`s, `int` is `Int`, `*bool` is `Option Bool`
  (`none` is the nil pointer), `[]string` is `List String`.
* A Go `error` is an `Error` (its message); `nil` is `none`.
* A run-time panic (nil dereference, failed type assertion) is the `none` result
  of a function returning `Option`.
* The HTTP client is a parameter of every operation: a function from the
  events seen so far and the request to the outcome of the exchange.
-/

namespace Artifactory

/-! ## Regular expressions (the fragment of Go `regexp` the package uses) -/

/-- A single-character matcher: `.` (no `s` flag, so no newline), a bracket
range `[lo-hi]`, or a literal character. -/
inductive CharClass where
  | anyNotNL
  | range (lo hi : Char)
  | lit (c : Char)
deriving DecidableEq, Repr

/-- Whether the class accepts the character. -/
def CharClass.accepts : CharClass → Char → Bool
  | .anyNotNL, c => c != '\n'
  | .range lo hi, c => decide (lo ≤ c) && decide (c ≤ hi)
  | .lit a, c => c == a

/-- One step of a pattern: a class matched once, or repeated any number of times
(only the existence of a match matters for `MatchString`, not which one is preferred). -/
inductive Inst where
  | one (cl : CharClass)
  | star (cl : CharClass)
deriving DecidableEq, Repr

/-- A compiled pattern: whether it opens with `^` and the steps after it. -/
structure Regexp where
  beginText : Bool
  prog : List Inst
deriving DecidableEq, Repr

/-- The steps of a pattern body, read left to right; `acc` holds the steps read
so far, last one first. A `*` turns the step before it into a repetition. -/
def parseBody : List Char → List Inst → List Inst
  | [], acc => acc.reverse
  | '*' :: rest, .one cl :: acc => parseBody rest (.star cl :: acc)
  | '.' :: rest, acc => parseBody rest (.one .anyNotNL :: acc)
  | '[' :: lo :: '-' :: hi :: ']' :: rest, acc => parseBody rest (.one (.range lo hi) :: acc)
  | c :: rest, acc => parseBody rest (.one (.lit c) :: acc)

/-- Model of `regexp.MustCompile` for patterns built from `^`, `.`, `[a-b]`, `*`
and literal characters. -/
def regexp.MustCompile (pattern : String) : Regexp :=
  match pattern.data with
  | '^' :: body => { beginText := true, prog := parseBody body [] }
  | body => { beginText := false, prog := parseBody body [] }

/-- Repetition of a class followed by the continuation `k`: some run of accepted
characters is consumed and `k` takes the rest. -/
def starLoop (cl : CharClass) (k : List Char → Bool) : List Char → Bool
  | [] => k []
  | c :: cs => k (c :: cs) || (cl.accepts c && starLoop cl k cs)

/-- Whether the steps match some prefix of the input. -/
def matchHere : List Inst → List Char → Bool
  | [], _ => true
  | .one cl :: prog, s =>
    match s with
    | [] => false
    | c :: cs => cl.accepts c && matchHere prog cs
  | .star cl :: prog, s => starLoop cl (matchHere prog) s

/-- Whether the steps match starting at some position of the input. -/
def matchAnywhere (prog : List Inst) : List Char → Bool
  | [] => matchHere prog []
  | c :: cs => matchHere prog (c :: cs) || matchAnywhere prog cs

/-- Model of `(*Regexp).MatchString`: the pattern matches a substring of `s`; with a leading
`^` the substring starts at the beginning of the text. -/
def Regexp.MatchString (re : Regexp) (s : String) : Bool :=
  if re.beginText then matchHere re.prog s.data else matchAnywhere re.prog s.data

/-! ## Validators (`helper/validation` of the plugin SDK) -/

/-- A Go `error`, by its message. -/
abbrev Error := String

/-- Model of `schema.SchemaValidateFunc` on string values: the value and the attribute name
give warnings and errors. -/
abbrev SchemaValidateFunc := String → String → List String × List Error

/-- Model of `strings.ContainsAny`. -/
def strings.ContainsAny (s chars : String) : Bool :=
  s.data.any (fun c => chars.data.contains c)

/-- Model of `validation.StringDoesNotMatch`: an error when the pattern matches. -/
def validation.StringDoesNotMatch (r : Regexp) (message : String) : SchemaValidateFunc :=
  fun v k =>
    if r.MatchString v then
      ([], ["invalid value for " ++ k ++ " (" ++ message ++ ")"])
    else ([], [])

/-- Model of `validation.StringDoesNotContainAny`: an error when the value holds one of
`chars`. -/
def validation.StringDoesNotContainAny (chars : String) : SchemaValidateFunc :=
  fun v k =>
    if strings.ContainsAny v chars then
      ([], ["expected value of " ++ k ++ " to not contain any of " ++ chars ++ ", got " ++ v])
    else ([], [])

/-- Model of `validation.All`: every validator runs, warnings and errors are appended. -/
def validation.All (validators : List SchemaValidateFunc) : SchemaValidateFunc :=
  fun v k =>
    validators.foldl
      (fun acc validator => (acc.1 ++ (validator v k).1, acc.2 ++ (validator v k).2))
      ([], [])

/-- A validator accepts a value when it reports no error. -/
def accepts (f : SchemaValidateFunc) (v : String) : Bool :=
  (f v "key").2.isEmpty

/-- Embedding of `repoKeyValidator`, repositories.go line 214. -/
def repoKeyValidator : SchemaValidateFunc :=
  validation.All [
    validation.StringDoesNotMatch (regexp.MustCompile "^[0-9].*") "repo key cannot start with a number",
    validation.StringDoesNotContainAny " !@#$%^&*()_+=\x7b\x7d[]:;<>,/?~`|\\"
  ]

/-! ## HTTP client (the part of `resty` the orchestrator drives) -/

/-- HTTP verbs of the repository endpoint. -/
inductive Method where
  | GET
  | PUT
  | POST
  | DELETE
  | HEAD
deriving DecidableEq, Repr

/-- The part of `resty.Response` the package reads: status code and body. -/
structure Response where
  StatusCode : Int
  Body : String
deriving DecidableEq, Repr

/-- A retry predicate of `resty`: response and error give whether to try again. -/
abbrev RetryConditionFunc := Response → Option Error → Bool

/-- A `resty.Request` under construction: retry predicates, body, and the value
`SetResult` registered for decoding. -/
structure Request (P : Type) where
  retryConditions : List RetryConditionFunc
  Body : Option P
  Result : Option P

/-- Fresh request of a client, `client.R()`. -/
def Request.R {P : Type} : Request P :=
  { retryConditions := [], Body := none, Result := none }

/-- Embedding of `(*Request).AddRetryCondition`. -/
def Request.AddRetryCondition {P : Type} (r : Request P) (c : RetryConditionFunc) : Request P :=
  { r with retryConditions := r.retryConditions ++ [c] }

/-- Embedding of `(*Request).SetBody`. -/
def Request.SetBody {P : Type} (r : Request P) (body : P) : Request P :=
  { r with Body := some body }

/-- Embedding of `(*Request).SetResult`. -/
def Request.SetResult {P : Type} (r : Request P) (res : P) : Request P :=
  { r with Result := some res }

/-- A request as executed: verb, URL and what was configured on it. -/
structure Sent (P : Type) where
  method : Method
  url : String
  request : Request P

/-- What the run of an operation leaves behind, in order: requests executed and
payloads handed to the pack function. -/
inductive Event (P : Type) where
  | http (call : Sent P)
  | pack (payload : P)

/-- Outcome of executing a request: the `(*Response, error)` pair returned by
`Get`/`Put`/`Post`/`Delete`, and the content of the `SetResult` value afterwards
when the client decoded a body into it. -/
structure Exchange (P : Type) where
  resp : Option Response
  err : Option Error
  result : Option P

/-- The configured client together with the server behind it: the outcome of a
request may depend on everything that happened before. -/
abbrev Client (P : Type) := List (Event P) → Sent P → Exchange P

/-! ## Go values as seen through `reflect` -/

/-- The part of `reflect.StructField` the packer reads: the field name and the value of
its `hcl` tag (`Tag.Get("hcl")`, empty when the field has none). -/
structure StructField where
  Name : String
  hcl : String
deriving DecidableEq, Repr

/-- Go values that occur in payloads and in the maps the packer builds. -/
inductive GoValue where
  | string (s : String)
  | int (n : Int)
  | bool (b : Bool)
  | ptr (target : Option GoValue)
  | strings (xs : List String)
  | ifaces (xs : List GoValue)
  | set (members : List GoValue)
  | map (entries : List (String × GoValue))
  | struct (fields : List (StructField × GoValue))

/-- The kinds of `reflect.Kind` that the values above have. -/
inductive Kind where
  | String
  | Int
  | Bool
  | Ptr
  | Slice
  | Map
  | Struct
deriving DecidableEq, Repr

/-- Embedding of `reflect.Value.Kind`; a `*schema.Set` is a pointer. -/
def GoValue.Kind : GoValue → Kind
  | .string _ => .String
  | .int _ => .Int
  | .bool _ => .Bool
  | .ptr _ => .Ptr
  | .strings _ => .Slice
  | .ifaces _ => .Slice
  | .set _ => .Ptr
  | .map _ => .Map
  | .struct _ => .Struct

/-- A Go `map[string]interface{}`: keys are unique, kept in the order of first insertion. -/
abbrev GoMap := List (String × GoValue)

/-- Map assignment `m[k] = v`. -/
def GoMap.set : GoMap → String → GoValue → GoMap
  | [], k, v => [(k, v)]
  | (k', v') :: rest, k, v =>
    if k' = k then (k, v) :: rest else (k', v') :: GoMap.set rest k v

/-- Map read `m[k]`, `none` when the key is absent. -/
def GoMap.get? : GoMap → String → Option GoValue
  | [], _ => none
  | (k', v') :: rest, k => if k' = k then some v' else GoMap.get? rest k

/-- The keys of a map. -/
def GoMap.keys (m : GoMap) : List String :=
  m.map Prod.fst

/-- The loop `for key, value := range src { values[key] = value }`. -/
def GoMap.merge (values src : GoMap) : GoMap :=
  src.foldl (fun acc kv => GoMap.set acc kv.1 kv.2) values

/-! ## Resource state and the function types of the orchestrator -/

/-- The part of `schema.ResourceData` the package touches: the id and the attribute
values. -/
structure ResourceData where
  id : String
  attrs : GoMap

/-- Embedding of `(*ResourceData).Id`. -/
def ResourceData.Id (d : ResourceData) : String :=
  d.id

/-- Embedding of `(*ResourceData).SetId`. -/
def ResourceData.SetId (d : ResourceData) (v : String) : ResourceData :=
  { d with id := v }

/-- Model of `diag.Diagnostics`: the error diagnostics, by message. -/
abbrev Diagnostics := List Error

/-- Model of `diag.FromErr`: nil for a nil error, one error diagnostic otherwise. -/
def diag.FromErr : Option Error → Diagnostics
  | none => []
  | some err => [err]

/-- State threaded through an operation: the resource data and the events so far. -/
structure World (P : Type) where
  d : ResourceData
  log : List (Event P)

/-- Executes a request through the client and records it. -/
def World.execute {P : Type} (w : World P) (m : Client P) (call : Sent P) :
    Exchange P × World P :=
  (m w.log call, { w with log := w.log ++ [.http call] })

/-- Embedding of `Constructor`: returns (a pointer to) a fresh payload. -/
abbrev Constructor (P : Type) := Unit → P

/-- Embedding of `UnpackFunc`: payload and resource id, or an error. -/
abbrev UnpackFunc (P : Type) := ResourceData → Except Error (P × String)

/-- Embedding of `PackFunc`: writes the payload into the resource data and may return
an error. -/
abbrev PackFunc (P : Type) := P → ResourceData → Option Error × ResourceData

/-- Embedding of `schema.ReadContextFunc` and its create, update and delete
siblings: client and state give diagnostics and the state afterwards. -/
abbrev ContextFunc (P : Type) := Client P → World P → Diagnostics × World P

/-! ## repositories.go: retry predicate and CRUD -/

/-- Embedding of `repositoriesEndpoint`. -/
def repositoriesEndpoint : String := "artifactory/api/repositories/"

/-- Embedding of `retryOnMergeError`, repositories.go line 124. -/
def retryOnMergeError : RetryConditionFunc :=
  let mergeAndSaveRegex := regexp.MustCompile ".*Could not merge and save new descriptor.*"
  fun response _r => mergeAndSaveRegex.MatchString response.Body

/-- Embedding of `neverRetry`. -/
def neverRetry : RetryConditionFunc :=
  fun _ _ => false

/-- Embedding of `retry400`. -/
def retry400 : RetryConditionFunc :=
  fun response _ => response.StatusCode == 400

/-- Embedding of `http.StatusNotFound`. -/
def http.StatusNotFound : Int := 404

/-- The test `resp != nil && resp.StatusCode() == http.StatusNotFound`. -/
def respIsNotFound (resp : Option Response) : Bool :=
  match resp with
  | some r => r.StatusCode == http.StatusNotFound
  | none => false

/-- Embedding of `mkRepoRead`, repositories.go line 149. -/
def mkRepoRead {P : Type} (pack : PackFunc P) (construct : Constructor P) : ContextFunc P :=
  fun m w =>
    let repo := construct ()
    let (ex, w1) :=
      w.execute m ⟨.GET, repositoriesEndpoint ++ w.d.Id, Request.R.SetResult repo⟩
    match ex.err with
    | some err =>
      if respIsNotFound ex.resp then
        ([], { w1 with d := w1.d.SetId "" })
      else (diag.FromErr (some err), w1)
    | none =>
      let payload := ex.result.getD repo
      let (packErr, d') := pack payload w1.d
      (diag.FromErr packErr, { d := d', log := w1.log ++ [.pack payload] })

/-- Embedding of `mkRepoCreate`, repositories.go line 131. -/
def mkRepoCreate {P : Type} (unpack : UnpackFunc P) (read : ContextFunc P) : ContextFunc P :=
  fun m w =>
    match unpack w.d with
    | .error err => (diag.FromErr (some err), w)
    | .ok (repo, key) =>
      let (ex, w1) :=
        w.execute m
          ⟨.PUT, repositoriesEndpoint ++ key,
            (Request.R.AddRetryCondition retryOnMergeError).SetBody repo⟩
      match ex.err with
      | some err => (diag.FromErr (some err), w1)
      | none => read m { w1 with d := w1.d.SetId key }

/-- Embedding of `mkRepoUpdate`, repositories.go line 166. -/
def mkRepoUpdate {P : Type} (unpack : UnpackFunc P) (read : ContextFunc P) : ContextFunc P :=
  fun m w =>
    match unpack w.d with
    | .error err => (diag.FromErr (some err), w)
    | .ok (repo, key) =>
      let (ex, w1) :=
        w.execute m
          ⟨.POST, repositoriesEndpoint ++ w.d.Id,
            (Request.R.AddRetryCondition retryOnMergeError).SetBody repo⟩
      match ex.err with
      | some err => (diag.FromErr (some err), w1)
      | none => read m { w1 with d := w1.d.SetId key }

/-- Embedding of `deleteRepo`, repositories.go line 183. -/
def deleteRepo {P : Type} : ContextFunc P :=
  fun m w =>
    let (ex, w1) := w.execute m ⟨.DELETE, repositoriesEndpoint ++ w.d.Id, Request.R⟩
    if ex.err.isSome && respIsNotFound ex.resp then
      ([], { w1 with d := w1.d.SetId "" })
    else (diag.FromErr ex.err, w1)

/-! ## repositories.go: payload types -/

/-- The anonymous struct type of `ContentSynchronisation.Statistics`. -/
structure ContentSynchronisation.StatisticsT where
  Enabled : Bool
deriving DecidableEq, Repr

/-- The anonymous struct type of `ContentSynchronisation.Properties`. -/
structure ContentSynchronisation.PropertiesT where
  Enabled : Bool
deriving DecidableEq, Repr

/-- The anonymous struct type of `ContentSynchronisation.Source`. -/
structure ContentSynchronisation.SourceT where
  OriginAbsenceDetection : Bool
deriving DecidableEq, Repr

/-- Embedding of `ContentSynchronisation`, repositories.go line 39. -/
structure ContentSynchronisation where
  Enabled : Bool
  Statistics : ContentSynchronisation.StatisticsT
  Properties : ContentSynchronisation.PropertiesT
  Source : ContentSynchronisation.SourceT
deriving DecidableEq, Repr

/-- Embedding of `RemoteRepositoryBaseParams`, repositories.go line 52. -/
structure RemoteRepositoryBaseParams where
  Key : String
  Rclass : String
  PackageType : String
  Url : String
  Username : String
  Password : String
  Proxy : String
  Description : String
  Notes : String
  IncludesPattern : String
  ExcludesPattern : String
  RepoLayoutRef : String
  HardFail : Option Bool
  Offline : Option Bool
  BlackedOut : Option Bool
  XrayIndex : Option Bool
  PropagateQueryParams : Bool
  PriorityResolution : Bool
  StoreArtifactsLocally : Option Bool
  SocketTimeoutMillis : Int
  LocalAddress : String
  RetrievalCachePeriodSecs : Int
  FailedRetrievalCachePeriodSecs : Int
  MissedRetrievalCachePeriodSecs : Int
  UnusedArtifactsCleanupEnabled : Option Bool
  UnusedArtifactsCleanupPeriodHours : Int
  AssumedOfflinePeriodSecs : Int
  ShareConfiguration : Option Bool
  SynchronizeProperties : Option Bool
  BlockMismatchingMimeTypes : Option Bool
  PropertySets : List String
  AllowAnyHostAuth : Option Bool
  EnableCookieManagement : Option Bool
  BypassHeadRequests : Option Bool
  ClientTlsCertificate : String
  ContentSynchronisation : Option ContentSynchronisation

/-- A `*bool` field as a reflected value. -/
def boolPtr (b : Option Bool) : GoValue :=
  .ptr (b.map GoValue.bool)

/-- The reflected view of a `ContentSynchronisation` value: its fields in declaration
order, each with its `hcl` tag. -/
def ContentSynchronisation.reflect (c : ContentSynchronisation) : GoValue :=
  .struct [
    (⟨"Enabled", "enabled"⟩, .bool c.Enabled),
    (⟨"Statistics", ""⟩, .struct [(⟨"Enabled", ""⟩, .bool c.Statistics.Enabled)]),
    (⟨"Properties", ""⟩, .struct [(⟨"Enabled", ""⟩, .bool c.Properties.Enabled)]),
    (⟨"Source", ""⟩,
      .struct [(⟨"OriginAbsenceDetection", ""⟩, .bool c.Source.OriginAbsenceDetection)])
  ]

/-- The reflected view of a `RemoteRepositoryBaseParams` value: its fields in
declaration order, each with its `hcl` tag. -/
def RemoteRepositoryBaseParams.reflect (r : RemoteRepositoryBaseParams) : GoValue :=
  .struct [
    (⟨"Key", "key"⟩, .string r.Key),
    (⟨"Rclass", ""⟩, .string r.Rclass),
    (⟨"PackageType", "package_type"⟩, .string r.PackageType),
    (⟨"Url", "url"⟩, .string r.Url),
    (⟨"Username", "username"⟩, .string r.Username),
    (⟨"Password", "password"⟩, .string r.Password),
    (⟨"Proxy", "proxy"⟩, .string r.Proxy),
    (⟨"Description", "description"⟩, .string r.Description),
    (⟨"Notes", "notes"⟩, .string r.Notes),
    (⟨"IncludesPattern", "includes_pattern"⟩, .string r.IncludesPattern),
    (⟨"ExcludesPattern", "excludes_pattern"⟩, .string r.ExcludesPattern),
    (⟨"RepoLayoutRef", "repo_layout_ref"⟩, .string r.RepoLayoutRef),
    (⟨"HardFail", "hard_fail"⟩, boolPtr r.HardFail),
    (⟨"Offline", "offline"⟩, boolPtr r.Offline),
    (⟨"BlackedOut", "blacked_out"⟩, boolPtr r.BlackedOut),
    (⟨"XrayIndex", "xray_index"⟩, boolPtr r.XrayIndex),
    (⟨"PropagateQueryParams", "propagate_query_params"⟩, .bool r.PropagateQueryParams),
    (⟨"PriorityResolution", "priority_resolution"⟩, .bool r.PriorityResolution),
    (⟨"StoreArtifactsLocally", "store_artifacts_locally"⟩, boolPtr r.StoreArtifactsLocally),
    (⟨"SocketTimeoutMillis", "socket_timeout_millis"⟩, .int r.SocketTimeoutMillis),
    (⟨"LocalAddress", "local_address"⟩, .string r.LocalAddress),
    (⟨"RetrievalCachePeriodSecs", "retrieval_cache_period_seconds"⟩,
      .int r.RetrievalCachePeriodSecs),
    (⟨"FailedRetrievalCachePeriodSecs", ""⟩, .int r.FailedRetrievalCachePeriodSecs),
    (⟨"MissedRetrievalCachePeriodSecs", "missed_cache_period_seconds"⟩,
      .int r.MissedRetrievalCachePeriodSecs),
    (⟨"UnusedArtifactsCleanupEnabled", "unused_artifacts_cleanup_period_enabled"⟩,
      boolPtr r.UnusedArtifactsCleanupEnabled),
    (⟨"UnusedArtifactsCleanupPeriodHours", "unused_artifacts_cleanup_period_hours"⟩,
      .int r.UnusedArtifactsCleanupPeriodHours),
    (⟨"AssumedOfflinePeriodSecs", "assumed_offline_period_secs"⟩,
      .int r.AssumedOfflinePeriodSecs),
    (⟨"ShareConfiguration", "share_configuration"⟩, boolPtr r.ShareConfiguration),
    (⟨"SynchronizeProperties", "synchronize_properties"⟩, boolPtr r.SynchronizeProperties),
    (⟨"BlockMismatchingMimeTypes", "block_mismatching_mime_types"⟩,
      boolPtr r.BlockMismatchingMimeTypes),
    (⟨"PropertySets", "property_sets"⟩, .strings r.PropertySets),
    (⟨"AllowAnyHostAuth", "allow_any_host_auth"⟩, boolPtr r.AllowAnyHostAuth),
    (⟨"EnableCookieManagement", "enable_cookie_management"⟩, boolPtr r.EnableCookieManagement),
    (⟨"BypassHeadRequests", "bypass_head_requests"⟩, boolPtr r.BypassHeadRequests),
    (⟨"ClientTlsCertificate", "client_tls_certificate"⟩, .string r.ClientTlsCertificate),
    (⟨"ContentSynchronisation", "content_synchronisation"⟩,
      .ptr (r.ContentSynchronisation.map ContentSynchronisation.reflect))
  ]

/-! ## repositories.go: the reflection-driven packer -/

/-- Embedding of `AutoMapper`: a field and its value give the entries to merge; `none` is
a panic. -/
abbrev AutoMapper := StructField → GoValue → Option GoMap

/-- Embedding of `checkForHcl`, repositories.go line 775. -/
def checkForHcl (mapper : AutoMapper) : AutoMapper :=
  fun field thing =>
    if field.hcl ≠ "" then mapper field thing else some []

/-- Modelled from the spec: `castToInterfaceArr` is not among the sources; the spec has the
string slice converted to generic values, element by element. -/
def castToInterfaceArr (xs : List String) : GoValue :=
  .ifaces (xs.map GoValue.string)

mutual
/-- Embedding of `findInspector`, repositories.go line 784, applied to a field and its
value; the kind of the value selects the branch. A nil pointer dereferences to the zero
`reflect.Value`, which is not addressable. A slice that is not a `[]string` fails the type
assertion, and the walk of a `*schema.Set` panics on its unexported fields. -/
def findInspector (field : StructField) : GoValue → Option GoMap
  | .struct fs => lookupLoop fs []
  | .ptr target =>
    checkForHcl (fun field _ =>
      match target with
      | none => some []
      | some (.struct fs) =>
        match lookupLoop fs [] with
        | some inner => some [(field.hcl, GoValue.ifaces [GoValue.map inner])]
        | none => none
      | some deref => some [(field.hcl, deref)]) field (.ptr target)
  | .set members =>
    checkForHcl (fun _ _ => none) field (.set members)
  | .strings xs =>
    checkForHcl (fun field _ => some [(field.hcl, castToInterfaceArr xs)]) field (.strings xs)
  | .ifaces xs =>
    checkForHcl (fun _ _ => none) field (.ifaces xs)
  | thing =>
    checkForHcl (fun field thing => some [(field.hcl, thing)]) field thing
/-- The loop of `lookup`, repositories.go line 827: the entries of each field's
inspector are assigned into `values`, field after field. -/
def lookupLoop : List (StructField × GoValue) → GoMap → Option GoMap
  | [], values => some values
  | (field, thing) :: rest, values =>
    match findInspector field thing with
    | some entries => lookupLoop rest (GoMap.merge values entries)
    | none => none
end

/-- Embedding of `lookup`, repositories.go line 818: the payload is a struct or a
pointer to one; anything else panics in `NumField` or `Field`. -/
def lookup : GoValue → Option GoMap
  | .struct fs => lookupLoop fs []
  | .ptr (some (.struct fs)) => lookupLoop fs []
  | _ => none

/-! ## repositories.go: the hand-written remote packer -/

/-- Embedding of `Lens`, the setter returned by `mkLens`: key and value are written
into the state `σ` the setter closes over (resource data and collected errors). -/
abbrev Lens (σ : Type) := String → GoValue → σ → σ

/-- Model of `schema.NewSet(schema.HashString, items)`: the set value holding the
items. -/
def schema.NewSet (items : GoValue) : GoValue :=
  match items with
  | .ifaces xs => .set xs
  | v => .set [v]

/-- A statement acting on the setter's state; `none` is a panic. -/
abbrev Stmt (σ : Type) := σ → Option σ

/-- Runs statements in order; a panic ends the run. -/
def runStmts {σ : Type} : List (Stmt σ) → σ → Option σ
  | [], d => some d
  | stmt :: rest, d =>
    match stmt d with
    | some d1 => runStmts rest d1
    | none => none

/-- The statement `setValue(key, value)`. -/
def Lens.call {σ : Type} (setValue : Lens σ) (key : String) (value : GoValue) : Stmt σ :=
  fun d => some (setValue key value d)

/-- The statement `setValue(key, *p)` for a `*bool` field: the argument is evaluated first,
and dereferencing nil panics. -/
def Lens.callDeref {σ : Type} (setValue : Lens σ) (key : String) (p : Option Bool) : Stmt σ :=
  fun d =>
    match p with
    | some b => some (setValue key (.bool b) d)
    | none => none

/-- Embedding of `packBaseRemoteRepo`, repositories.go line 586. `setValue` is the setter
`mkLens(d)` gives (`mkLens` is not among the sources) and `d` the state it closes over. -/
def packBaseRemoteRepo {σ : Type} (setValue : Lens σ) (repo : RemoteRepositoryBaseParams) :
    σ → Option σ :=
  runStmts [
    setValue.call "key" (.string repo.Key),
    setValue.call "package_type" (.string repo.PackageType),
    setValue.call "url" (.string repo.Url),
    setValue.call "username" (.string repo.Username),
    setValue.call "proxy" (.string repo.Proxy),
    setValue.call "description" (.string repo.Description),
    setValue.call "notes" (.string repo.Notes),
    setValue.call "includes_pattern" (.string repo.IncludesPattern),
    setValue.call "excludes_pattern" (.string repo.ExcludesPattern),
    setValue.call "repo_layout_ref" (.string repo.RepoLayoutRef),
    setValue.callDeref "hard_fail" repo.HardFail,
    setValue.callDeref "offline" repo.Offline,
    setValue.callDeref "blacked_out" repo.BlackedOut,
    setValue.callDeref "xray_index" repo.XrayIndex,
    setValue.callDeref "store_artifacts_locally" repo.StoreArtifactsLocally,
    setValue.call "socket_timeout_millis" (.int repo.SocketTimeoutMillis),
    setValue.call "local_address" (.string repo.LocalAddress),
    setValue.call "retrieval_cache_period_seconds" (.int repo.RetrievalCachePeriodSecs),
    setValue.call "missed_cache_period_seconds" (.int repo.MissedRetrievalCachePeriodSecs),
    setValue.call "assumed_offline_period_secs" (.int repo.AssumedOfflinePeriodSecs),
    setValue.call "unused_artifacts_cleanup_period_hours"
      (.int repo.UnusedArtifactsCleanupPeriodHours),
    setValue.callDeref "share_configuration" repo.ShareConfiguration,
    setValue.callDeref "synchronize_properties" repo.SynchronizeProperties,
    setValue.callDeref "block_mismatching_mime_types" repo.BlockMismatchingMimeTypes,
    setValue.call "property_sets" (schema.NewSet (castToInterfaceArr repo.PropertySets)),
    setValue.callDeref "allow_any_host_auth" repo.AllowAnyHostAuth,
    setValue.callDeref "enable_cookie_management" repo.EnableCookieManagement,
    setValue.callDeref "bypass_head_requests" repo.BypassHeadRequests,
    setValue.call "client_tls_certificate" (.string repo.ClientTlsCertificate),
    setValue.call "propagate_query_params" (.bool repo.PropagateQueryParams),
    fun d =>
      match repo.ContentSynchronisation with
      | some cs =>
        setValue.call "content_synchronisation"
          (.ifaces [.map [("enabled", .bool cs.Enabled)]]) d
      | none => some d
  ]

/-- The setter that records each write, in order. -/
def recordingLens : Lens (List (String × GoValue)) :=
  fun key value writes => writes ++ [(key, value)]

/-! ## Helpers for stating properties of payloads and maps -/

/-- Whether the value is a Go string, int or bool. -/
def GoValue.isScalar : GoValue → Bool
  | .string _ => true
  | .int _ => true
  | .bool _ => true
  | _ => false

/-- The fields of a struct value, in declaration order. -/
def GoValue.fields : GoValue → List (StructField × GoValue)
  | .struct fs => fs
  | _ => []

/-- Assigns the value under the key when there is one. -/
def GoMap.put (m : GoMap) (kv : String × Option GoValue) : GoMap :=
  match kv.2 with
  | some v => GoMap.set m kv.1 v
  | none => m

/-- The map built by assigning, in order, every pair that has a value. -/
def GoMap.ofOptions (l : List (String × Option GoValue)) : GoMap :=
  l.foldl GoMap.put []

/-! ## provider.go: the response hook of the client -/

/-- Embedding of `http.StatusBadRequest`. -/
def http.StatusBadRequest : Int := 400

/-- The verb as `Request.Method` prints it. -/
def Method.name : Method → String
  | .GET => "GET"
  | .PUT => "PUT"
  | .POST => "POST"
  | .DELETE => "DELETE"
  | .HEAD => "HEAD"

/-- Embedding of the `OnAfterResponse` hook installed by `buildResty`, provider.go
line 56: a missing response and every status from 400 up become an error. -/
def buildResty.OnAfterResponse (method : Method) (url : String) (response : Option Response) :
    Option Error :=
  match response with
  | none => some "no response found"
  | some r =>
    if r.StatusCode ≥ http.StatusBadRequest then
      some ("\n" ++ toString r.StatusCode ++ " " ++ method.name ++ " " ++ url ++ "\n" ++ r.Body)
    else none

/-- A client configured by `buildResty` in front of a server that answers every request
with one response; `decode` is what the client stores into the `SetResult` value. -/
def servedBy {P : Type} (server : Method → String → Response) (decode : Response → Option P) :
    Client P :=
  fun _ call =>
    let r := server call.method call.url
    { resp := some r,
      err := buildResty.OnAfterResponse call.method call.url (some r),
      result := decode r }

/-! ## Sample inputs -/

/-- A server that accepts every write and has no repository to show: GET and DELETE are
answered 404. -/
def sampleGoneServer : Method → String → Response
  | .GET, _ => ⟨404, "not found"⟩
  | .DELETE, _ => ⟨404, "not found"⟩
  | _, _ => ⟨200, ""⟩

/-- A server that answers every request with 200. -/
def sampleOkServer : Method → String → Response :=
  fun _ _ => ⟨200, "ok"⟩

/-- A server that answers every request with 500. -/
def sampleBrokenServer : Method → String → Response :=
  fun _ _ => ⟨500, "boom"⟩

/-- An unpack function in the style of the package: the payload carries the `key`
attribute, which is also the id. -/
def sampleUnpack : UnpackFunc String :=
  fun d =>
    match d.attrs.get? "key" with
    | some (.string k) => .ok (k, k)
    | _ => .error "key is not set"

/-- A pack function in the style of the package: it writes the `key` attribute. -/
def samplePack : PackFunc String :=
  fun repo d => (none, { d with attrs := d.attrs.set "key" (.string repo) })

/-- A constructor of empty payloads. -/
def sampleConstruct : Constructor String :=
  fun _ => ""

/-- Resource data that declares the key `my-repo` and has no id yet. -/
def sampleNew : World String :=
  { d := { id := "", attrs := [("key", .string "my-repo")] }, log := [] }

/-- Resource data with id `old-repo` whose `key` attribute reads `new-repo`. -/
def sampleRenamed : World String :=
  { d := { id := "old-repo", attrs := [("key", .string "new-repo")] }, log := [] }

/-- Resource data with id `my-repo` and no attributes. -/
def sampleStale : World String :=
  { d := { id := "my-repo", attrs := [] }, log := [] }

/-- A read function that returns at once, leaving the state as it finds it. -/
def sampleProbe : ContextFunc String :=
  fun _ w => ([], w)

/-- A remote payload as decoded from a response that carries the key, the URL and the
content-synchronisation block and none of the optional flags. -/
def sampleRemote : RemoteRepositoryBaseParams :=
  { Key := "remote-repo", Rclass := "remote", PackageType := "generic",
    Url := "https://example.org/repo", Username := "", Password := "", Proxy := "",
    Description := "", Notes := "", IncludesPattern := "**/*", ExcludesPattern := "",
    RepoLayoutRef := "", HardFail := none, Offline := none, BlackedOut := none,
    XrayIndex := none, PropagateQueryParams := false, PriorityResolution := false,
    StoreArtifactsLocally := none, SocketTimeoutMillis := 0, LocalAddress := "",
    RetrievalCachePeriodSecs := 0, FailedRetrievalCachePeriodSecs := 0,
    MissedRetrievalCachePeriodSecs := 0, UnusedArtifactsCleanupEnabled := none,
    UnusedArtifactsCleanupPeriodHours := 0, AssumedOfflinePeriodSecs := 0,
    ShareConfiguration := none, SynchronizeProperties := none,
    BlockMismatchingMimeTypes := none, PropertySets := [], AllowAnyHostAuth := none,
    EnableCookieManagement := none, BypassHeadRequests := none, ClientTlsCertificate := "",
    ContentSynchronisation := some ⟨true, ⟨false⟩, ⟨false⟩, ⟨false⟩⟩ }

/-- The steps of a literal text. -/
def litSteps (text : List Char) : List Inst :=
  text.map fun c => Inst.one (.lit c)

/-! ## repositories.go: existence probe -/

/-- Embedding of `checkRepo`, repositories.go line 201: `request.Head(repositoriesEndpoint + id)`. -/
def checkRepo {P : Type} (id : String) (request : Request P) (m : Client P) (w : World P) :
    Exchange P × World P :=
  w.execute m ⟨.HEAD, repositoriesEndpoint ++ id, request⟩

/-- Embedding of `repoExists`, repositories.go line 206: the pair `(err == nil, err)`. -/
def repoExists {P : Type} (m : Client P) (w : World P) : (Bool × Option Error) × World P :=
  let (ex, w1) := checkRepo w.d.Id (Request.R.AddRetryCondition retry400) m w
  ((ex.err.isNone, ex.err), w1)

/-! ## provider.go: authentication -/

/-- The part of `resty.Client` that authentication touches: the bearer token, the
headers sent with every request, and the basic-auth credentials. -/
structure RestyClient where
  Token : String
  Header : List (String × String)
  UserInfo : Option (String × String)
deriving DecidableEq, Repr

/-- Model of `(*Client).SetAuthToken`. -/
def RestyClient.SetAuthToken (c : RestyClient) (token : String) : RestyClient :=
  { c with Token := token }

/-- Model of `(*Client).SetHeader`: the header replaces an earlier one of that name. -/
def RestyClient.SetHeader (c : RestyClient) (header value : String) : RestyClient :=
  { c with Header := (header, value) :: c.Header.filter (fun kv => kv.1 != header) }

/-- Model of `(*Client).SetBasicAuth`. -/
def RestyClient.SetBasicAuth (c : RestyClient) (username password : String) : RestyClient :=
  { c with UserInfo := some (username, password) }

/-- Embedding of `addAuthToResty`, provider.go line 74: the pair `(*resty.Client, error)`. -/
def addAuthToResty (client : RestyClient) (username password apiKey accessToken : String) :
    Option RestyClient × Option Error :=
  if accessToken ≠ "" then
    (some (client.SetAuthToken accessToken), none)
  else if apiKey ≠ "" then
    (some (client.SetHeader "X-JFrog-Art-Api" apiKey), none)
  else if username ≠ "" ∧ password ≠ "" then
    (some (client.SetBasicAuth username password), none)
  else
    (none, some "no authentication details supplied")

/-- A client without any authentication set. -/
def sampleBareClient : RestyClient :=
  { Token := "", Header := [("content-type", "application/json")], UserInfo := none }

/-! ## The field accessor (util.go is not among the sources) -/

/-- The wrapper `ResourceData{*schema.ResourceData}` the unpack functions build. The
resource data of the embedding does not hold the last-known state, so the `HasChange`
method of the SDK is carried along as a function of the attribute name. -/
structure Accessor where
  data : ResourceData
  HasChange : String → Bool

/-- Whether a read in only-if-changed mode yields the zero value: the flag is on and the
attribute has not changed. -/
def Accessor.suppressed (d : Accessor) (key : String) (onlyIfChanged : Bool) : Bool :=
  onlyIfChanged && !d.HasChange key

/-- Modelled from the spec: `getString` is not among the sources; it returns the
attribute's current value as a string, the empty string when the attribute is missing
or when only-if-changed is on and the value is unchanged. -/
def Accessor.getString (d : Accessor) (key : String) (onlyIfChanged : Bool) : String :=
  if d.suppressed key onlyIfChanged then ""
  else
    match d.data.attrs.get? key with
    | some (.string s) => s
    | _ => ""

/-- Modelled from the spec: `getBool` is not among the sources; it returns the
attribute's current value as a bool, false when the attribute is missing or when
only-if-changed is on and the value is unchanged. -/
def Accessor.getBool (d : Accessor) (key : String) (onlyIfChanged : Bool) : Bool :=
  if d.suppressed key onlyIfChanged then false
  else
    match d.data.attrs.get? key with
    | some (.bool b) => b
    | _ => false

/-- Modelled from the spec: `getBoolRef` is not among the sources; it returns the
attribute's current value as an optional bool, absent when the attribute is missing or
when only-if-changed is on and the value is unchanged. -/
def Accessor.getBoolRef (d : Accessor) (key : String) (onlyIfChanged : Bool) : Option Bool :=
  if d.suppressed key onlyIfChanged then none
  else
    match d.data.attrs.get? key with
    | some (.bool b) => some b
    | _ => none

/-- Modelled from the spec: `getInt` is not among the sources; it returns the
attribute's current value as an int, 0 when the attribute is missing or when
only-if-changed is on and the value is unchanged. -/
def Accessor.getInt (d : Accessor) (key : String) (onlyIfChanged : Bool) : Int :=
  if d.suppressed key onlyIfChanged then 0
  else
    match d.data.attrs.get? key with
    | some (.int n) => n
    | _ => 0

/-- The strings among generic values. -/
def stringsOf (xs : List GoValue) : List String :=
  xs.filterMap fun v =>
    match v with
    | .string s => some s
    | _ => none

/-- Modelled from the spec: `getSet` is not among the sources; it returns the
attribute's current value as the strings of a set, none when the attribute is
missing. -/
def Accessor.getSet (d : Accessor) (key : String) : List String :=
  match d.data.attrs.get? key with
  | some (.set members) => stringsOf members
  | some (.ifaces xs) => stringsOf xs
  | some (.strings xs) => xs
  | _ => []

/-- Modelled from the spec: `getList` is not among the sources; it returns the
attribute's current value as a list of strings, none when the attribute is missing. -/
def Accessor.getList (d : Accessor) (key : String) : List String :=
  match d.data.attrs.get? key with
  | some (.ifaces xs) => stringsOf xs
  | some (.strings xs) => xs
  | some (.set members) => stringsOf members
  | _ => []

/-- Whether a value is the zero value of its type. -/
def GoValue.isZero : GoValue → Bool
  | .string s => s == ""
  | .int n => n == 0
  | .bool b => !b
  | .ptr target => target.isNone
  | .strings xs => xs.isEmpty
  | .ifaces xs => xs.isEmpty
  | .set members => members.isEmpty
  | .map entries => entries.isEmpty
  | .struct _ => false

/-- Model of `(*schema.ResourceData).GetOk`: the value when the attribute is set to
something other than the zero value of its type. -/
def Accessor.GetOk (d : Accessor) (key : String) : Option GoValue :=
  match d.data.attrs.get? key with
  | some v => if v.isZero then none else some v
  | none => none

/-! ## repositories.go: unpacking the remote base parameters -/

/-- The Go zero value of `ContentSynchronisation` with `Enabled` set, as the composite
literal `ContentSynchronisation{Enabled: enabled}` builds it. -/
def ContentSynchronisation.ofEnabled (enabled : Bool) : ContentSynchronisation :=
  { Enabled := enabled, Statistics := ⟨false⟩, Properties := ⟨false⟩, Source := ⟨false⟩ }

/-- Embedding of `unpackBaseRemoteRepo`, repositories.go line 650. Fields the literal
leaves out hold their zero value. `none` is the panic of a failed type assertion or of
indexing an empty list in the `content_synchronisation` block. -/
def unpackBaseRemoteRepo (hasChange : String → Bool) (s : ResourceData) :
    Option RemoteRepositoryBaseParams :=
  let d : Accessor := ⟨s, hasChange⟩
  let repo : RemoteRepositoryBaseParams :=
    { Rclass := "remote",
      Key := d.getString "key" false,
      PackageType := "invalid",
      Url := d.getString "url" false,
      Username := d.getString "username" true,
      Password := d.getString "password" true,
      Proxy := d.getString "proxy" true,
      Description := d.getString "description" true,
      Notes := d.getString "notes" true,
      IncludesPattern := d.getString "includes_pattern" true,
      ExcludesPattern := d.getString "excludes_pattern" true,
      RepoLayoutRef := d.getString "repo_layout_ref" true,
      HardFail := d.getBoolRef "hard_fail" true,
      Offline := d.getBoolRef "offline" true,
      BlackedOut := d.getBoolRef "blacked_out" true,
      XrayIndex := d.getBoolRef "xray_index" true,
      StoreArtifactsLocally := d.getBoolRef "store_artifacts_locally" true,
      SocketTimeoutMillis := d.getInt "socket_timeout_millis" true,
      LocalAddress := d.getString "local_address" true,
      RetrievalCachePeriodSecs := d.getInt "retrieval_cache_period_seconds" true,
      MissedRetrievalCachePeriodSecs := d.getInt "missed_cache_period_seconds" true,
      UnusedArtifactsCleanupEnabled := d.getBoolRef "unused_artifacts_cleanup_period_enabled" true,
      UnusedArtifactsCleanupPeriodHours := d.getInt "unused_artifacts_cleanup_period_hours" true,
      AssumedOfflinePeriodSecs := d.getInt "assumed_offline_period_secs" true,
      ShareConfiguration := d.getBoolRef "share_configuration" true,
      SynchronizeProperties := d.getBoolRef "synchronize_properties" true,
      BlockMismatchingMimeTypes := d.getBoolRef "block_mismatching_mime_types" true,
      PropertySets := d.getSet "property_sets",
      AllowAnyHostAuth := d.getBoolRef "allow_any_host_auth" true,
      EnableCookieManagement := d.getBoolRef "enable_cookie_management" true,
      BypassHeadRequests := d.getBoolRef "bypass_head_requests" true,
      ClientTlsCertificate := d.getString "client_tls_certificate" true,
      PropagateQueryParams := false,
      PriorityResolution := false,
      FailedRetrievalCachePeriodSecs := 0,
      ContentSynchronisation := none }
  match d.GetOk "content_synchronisation" with
  | some v =>
    match v with
    | .ifaces (.map contentSynchronisationConfig :: _) =>
      match GoMap.get? contentSynchronisationConfig "enabled" with
      | some (.bool enabled) =>
        some { repo with ContentSynchronisation := some (ContentSynchronisation.ofEnabled enabled) }
      | _ => none
    | _ => none
  | none => some repo

/-! ## resource_artifactory_local_repository.go: the legacy local repository -/

/-- Embedding of `LocalRepositoryBaseParams`, repositories.go line 18. -/
structure LocalRepositoryBaseParams where
  Key : String
  Rclass : String
  PackageType : String
  Description : String
  Notes : String
  IncludesPattern : String
  ExcludesPattern : String
  RepoLayoutRef : String
  BlackedOut : Option Bool
  XrayIndex : Option Bool
  PropertySets : List String
  ArchiveBrowsingEnabled : Option Bool
  OptionalIndexCompressionFormats : List String
  DownloadRedirect : Option Bool
deriving DecidableEq, Repr

/-- The Go zero value of `LocalRepositoryBaseParams`. -/
def LocalRepositoryBaseParams.zero : LocalRepositoryBaseParams :=
  { Key := "", Rclass := "", PackageType := "", Description := "", Notes := "",
    IncludesPattern := "", ExcludesPattern := "", RepoLayoutRef := "", BlackedOut := none,
    XrayIndex := none, PropertySets := [], ArchiveBrowsingEnabled := none,
    OptionalIndexCompressionFormats := [], DownloadRedirect := none }

/-- The reflected view of a `LocalRepositoryBaseParams` value. -/
def LocalRepositoryBaseParams.reflect (r : LocalRepositoryBaseParams) : GoValue :=
  .struct [
    (⟨"Key", "key"⟩, .string r.Key),
    (⟨"Rclass", ""⟩, .string r.Rclass),
    (⟨"PackageType", "package_type"⟩, .string r.PackageType),
    (⟨"Description", "description"⟩, .string r.Description),
    (⟨"Notes", "notes"⟩, .string r.Notes),
    (⟨"IncludesPattern", "includes_pattern"⟩, .string r.IncludesPattern),
    (⟨"ExcludesPattern", "excludes_pattern"⟩, .string r.ExcludesPattern),
    (⟨"RepoLayoutRef", "repo_layout_ref"⟩, .string r.RepoLayoutRef),
    (⟨"BlackedOut", "blacked_out"⟩, boolPtr r.BlackedOut),
    (⟨"XrayIndex", "xray_index"⟩, boolPtr r.XrayIndex),
    (⟨"PropertySets", "property_sets"⟩, .strings r.PropertySets),
    (⟨"ArchiveBrowsingEnabled", "archive_browsing_enabled"⟩, boolPtr r.ArchiveBrowsingEnabled),
    (⟨"OptionalIndexCompressionFormats", "index_compression_formats"⟩,
      .strings r.OptionalIndexCompressionFormats),
    (⟨"DownloadRedirect", "download_direct"⟩, boolPtr r.DownloadRedirect)
  ]

/-- Embedding of `CommonMavenGradleLocalRepositoryParams`,
resource_artifactory_local_repository.go line 138. -/
structure CommonMavenGradleLocalRepositoryParams where
  MaxUniqueSnapshots : Int
  HandleReleases : Option Bool
  HandleSnapshots : Option Bool
  SuppressPomConsistencyChecks : Option Bool
  SnapshotVersionBehavior : String
  ChecksumPolicyType : String
deriving DecidableEq, Repr

/-- The Go zero value of `CommonMavenGradleLocalRepositoryParams`. -/
def CommonMavenGradleLocalRepositoryParams.zero : CommonMavenGradleLocalRepositoryParams :=
  { MaxUniqueSnapshots := 0, HandleReleases := none, HandleSnapshots := none,
    SuppressPomConsistencyChecks := none, SnapshotVersionBehavior := "",
    ChecksumPolicyType := "" }

/-- The reflected view of a `CommonMavenGradleLocalRepositoryParams` value: no field
has an `hcl` tag. -/
def CommonMavenGradleLocalRepositoryParams.reflect
    (r : CommonMavenGradleLocalRepositoryParams) : GoValue :=
  .struct [
    (⟨"MaxUniqueSnapshots", ""⟩, .int r.MaxUniqueSnapshots),
    (⟨"HandleReleases", ""⟩, boolPtr r.HandleReleases),
    (⟨"HandleSnapshots", ""⟩, boolPtr r.HandleSnapshots),
    (⟨"SuppressPomConsistencyChecks", ""⟩, boolPtr r.SuppressPomConsistencyChecks),
    (⟨"SnapshotVersionBehavior", ""⟩, .string r.SnapshotVersionBehavior),
    (⟨"ChecksumPolicyType", ""⟩, .string r.ChecksumPolicyType)
  ]

/-- Embedding of `DebianLocalRepositoryParams`, line 147: it embeds the base parameters. -/
structure DebianLocalRepositoryParams where
  LocalRepositoryBaseParams : LocalRepositoryBaseParams
  DebianTrivialLayout : Option Bool
deriving DecidableEq, Repr

/-- The Go zero value of `DebianLocalRepositoryParams`. -/
def DebianLocalRepositoryParams.zero : DebianLocalRepositoryParams :=
  { LocalRepositoryBaseParams := LocalRepositoryBaseParams.zero, DebianTrivialLayout := none }

/-- The reflected view of a `DebianLocalRepositoryParams` value. -/
def DebianLocalRepositoryParams.reflect (r : DebianLocalRepositoryParams) : GoValue :=
  .struct [
    (⟨"LocalRepositoryBaseParams", ""⟩, r.LocalRepositoryBaseParams.reflect),
    (⟨"DebianTrivialLayout", ""⟩, boolPtr r.DebianTrivialLayout)
  ]

/-- Embedding of `RpmLocalRepositoryParams`, line 152: it embeds the base parameters. -/
structure RpmLocalRepositoryParams where
  LocalRepositoryBaseParams : LocalRepositoryBaseParams
  YumRootDepth : Int
  CalculateYumMetadata : Option Bool
  EnableFileListsIndexing : Option Bool
deriving DecidableEq, Repr

/-- The Go zero value of `RpmLocalRepositoryParams`. -/
def RpmLocalRepositoryParams.zero : RpmLocalRepositoryParams :=
  { LocalRepositoryBaseParams := LocalRepositoryBaseParams.zero, YumRootDepth := 0,
    CalculateYumMetadata := none, EnableFileListsIndexing := none }

/-- The reflected view of a `RpmLocalRepositoryParams` value. -/
def RpmLocalRepositoryParams.reflect (r : RpmLocalRepositoryParams) : GoValue :=
  .struct [
    (⟨"LocalRepositoryBaseParams", ""⟩, r.LocalRepositoryBaseParams.reflect),
    (⟨"YumRootDepth", ""⟩, .int r.YumRootDepth),
    (⟨"CalculateYumMetadata", ""⟩, boolPtr r.CalculateYumMetadata),
    (⟨"EnableFileListsIndexing", ""⟩, boolPtr r.EnableFileListsIndexing)
  ]

/-- The part of `DockerLocalRepositoryParams` known from its use: the declaration is not
among the sources, `unmarshalLocalRepository` assigns these two fields. -/
structure DockerLocalRepositoryParams where
  MaxUniqueTags : Int
  DockerApiVersion : String
deriving DecidableEq, Repr

/-- The Go zero value of the known part of `DockerLocalRepositoryParams`. -/
def DockerLocalRepositoryParams.zero : DockerLocalRepositoryParams :=
  { MaxUniqueTags := 0, DockerApiVersion := "" }

/-- Embedding of `MessyLocalRepo`, line 159. -/
structure MessyLocalRepo where
  LocalRepositoryBaseParams : LocalRepositoryBaseParams
  CommonMavenGradleLocalRepositoryParams : CommonMavenGradleLocalRepositoryParams
  DebianLocalRepositoryParams : DebianLocalRepositoryParams
  DockerLocalRepositoryParams : DockerLocalRepositoryParams
  RpmLocalRepositoryParams : RpmLocalRepositoryParams
  ForceNugetAuthentication : Bool
deriving DecidableEq, Repr

/-- The Go zero value of `MessyLocalRepo`, the literal `MessyLocalRepo{}`. -/
def MessyLocalRepo.zero : MessyLocalRepo :=
  { LocalRepositoryBaseParams := LocalRepositoryBaseParams.zero,
    CommonMavenGradleLocalRepositoryParams := CommonMavenGradleLocalRepositoryParams.zero,
    DebianLocalRepositoryParams := DebianLocalRepositoryParams.zero,
    DockerLocalRepositoryParams := DockerLocalRepositoryParams.zero,
    RpmLocalRepositoryParams := RpmLocalRepositoryParams.zero,
    ForceNugetAuthentication := false }

/-- The reflected view of a `MessyLocalRepo` value: its six fields in declaration
order. `dockerView` is the reflected view of the embedded `DockerLocalRepositoryParams`,
whose declaration is not among the sources. -/
def MessyLocalRepo.reflect (dockerView : Artifactory.DockerLocalRepositoryParams → GoValue)
    (r : MessyLocalRepo) : GoValue :=
  .struct [
    (⟨"LocalRepositoryBaseParams", ""⟩, r.LocalRepositoryBaseParams.reflect),
    (⟨"CommonMavenGradleLocalRepositoryParams", ""⟩,
      r.CommonMavenGradleLocalRepositoryParams.reflect),
    (⟨"DebianLocalRepositoryParams", ""⟩, r.DebianLocalRepositoryParams.reflect),
    (⟨"DockerLocalRepositoryParams", ""⟩, dockerView r.DockerLocalRepositoryParams),
    (⟨"RpmLocalRepositoryParams", ""⟩, r.RpmLocalRepositoryParams.reflect),
    (⟨"ForceNugetAuthentication", ""⟩, .bool r.ForceNugetAuthentication)
  ]

/-- Embedding of `unmarshalLocalRepository`, line 168. A promoted field such as `repo.Key`
is the field of the shallowest embedded struct that declares it: the base parameters
directly embedded in `MessyLocalRepo`, not those inside the Debian and RPM parameters. -/
def unmarshalLocalRepository (hasChange : String → Bool) (data : ResourceData) :
    Except Error (MessyLocalRepo × String) :=
  let d : Accessor := ⟨data, hasChange⟩
  let dockerApiVersion := d.getString "docker_api_verision" false
  let dockerApiVersion := if dockerApiVersion = "" then "V2" else dockerApiVersion
  let repo : MessyLocalRepo :=
    { LocalRepositoryBaseParams :=
        { LocalRepositoryBaseParams.zero with
          Rclass := "local",
          Key := d.getString "key" false,
          PackageType := d.getString "package_type" false,
          Description := d.getString "description" false,
          Notes := d.getString "notes" false,
          IncludesPattern := d.getString "includes_pattern" false,
          ExcludesPattern := d.getString "excludes_pattern" false,
          RepoLayoutRef := d.getString "repo_layout_ref" false,
          BlackedOut := d.getBoolRef "blacked_out" false,
          ArchiveBrowsingEnabled := d.getBoolRef "archive_browsing_enabled" false,
          PropertySets := d.getSet "property_sets",
          XrayIndex := d.getBoolRef "xray_index" false },
      CommonMavenGradleLocalRepositoryParams :=
        { HandleReleases := d.getBoolRef "handle_releases" false,
          HandleSnapshots := d.getBoolRef "handle_snapshots" false,
          ChecksumPolicyType := d.getString "checksum_policy_type" false,
          MaxUniqueSnapshots := d.getInt "max_unique_snapshots" false,
          SnapshotVersionBehavior := d.getString "snapshot_version_behavior" false,
          SuppressPomConsistencyChecks := d.getBoolRef "suppress_pom_consistency_checks" false },
      DebianLocalRepositoryParams :=
        { DebianLocalRepositoryParams.zero with
          DebianTrivialLayout := d.getBoolRef "debian_trivial_layout" false },
      DockerLocalRepositoryParams :=
        { MaxUniqueTags := d.getInt "max_unique_tags" false,
          DockerApiVersion := dockerApiVersion },
      RpmLocalRepositoryParams :=
        { RpmLocalRepositoryParams.zero with
          CalculateYumMetadata := d.getBoolRef "calculate_yum_metadata" false,
          YumRootDepth := d.getInt "yum_root_depth" false,
          EnableFileListsIndexing := d.getBoolRef "enable_file_lists_indexing" false },
      ForceNugetAuthentication := d.getBool "force_nuget_authentication" false }
  .ok (repo, repo.LocalRepositoryBaseParams.Key)

/-- The constructor registered by `resourceArtifactoryLocalRepository`, line 129. -/
def resourceArtifactoryLocalRepository.construct : Constructor MessyLocalRepo :=
  fun _ =>
    { MessyLocalRepo.zero with
      LocalRepositoryBaseParams := { LocalRepositoryBaseParams.zero with Rclass := "local" } }

/-! ## resource_artifactory_remote_cargo_repository.go -/

/-- The Go zero value of `RemoteRepositoryBaseParams`. -/
def RemoteRepositoryBaseParams.zero : RemoteRepositoryBaseParams :=
  { Key := "", Rclass := "", PackageType := "", Url := "", Username := "", Password := "",
    Proxy := "", Description := "", Notes := "", IncludesPattern := "", ExcludesPattern := "",
    RepoLayoutRef := "", HardFail := none, Offline := none, BlackedOut := none,
    XrayIndex := none, PropagateQueryParams := false, PriorityResolution := false,
    StoreArtifactsLocally := none, SocketTimeoutMillis := 0, LocalAddress := "",
    RetrievalCachePeriodSecs := 0, FailedRetrievalCachePeriodSecs := 0,
    MissedRetrievalCachePeriodSecs := 0, UnusedArtifactsCleanupEnabled := none,
    UnusedArtifactsCleanupPeriodHours := 0, AssumedOfflinePeriodSecs := 0,
    ShareConfiguration := none, SynchronizeProperties := none,
    BlockMismatchingMimeTypes := none, PropertySets := [], AllowAnyHostAuth := none,
    EnableCookieManagement := none, BypassHeadRequests := none, ClientTlsCertificate := "",
    ContentSynchronisation := none }

/-- Embedding of `CargoRemoteRepo`, resource_artifactory_remote_cargo_repository.go
line 23. -/
structure CargoRemoteRepo where
  RemoteRepositoryBaseParams : RemoteRepositoryBaseParams
  RegistryUrl : String
  AnonymousAccess : Bool

/-- The Go zero value of `CargoRemoteRepo`. -/
def CargoRemoteRepo.zero : CargoRemoteRepo :=
  { RemoteRepositoryBaseParams := RemoteRepositoryBaseParams.zero, RegistryUrl := "",
    AnonymousAccess := false }

/-- The constructor registered by `resourceArtifactoryRemoteCargoRepository`, line 30. -/
def resourceArtifactoryRemoteCargoRepository.construct : Constructor CargoRemoteRepo :=
  fun _ =>
    { CargoRemoteRepo.zero with
      RemoteRepositoryBaseParams :=
        { RemoteRepositoryBaseParams.zero with Rclass := "remote", PackageType := "cargo" } }

/-! ## resource_artifactory_virtual_repository.go -/

/-- The part of `MessyVirtualRepo`, line 95, that the package reads or writes. The four
structs it embeds are declared in `jfrog-client-go`; the fields are listed flat, under
the names by which the package reaches them. -/
structure MessyVirtualRepo where
  Key : String
  Rclass : String
  PackageType : String
  Description : String
  Notes : String
  IncludesPattern : String
  ExcludesPattern : String
  RepoLayoutRef : String
  Repositories : List String
  ArtifactoryRequestsCanRetrieveRemoteArtifacts : Option Bool
  DefaultDeploymentRepo : String
  DebianTrivialLayout : Option Bool
  KeyPair : String
  PomRepositoryReferencesCleanupPolicy : String
  ForceNugetAuthentication : Option Bool
deriving DecidableEq, Repr

/-- The Go zero value of `MessyVirtualRepo`, the literal `MessyVirtualRepo{}`. -/
def MessyVirtualRepo.zero : MessyVirtualRepo :=
  { Key := "", Rclass := "", PackageType := "", Description := "", Notes := "",
    IncludesPattern := "", ExcludesPattern := "", RepoLayoutRef := "", Repositories := [],
    ArtifactoryRequestsCanRetrieveRemoteArtifacts := none, DefaultDeploymentRepo := "",
    DebianTrivialLayout := none, KeyPair := "", PomRepositoryReferencesCleanupPolicy := "",
    ForceNugetAuthentication := none }

/-- The constructor passed to `mkRepoRead` for `readFunc`, line 76. -/
def readFunc.construct : Constructor MessyVirtualRepo :=
  fun _ => MessyVirtualRepo.zero

/-! ## Sample configurations -/

/-- A legacy local configuration that declares the key `my-repo` and the values of the
attributes common to pack and unpack. -/
def sampleLocalConfig : ResourceData :=
  { id := "",
    attrs := [("key", .string "my-repo"), ("package_type", .string "generic"),
      ("description", .string "team repository"), ("notes", .string "managed"),
      ("includes_pattern", .string "**/*"), ("excludes_pattern", .string "tmp/**"),
      ("repo_layout_ref", .string "simple-default")] }

/-- A legacy local configuration of a Docker repository that declares
`docker_api_version = "V1"`. -/
def sampleDockerConfig : ResourceData :=
  { id := "",
    attrs := [("key", .string "docker-local"), ("package_type", .string "docker"),
      ("docker_api_version", .string "V1")] }

/-- A view of the Docker parameters with the two known fields and no tag. -/
def sampleDockerView (r : DockerLocalRepositoryParams) : GoValue :=
  .struct [
    (⟨"MaxUniqueTags", ""⟩, .int r.MaxUniqueTags),
    (⟨"DockerApiVersion", ""⟩, .string r.DockerApiVersion)
  ]

/-- A remote configuration whose user name and socket timeout are set. -/
def sampleRemoteConfig : ResourceData :=
  { id := "remote-repo",
    attrs := [("key", .string "remote-repo"), ("url", .string "https://example.org/repo"),
      ("username", .string "reader"), ("socket_timeout_millis", .int 15000),
      ("offline", .bool true)] }

/-- The payload `unmarshalLocalRepository` builds from `sampleLocalConfig`. -/
def sampleLocalPayload : MessyLocalRepo :=
  { LocalRepositoryBaseParams :=
      { LocalRepositoryBaseParams.zero with
        Rclass := "local", Key := "my-repo", PackageType := "generic",
        Description := "team repository", Notes := "managed",
        IncludesPattern := "**/*", ExcludesPattern := "tmp/**",
        RepoLayoutRef := "simple-default" },
    CommonMavenGradleLocalRepositoryParams := CommonMavenGradleLocalRepositoryParams.zero,
    DebianLocalRepositoryParams := DebianLocalRepositoryParams.zero,
    DockerLocalRepositoryParams := { MaxUniqueTags := 0, DockerApiVersion := "V2" },
    RpmLocalRepositoryParams := RpmLocalRepositoryParams.zero,
    ForceNugetAuthentication := false }

/-! ## repositories.go: writing the packed map -/

/-- Model of `(*schema.ResourceData).Set` as the package sees it: a write returns an
error or none, and leaves the resource data in some state. Which writes succeed is
decided by the schema of the resource, so the method is a parameter of the packer. -/
abbrev SetFunc := String → GoValue → ResourceData → Option Error × ResourceData

/-- Modelled from the spec: `mkLens` is not among the sources. The setter it returns
writes through `d.Set`, collects every write failure and returns the failures collected
so far; its state is the resource data together with those failures. -/
def mkLens (dSet : SetFunc) : Lens (ResourceData × List Error) :=
  fun key value s =>
    match dSet key value s.1 with
    | (some err, d) => (d, s.2 ++ [err])
    | (none, d) => (d, s.2)

/-- Model of `fmt.Errorf("failed saving state %q", errors)`: the messages, each in double
quotes, separated by blanks and enclosed in brackets. -/
def failedSavingState (errors : List Error) : Error :=
  "failed saving state [" ++ " ".intercalate (errors.map fun e => "\"" ++ e ++ "\"") ++ "]"

/-- Embedding of `universalPack`, repositories.go line 839. `dSet` is the `Set` method of
the resource data; `visit` is the order in which `range` goes over the entries of the
map, which Go leaves open; `none` is a panic of `lookup`. The accumulator of the loop is
the state of the setter and the variable `errors`. -/
def universalPack (dSet : SetFunc) (visit : GoMap → List (String × GoValue))
    (payload : GoValue) (d : ResourceData) : Option (Option Error × ResourceData) :=
  let setValue := mkLens dSet
  match lookup payload with
  | none => none
  | some values =>
    let (lens, errors) :=
      (visit values).foldl
        (fun (acc : (ResourceData × List Error) × List Error) kv =>
          let lens := setValue kv.1 kv.2 acc.1
          (lens, lens.2))
        ((d, []), [])
    if errors.length > 0 then
      some (some (failedSavingState errors), lens.1)
    else
      some (none, lens.1)

/-- Model of `(*schema.ResourceData).Set` for one schema: `fits key value` says whether
the schema declares the attribute with a type the value fits. A fitting write stores the
value, any other write returns an error and stores nothing. -/
def schemaSet (fits : String → GoValue → Bool) : SetFunc :=
  fun key value d =>
    if fits key value then (none, { d with attrs := d.attrs.set key value })
    else (some ("Invalid address to set: " ++ key), d)

/-- A payload with three tagged string fields. -/
def sampleTriple : GoValue :=
  .struct [
    (⟨"Alpha", "alpha"⟩, .string "a"),
    (⟨"Beta", "beta"⟩, .string "b"),
    (⟨"Gamma", "gamma"⟩, .string "c")
  ]

/-- A schema that declares only the attribute `beta`. -/
def sampleBetaOnly : String → GoValue → Bool :=
  fun key _ => key == "beta"

/-! ## provider.go and resty: the retry loop of the client -/

/-- Embedding of the retry count `buildResty` sets, provider.go line 68:
`SetRetryCount(5)`. -/
def buildResty.RetryCount : Nat := 5

/-- Outcome of one attempt that got a response: the response and the error of the
response hook. -/
abbrev Attempt := Response × Option Error

/-- Model of the retry decision in resty's `Backoff` for an attempt that got a response:
the retry conditions of the request are asked in order, and the first that holds asks
for a retry. An error of the response hook is not retried by default. -/
def needsRetry (conditions : List RetryConditionFunc) (attempt : Attempt) : Bool :=
  conditions.any fun condition => condition attempt.1 attempt.2

/-- Model of resty's `Backoff` as `Request.Execute` runs it, waiting times left out: the
operation is tried, and tried again while a retry is needed and retries are left. The
result is the attempts that were retried, in order, and the final attempt. -/
def Backoff (conditions : List RetryConditionFunc) (operation : Nat → Attempt) :
    Nat → Nat → List Attempt × Attempt
  | 0, attempt => ([], operation attempt)
  | retries + 1, attempt =>
    if needsRetry conditions (operation attempt) then
      ((operation attempt) :: (Backoff conditions operation retries (attempt + 1)).1,
        (Backoff conditions operation retries (attempt + 1)).2)
    else ([], operation attempt)

/-- The attempts `Request.Execute` makes through a client configured by `buildResty`, in
front of a server whose answer to the n-th attempt is `server n`: every attempt sends the
same request. -/
def restyAttempts {P : Type} (server : Nat → Sent P → Response) (call : Sent P) :
    List Attempt × Attempt :=
  Backoff call.request.retryConditions
    (fun n =>
      (server n call, buildResty.OnAfterResponse call.method call.url (some (server n call))))
    buildResty.RetryCount 0

/-- A client configured by `buildResty` that retries: the exchange is response and error
of the final attempt. -/
def retryingClient {P : Type} (server : Nat → Sent P → Response)
    (decode : Response → Option P) : Client P :=
  fun _ call =>
    let final := (restyAttempts server call).2
    { resp := some final.1, err := final.2, result := decode final.1 }

/-- A server that answers every attempt with the merge-race failure. -/
def sampleMergeRaceServer : Nat → Sent String → Response :=
  fun _ _ => ⟨500, "Could not merge and save new descriptor"⟩

/-- A server that answers the first two attempts with the merge-race failure and later
ones with 200. -/
def sampleFlakyServer : Nat → Sent String → Response :=
  fun n _ => if n < 2 then ⟨500, "Could not merge and save new descriptor"⟩ else ⟨200, "ok"⟩

/-- A server whose merge-race failures name the attempt. -/
def sampleCountingServer : Nat → Sent String → Response :=
  fun n _ => ⟨500, "Could not merge and save new descriptor, attempt " ++ toString n⟩

/-! ## repositories.go: the package type validator -/

/-- Model of `strings.EqualFold` on ASCII letters: equality after lower-casing. -/
def strings.EqualFold (s t : String) : Bool :=
  s.toLower == t.toLower

/-- Model of `validation.StringInSlice`: no error when the value is one of `valid`, up to
case when `ignoreCase` is set, and one error otherwise. -/
def validation.StringInSlice (valid : List String) (ignoreCase : Bool) : SchemaValidateFunc :=
  fun v k =>
    if valid.any (fun str => v == str || (ignoreCase && strings.EqualFold v str)) then ([], [])
    else
      ([], ["expected " ++ k ++ " to be one of [" ++ " ".intercalate valid ++ "], got " ++ v])

/-- Embedding of `repoTypesSupported`, repositories.go line 219. -/
def repoTypesSupported : List String := [
  "alpine",
  "bower",
  "cargo",
  "chef",
  "cocoapods",
  "composer",
  "conan",
  "conda",
  "cran",
  "debian",
  "docker",
  "gems",
  "generic",
  "gitlfs",
  "go",
  "gradle",
  "helm",
  "ivy",
  "maven",
  "npm",
  "nuget",
  "opkg",
  "p2",
  "puppet",
  "pypi",
  "rpm",
  "sbt",
  "vagrant",
  "vcs"
]

/-- Embedding of `repoTypeValidator`, repositories.go line 212. -/
def repoTypeValidator : SchemaValidateFunc :=
  validation.StringInSlice repoTypesSupported false

/-! ## The packed map of the Cargo payload and of the base payloads -/

/-- The reflected view of a `CargoRemoteRepo` value: the embedded base parameters, then
its own two fields. -/
def CargoRemoteRepo.reflect (c : CargoRemoteRepo) : GoValue :=
  .struct [
    (⟨"RemoteRepositoryBaseParams", ""⟩, c.RemoteRepositoryBaseParams.reflect),
    (⟨"RegistryUrl", "git_registry_url"⟩, .string c.RegistryUrl),
    (⟨"AnonymousAccess", "anonymous_access"⟩, .bool c.AnonymousAccess)
  ]

/-- Embedding of `VirtualRepositoryBaseParams`, repositories.go line 96. -/
structure VirtualRepositoryBaseParams where
  Key : String
  Rclass : String
  PackageType : String
  Description : String
  Notes : String
  IncludesPattern : String
  ExcludesPattern : String
  RepoLayoutRef : String
  Repositories : List String
  ArtifactoryRequestsCanRetrieveRemoteArtifacts : Bool
  DefaultDeploymentRepo : String
deriving DecidableEq, Repr

/-- The reflected view of a `VirtualRepositoryBaseParams` value. -/
def VirtualRepositoryBaseParams.reflect (r : VirtualRepositoryBaseParams) : GoValue :=
  .struct [
    (⟨"Key", "key"⟩, .string r.Key),
    (⟨"Rclass", ""⟩, .string r.Rclass),
    (⟨"PackageType", "package_type"⟩, .string r.PackageType),
    (⟨"Description", "description"⟩, .string r.Description),
    (⟨"Notes", "notes"⟩, .string r.Notes),
    (⟨"IncludesPattern", "includes_pattern"⟩, .string r.IncludesPattern),
    (⟨"ExcludesPattern", "excludes_pattern"⟩, .string r.ExcludesPattern),
    (⟨"RepoLayoutRef", "repo_layout_ref"⟩, .string r.RepoLayoutRef),
    (⟨"Repositories", "repositories"⟩, .strings r.Repositories),
    (⟨"ArtifactoryRequestsCanRetrieveRemoteArtifacts",
        "artifactory_requests_can_retrieve_remote_artifacts"⟩,
      .bool r.ArtifactoryRequestsCanRetrieveRemoteArtifacts),
    (⟨"DefaultDeploymentRepo", "default_deployment_repo"⟩, .string r.DefaultDeploymentRepo)
  ]

/-- The value types of `schema.ValueType` the base schemas use. -/
inductive schema.ValueType where
  | TypeBool
  | TypeInt
  | TypeString
  | TypeList
  | TypeSet
deriving DecidableEq, Repr

/-- The part of `schema.Schema` that says what an attribute is: its type and whether it
is required, optional, computed, replaced on change, sensitive. Descriptions, defaults,
validators and element schemas are left out. -/
structure schema.Schema where
  ValueType : schema.ValueType
  Required : Bool := false
  Optional : Bool := false
  Computed : Bool := false
  ForceNew : Bool := false
  Sensitive : Bool := false
deriving DecidableEq, Repr

/-- Embedding of `baseLocalRepoSchema`, repositories.go line 250: the attributes it
declares, in source order. -/
def baseLocalRepoSchema : List (String × schema.Schema) := [
  ("key", { ValueType := .TypeString, Required := true, ForceNew := true }),
  ("package_type",
    { ValueType := .TypeString, Required := false, Computed := true, ForceNew := true }),
  ("description", { ValueType := .TypeString, Optional := true }),
  ("notes", { ValueType := .TypeString, Optional := true }),
  ("includes_pattern", { ValueType := .TypeString, Optional := true, Computed := true }),
  ("excludes_pattern", { ValueType := .TypeString, Optional := true, Computed := true }),
  ("repo_layout_ref", { ValueType := .TypeString, Optional := true, Computed := true }),
  ("blacked_out", { ValueType := .TypeBool, Optional := true }),
  ("xray_index", { ValueType := .TypeBool, Optional := true, Computed := true }),
  ("property_sets", { ValueType := .TypeSet, Optional := true }),
  ("archive_browsing_enabled", { ValueType := .TypeBool, Optional := true }),
  ("optional_index_compression_formats", { ValueType := .TypeSet, Optional := true }),
  ("download_direct", { ValueType := .TypeBool, Optional := true })
]

/-- Embedding of `baseRemoteSchema`, repositories.go line 319: the attributes it
declares, in source order. -/
def baseRemoteSchema : List (String × schema.Schema) := [
  ("key", { ValueType := .TypeString, Required := true, ForceNew := true }),
  ("package_type",
    { ValueType := .TypeString, Required := false, Computed := true, ForceNew := true }),
  ("url", { ValueType := .TypeString, Required := true }),
  ("username", { ValueType := .TypeString, Optional := true }),
  ("password", { ValueType := .TypeString, Optional := true, Sensitive := true }),
  ("proxy", { ValueType := .TypeString, Optional := true, Computed := true }),
  ("description", { ValueType := .TypeString, Optional := true, Computed := true }),
  ("notes", { ValueType := .TypeString, Optional := true }),
  ("includes_pattern", { ValueType := .TypeString, Optional := true, Computed := true }),
  ("excludes_pattern", { ValueType := .TypeString, Optional := true, Computed := true }),
  ("repo_layout_ref", { ValueType := .TypeString, Optional := true, Computed := true }),
  ("hard_fail", { ValueType := .TypeBool, Optional := true, Computed := true }),
  ("offline", { ValueType := .TypeBool, Optional := true, Computed := true }),
  ("blacked_out", { ValueType := .TypeBool, Optional := true, Computed := true }),
  ("xray_index", { ValueType := .TypeBool, Optional := true, Computed := true }),
  ("store_artifacts_locally", { ValueType := .TypeBool, Optional := true, Computed := true }),
  ("socket_timeout_millis", { ValueType := .TypeInt, Optional := true, Computed := true }),
  ("local_address", { ValueType := .TypeString, Optional := true }),
  ("retrieval_cache_period_seconds", { ValueType := .TypeInt, Optional := true, Computed := true }),
  ("failed_retrieval_cache_period_secs",
    { ValueType := .TypeInt, Optional := true, Computed := true }),
  ("missed_cache_period_seconds", { ValueType := .TypeInt, Optional := true, Computed := true }),
  ("unused_artifacts_cleanup_period_enabled",
    { ValueType := .TypeBool, Optional := true, Computed := true }),
  ("unused_artifacts_cleanup_period_hours",
    { ValueType := .TypeInt, Optional := true, Computed := true }),
  ("assumed_offline_period_secs", { ValueType := .TypeInt, Optional := true }),
  ("share_configuration", { ValueType := .TypeBool, Optional := true, Computed := true }),
  ("synchronize_properties", { ValueType := .TypeBool, Optional := true, Computed := true }),
  ("block_mismatching_mime_types", { ValueType := .TypeBool, Optional := true, Computed := true }),
  ("property_sets", { ValueType := .TypeSet, Optional := true }),
  ("allow_any_host_auth", { ValueType := .TypeBool, Optional := true, Computed := true }),
  ("enable_cookie_management", { ValueType := .TypeBool, Optional := true, Computed := true }),
  ("bypass_head_requests", { ValueType := .TypeBool, Optional := true, Computed := true }),
  ("priority_resolution", { ValueType := .TypeBool, Optional := true, Computed := true }),
  ("client_tls_certificate", { ValueType := .TypeString, Optional := true, Computed := true }),
  ("content_synchronisation", { ValueType := .TypeList, Optional := true, Computed := true }),
  ("propagate_query_params", { ValueType := .TypeBool, Optional := true })
]

/-- Embedding of `baseVirtualRepoSchema`, repositories.go line 531: the attributes it
declares, in source order. -/
def baseVirtualRepoSchema : List (String × schema.Schema) := [
  ("key", { ValueType := .TypeString, Required := true, ForceNew := true }),
  ("package_type",
    { ValueType := .TypeString, Required := false, Computed := true, ForceNew := true }),
  ("description", { ValueType := .TypeString, Optional := true }),
  ("notes", { ValueType := .TypeString, Optional := true }),
  ("includes_pattern", { ValueType := .TypeString, Optional := true }),
  ("excludes_pattern", { ValueType := .TypeString, Optional := true }),
  ("repo_layout_ref", { ValueType := .TypeString, Optional := true, Computed := true }),
  ("repositories", { ValueType := .TypeList, Required := true }),
  ("artifactory_requests_can_retrieve_remote_artifacts",
    { ValueType := .TypeBool, Optional := true }),
  ("default_deployment_repo", { ValueType := .TypeString, Optional := true })
]

/-- The attribute names a schema declares. -/
def declared (s : List (String × schema.Schema)) : List String :=
  s.map Prod.fst

/-- The writes a schema admits by name: the attribute is declared. -/
def declaredIn (s : List (String × schema.Schema)) : String → GoValue → Bool :=
  fun key _ => (declared s).contains key

/-- The entries the inspectors of the fields give, field after field; `none` when one of
them panics. -/
def fieldEntries : List (StructField × GoValue) → Option (List (String × GoValue))
  | [] => some []
  | (field, thing) :: rest =>
    match findInspector field thing, fieldEntries rest with
    | some entries, some more => some (entries ++ more)
    | _, _ => none

/-- A legacy local payload in which the flag `BlackedOut` is absent from the base
parameters and present in the base parameters embedded in the RPM parameters. -/
def sampleShadowed : MessyLocalRepo :=
  { MessyLocalRepo.zero with
    RpmLocalRepositoryParams :=
      { RpmLocalRepositoryParams.zero with
        LocalRepositoryBaseParams :=
          { LocalRepositoryBaseParams.zero with BlackedOut := some true } } }

/-! ## Lemmas on the matcher -/

theorem starLoop_of_cont {cl : CharClass} {k : List Char → Bool} {s : List Char}
    (h : k s = true) : starLoop cl k s = true := by
  cases s with
  | nil => simpa [starLoop] using h
  | cons c cs => simp [starLoop, h]

theorem compile_key_pattern :
    regexp.MustCompile "^[0-9].*" =
      { beginText := true, prog := [.one (.range '0' '9'), .star .anyNotNL] } := by
  rfl

theorem range_digit_accepts (c : Char) :
    (CharClass.range '0' '9').accepts c = c.isDigit := by
  simp only [CharClass.accepts, Char.isDigit]
  rfl

theorem key_pattern_matches (s : String) :
    (regexp.MustCompile "^[0-9].*").MatchString s = true ↔
      ∃ c, s.data.head? = some c ∧ c.isDigit = true := by
  rw [compile_key_pattern]
  simp only [Regexp.MatchString, if_true]
  cases hs : s.data with
  | nil => simp [matchHere]
  | cons c cs =>
    have hk : starLoop .anyNotNL (fun _ => true) cs = true :=
      starLoop_of_cont rfl
    have hfun : matchHere [] = fun _ => true := by
      funext t
      simp [matchHere]
    simp [matchHere, hfun, hk, range_digit_accepts]

theorem containsAny_eq_false_iff (s chars : String) :
    strings.ContainsAny s chars = false ↔ ∀ c ∈ s.data, c ∉ chars.data := by
  simp [strings.ContainsAny]

theorem accepts_repoKeyValidator (s : String) :
    accepts repoKeyValidator s =
      (!(regexp.MustCompile "^[0-9].*").MatchString s &&
        !strings.ContainsAny s " !@#$%^&*()_+=\x7b\x7d[]:;<>,/?~`|\\") := by
  simp only [accepts, repoKeyValidator, validation.All, validation.StringDoesNotMatch,
    validation.StringDoesNotContainAny, List.foldl]
  split_ifs <;> simp_all

theorem compile_merge_pattern :
    regexp.MustCompile ".*Could not merge and save new descriptor.*" =
      { beginText := false,
        prog := .star .anyNotNL ::
          (litSteps "Could not merge and save new descriptor".data ++ [.star .anyNotNL]) } := by
  rfl

theorem matchHere_one_nil (cl : CharClass) (prog : List Inst) :
    matchHere (.one cl :: prog) [] = false := by
  simp [matchHere]

theorem matchHere_one_cons (cl : CharClass) (prog : List Inst) (c : Char) (cs : List Char) :
    matchHere (.one cl :: prog) (c :: cs) = (cl.accepts c && matchHere prog cs) := by
  simp [matchHere]

theorem matchHere_star (cl : CharClass) (prog : List Inst) (s : List Char) :
    matchHere (.star cl :: prog) s = starLoop cl (matchHere prog) s := by
  simp [matchHere]

theorem matchHere_litSteps (text : List Char) (prog : List Inst) (s : List Char) :
    matchHere (litSteps text ++ prog) s = true ↔
      ∃ t, s = text ++ t ∧ matchHere prog t = true := by
  induction text generalizing s with
  | nil => simp [litSteps]
  | cons a text ih =>
    have hsteps : litSteps (a :: text) ++ prog = .one (.lit a) :: (litSteps text ++ prog) := rfl
    rw [hsteps]
    cases s with
    | nil => simp [matchHere_one_nil]
    | cons c cs =>
      rw [matchHere_one_cons, Bool.and_eq_true, ih cs]
      simp only [CharClass.accepts, beq_iff_eq, List.cons_append, List.cons.injEq]
      constructor
      · rintro ⟨hc, t, ht, hm⟩
        exact ⟨t, ⟨hc, ht⟩, hm⟩
      · rintro ⟨t, ⟨hc, ht⟩, hm⟩
        exact ⟨hc, t, ht, hm⟩

theorem starLoop_suffix {cl : CharClass} {k : List Char → Bool} {s : List Char}
    (h : starLoop cl k s = true) : ∃ t, t <:+ s ∧ k t = true := by
  induction s with
  | nil => exact ⟨[], List.suffix_refl _, by simpa [starLoop] using h⟩
  | cons c cs ih =>
    simp only [starLoop, Bool.or_eq_true, Bool.and_eq_true] at h
    rcases h with h | ⟨-, h⟩
    · exact ⟨c :: cs, List.suffix_refl _, h⟩
    · obtain ⟨t, ht, hk⟩ := ih h
      exact ⟨t, ht.trans (List.suffix_cons c cs), hk⟩

theorem matchAnywhere_iff (prog : List Inst) (s : List Char) :
    matchAnywhere prog s = true ↔ ∃ t, t <:+ s ∧ matchHere prog t = true := by
  induction s with
  | nil => simp [matchAnywhere]
  | cons c cs ih =>
    simp only [matchAnywhere, Bool.or_eq_true, ih, List.suffix_cons_iff]
    constructor
    · rintro (h | ⟨t, ht, hm⟩)
      · exact ⟨c :: cs, Or.inl rfl, h⟩
      · exact ⟨t, Or.inr ht, hm⟩
    · rintro ⟨t, rfl | ht, hm⟩
      · exact Or.inl hm
      · exact Or.inr ⟨t, ht, hm⟩

theorem merge_pattern_matches (body : String) :
    (regexp.MustCompile ".*Could not merge and save new descriptor.*").MatchString body = true ↔
      ∃ pre post : String, body = pre ++ "Could not merge and save new descriptor" ++ post := by
  rw [compile_merge_pattern]
  simp only [Regexp.MatchString, Bool.false_eq_true, if_false, matchAnywhere_iff]
  constructor
  · rintro ⟨t, ⟨a, ha⟩, hm⟩
    rw [matchHere_star] at hm
    obtain ⟨t', ⟨a', ha'⟩, hk⟩ := starLoop_suffix hm
    obtain ⟨u, hu, -⟩ := (matchHere_litSteps _ _ _).1 hk
    refine ⟨⟨a ++ a'⟩, ⟨u⟩, ?_⟩
    apply String.ext
    simp only [String.data_append]
    rw [← ha, ← ha', hu]
    simp
  · rintro ⟨pre, post, rfl⟩
    refine ⟨"Could not merge and save new descriptor".data ++ post.data, ⟨pre.data, ?_⟩, ?_⟩
    · simp [String.data_append]
    · rw [matchHere_star]
      apply starLoop_of_cont
      rw [matchHere_litSteps]
      refine ⟨post.data, rfl, ?_⟩
      rw [matchHere_star]
      exact starLoop_of_cont (by simp [matchHere])

/-! ## Lemmas on maps and on the packer -/

theorem GoMap.merge_nil (values : GoMap) : GoMap.merge values [] = values := rfl

theorem GoMap.merge_single (values : GoMap) (k : String) (v : GoValue) :
    GoMap.merge values [(k, v)] = GoMap.put values (k, some v) := rfl

theorem GoMap.merge_opt (values : GoMap) (k : String) (o : Option GoValue) :
    GoMap.merge values (o.toList.map fun v => (k, v)) = GoMap.put values (k, o) := by
  cases o <;> rfl

theorem GoMap.get?_set (m : GoMap) (k k' : String) (v : GoValue) :
    (GoMap.set m k v).get? k' = if k = k' then some v else m.get? k' := by
  induction m with
  | nil => simp [GoMap.set, GoMap.get?]
  | cons kv rest ih =>
    obtain ⟨k0, v0⟩ := kv
    simp only [GoMap.set]
    split_ifs with h1 h2 h2
    · subst h1; simp [GoMap.get?, h2]
    · subst h1; simp [GoMap.get?, h2]
    · subst h2; simp [GoMap.get?, h1, ih]
    · simp [GoMap.get?, ih, h2]

theorem GoMap.mem_keys_set (m : GoMap) (k k' : String) (v : GoValue) :
    k' ∈ (GoMap.set m k v).keys ↔ k' = k ∨ k' ∈ m.keys := by
  induction m with
  | nil => simp [GoMap.set, GoMap.keys]
  | cons kv rest ih =>
    obtain ⟨k0, v0⟩ := kv
    simp only [GoMap.set]
    split_ifs with h
    · subst h
      simp [GoMap.keys]
    · simp only [GoMap.keys, List.map_cons, List.mem_cons] at ih ⊢
      rw [ih]
      tauto

/-- What a run of assignments leaves under one key. -/
theorem GoMap.get?_foldl_put (l : List (String × Option GoValue)) (acc : GoMap) (k : String) :
    (l.foldl GoMap.put acc).get? k =
      l.foldl (fun cur kv => if kv.1 = k then (match kv.2 with | some v => some v | none => cur) else cur)
        (acc.get? k) := by
  induction l generalizing acc with
  | nil => rfl
  | cons kv rest ih =>
    obtain ⟨k0, o⟩ := kv
    rw [List.foldl_cons, List.foldl_cons, ih]
    congr 1
    cases o with
    | none => simp [GoMap.put]
    | some v => simp [GoMap.put, GoMap.get?_set]

theorem GoMap.mem_keys_foldl_put (l : List (String × Option GoValue)) (acc : GoMap) (k : String) :
    k ∈ (l.foldl GoMap.put acc).keys ↔
      k ∈ acc.keys ∨ ∃ kv ∈ l, kv.1 = k ∧ kv.2.isSome = true := by
  induction l generalizing acc with
  | nil => simp
  | cons kv rest ih =>
    obtain ⟨k0, o⟩ := kv
    rw [List.foldl_cons, ih]
    cases o with
    | none => simp [GoMap.put]
    | some v =>
      simp only [GoMap.put, GoMap.mem_keys_set, List.mem_cons, exists_eq_or_imp, Option.isSome_some,
        and_true]
      constructor
      · rintro ((h | h) | h)
        · exact Or.inr (Or.inl h.symm)
        · exact Or.inl h
        · exact Or.inr (Or.inr h)
      · rintro (h | h | h)
        · exact Or.inl (Or.inr h)
        · exact Or.inl (Or.inl h.symm)
        · exact Or.inr h

theorem findInspector_boolPtr (field : StructField) (b : Option Bool) (h : field.hcl ≠ "") :
    findInspector field (boolPtr b) =
      some ((b.map GoValue.bool).toList.map fun v => (field.hcl, v)) := by
  cases b <;> simp [findInspector, boolPtr, checkForHcl, h]

theorem lookupLoop_cons (field : StructField) (thing : GoValue)
    (rest : List (StructField × GoValue)) (values : GoMap) :
    lookupLoop ((field, thing) :: rest) values =
      match findInspector field thing with
      | some entries => lookupLoop rest (GoMap.merge values entries)
      | none => none := by
  simp [lookupLoop]

theorem lookupLoop_nil (values : GoMap) : lookupLoop [] values = some values := by
  simp [lookupLoop]

theorem lookup_contentSynchronisation (c : ContentSynchronisation) :
    lookup c.reflect = some [("enabled", .bool c.Enabled)] := by
  simp [lookup, ContentSynchronisation.reflect, lookupLoop, findInspector, checkForHcl,
    GoMap.merge, GoMap.set]

theorem findInspector_contentSynchronisation (field : StructField)
    (cs : Option ContentSynchronisation) (h : field.hcl ≠ "") :
    findInspector field (.ptr (cs.map ContentSynchronisation.reflect)) =
      some ((cs.map fun c => GoValue.ifaces [.map [("enabled", .bool c.Enabled)]]).toList.map
        fun v => (field.hcl, v)) := by
  cases cs with
  | none => simp [findInspector, checkForHcl, h]
  | some c =>
    simp [findInspector, checkForHcl, h, ContentSynchronisation.reflect, lookupLoop,
      GoMap.merge, GoMap.set]

/-- The map `lookup` builds for a remote base payload, entry by entry. -/
theorem lookup_remote_eq (r : RemoteRepositoryBaseParams) :
    lookup r.reflect = some (GoMap.ofOptions [
      ("key", some (.string r.Key)),
      ("package_type", some (.string r.PackageType)),
      ("url", some (.string r.Url)),
      ("username", some (.string r.Username)),
      ("password", some (.string r.Password)),
      ("proxy", some (.string r.Proxy)),
      ("description", some (.string r.Description)),
      ("notes", some (.string r.Notes)),
      ("includes_pattern", some (.string r.IncludesPattern)),
      ("excludes_pattern", some (.string r.ExcludesPattern)),
      ("repo_layout_ref", some (.string r.RepoLayoutRef)),
      ("hard_fail", r.HardFail.map GoValue.bool),
      ("offline", r.Offline.map GoValue.bool),
      ("blacked_out", r.BlackedOut.map GoValue.bool),
      ("xray_index", r.XrayIndex.map GoValue.bool),
      ("propagate_query_params", some (.bool r.PropagateQueryParams)),
      ("priority_resolution", some (.bool r.PriorityResolution)),
      ("store_artifacts_locally", r.StoreArtifactsLocally.map GoValue.bool),
      ("socket_timeout_millis", some (.int r.SocketTimeoutMillis)),
      ("local_address", some (.string r.LocalAddress)),
      ("retrieval_cache_period_seconds", some (.int r.RetrievalCachePeriodSecs)),
      ("missed_cache_period_seconds", some (.int r.MissedRetrievalCachePeriodSecs)),
      ("unused_artifacts_cleanup_period_enabled", r.UnusedArtifactsCleanupEnabled.map GoValue.bool),
      ("unused_artifacts_cleanup_period_hours", some (.int r.UnusedArtifactsCleanupPeriodHours)),
      ("assumed_offline_period_secs", some (.int r.AssumedOfflinePeriodSecs)),
      ("share_configuration", r.ShareConfiguration.map GoValue.bool),
      ("synchronize_properties", r.SynchronizeProperties.map GoValue.bool),
      ("block_mismatching_mime_types", r.BlockMismatchingMimeTypes.map GoValue.bool),
      ("property_sets", some (.ifaces (r.PropertySets.map GoValue.string))),
      ("allow_any_host_auth", r.AllowAnyHostAuth.map GoValue.bool),
      ("enable_cookie_management", r.EnableCookieManagement.map GoValue.bool),
      ("bypass_head_requests", r.BypassHeadRequests.map GoValue.bool),
      ("client_tls_certificate", some (.string r.ClientTlsCertificate)),
      ("content_synchronisation",
        r.ContentSynchronisation.map fun c =>
          GoValue.ifaces [.map [("enabled", .bool c.Enabled)]])
    ]) := by
  simp only [lookup, RemoteRepositoryBaseParams.reflect, lookupLoop_cons, lookupLoop_nil]
  simp only [findInspector_boolPtr, findInspector_contentSynchronisation, ne_eq,
    String.reduceEq, not_false_eq_true]
  simp only [findInspector, checkForHcl, ne_eq, String.reduceEq, not_false_eq_true, if_true,
    if_false, not_true_eq_false, castToInterfaceArr]
  simp only [GoMap.merge_opt, GoMap.merge_single, GoMap.merge_nil]
  rfl


theorem GoMap.get?_ofOptions (l : List (String × Option GoValue)) (k : String) :
    (GoMap.ofOptions l).get? k =
      l.foldl (fun cur kv => if kv.1 = k then (match kv.2 with | some v => some v | none => cur) else cur)
        none :=
  GoMap.get?_foldl_put l [] k

theorem GoMap.mem_keys_ofOptions (l : List (String × Option GoValue)) (k : String) :
    k ∈ (GoMap.ofOptions l).keys ↔ ∃ kv ∈ l, kv.1 = k ∧ kv.2.isSome = true := by
  unfold GoMap.ofOptions
  rw [GoMap.mem_keys_foldl_put]
  simp [GoMap.keys]

theorem GoMap.keys_ofOptions_subset (l : List (String × Option GoValue)) (k : String)
    (hk : k ∈ (GoMap.ofOptions l).keys) : k ∈ l.map Prod.fst := by
  obtain ⟨kv, hkv, rfl, -⟩ := (GoMap.mem_keys_ofOptions l k).1 hk
  exact List.mem_map_of_mem _ hkv

/-- What `repoKeyValidator` accepts, character by character. -/
theorem repoKeyValidator_accepts_chars (s : String) :
    accepts repoKeyValidator s = true ↔
      (∀ c, s.data.head? = some c → c.isDigit = false) ∧
      (∀ c ∈ s.data, c ∉ " !@#$%^&*()_+=\x7b\x7d[]:;<>,/?~`|\\".data) := by
  rw [accepts_repoKeyValidator, Bool.and_eq_true, Bool.not_eq_true', Bool.not_eq_true',
    containsAny_eq_false_iff]
  have hm : (regexp.MustCompile "^[0-9].*").MatchString s = false ↔
      ∀ c, s.data.head? = some c → c.isDigit = false := by
    rw [← Bool.not_eq_true, key_pattern_matches]
    constructor
    · intro h c hc
      cases hd : c.isDigit with
      | false => rfl
      | true => exact absurd ⟨c, hc, hd⟩ h
    · rintro h ⟨c, hc, hd⟩
      rw [h c hc] at hd
      exact Bool.noConfusion hd
  rw [hm]

theorem GoMap.get?_merge (values src : GoMap) (k : String) :
    (GoMap.merge values src).get? k =
      src.foldl (fun cur kv => if kv.1 = k then some kv.2 else cur) (values.get? k) := by
  unfold GoMap.merge
  induction src generalizing values with
  | nil => rfl
  | cons kv rest ih =>
    rw [List.foldl_cons, List.foldl_cons, ih, GoMap.get?_set]

theorem lookupLoop_append (xs ys : List (StructField × GoValue)) (values : GoMap) :
    lookupLoop (xs ++ ys) values = (lookupLoop xs values).bind (lookupLoop ys) := by
  induction xs generalizing values with
  | nil => simp [lookupLoop_nil]
  | cons x rest ih =>
    obtain ⟨field, thing⟩ := x
    rw [List.cons_append, lookupLoop_cons, lookupLoop_cons]
    cases findInspector field thing with
    | none => rfl
    | some entries => exact ih _

/-- What the zero-valued base parameters embedded in the RPM parameters contribute,
whatever the RPM fields hold. -/
theorem lookupLoop_rpm_tail (rpm : RpmLocalRepositoryParams) (force : Bool) (values : GoMap)
    (h : rpm.LocalRepositoryBaseParams = LocalRepositoryBaseParams.zero) :
    lookupLoop
      [(⟨"RpmLocalRepositoryParams", ""⟩, rpm.reflect),
       (⟨"ForceNugetAuthentication", ""⟩, .bool force)] values =
      some (GoMap.merge values
        [("key", .string ""), ("package_type", .string ""), ("description", .string ""),
         ("notes", .string ""), ("includes_pattern", .string ""),
         ("excludes_pattern", .string ""), ("repo_layout_ref", .string ""),
         ("property_sets", .ifaces []), ("index_compression_formats", .ifaces [])]) := by
  simp [lookupLoop_cons, lookupLoop_nil, findInspector, checkForHcl,
    RpmLocalRepositoryParams.reflect, LocalRepositoryBaseParams.reflect, h,
    LocalRepositoryBaseParams.zero, boolPtr, castToInterfaceArr, GoMap.merge, GoMap.set]

/-- The loop of `universalPack` keeps `errors` equal to the failures the setter has
collected, and the setter collects the failure of every write. -/
theorem universalPack_loop (dSet : SetFunc) (entries : List (String × GoValue))
    (s : ResourceData × List Error) :
    entries.foldl
        (fun (acc : (ResourceData × List Error) × List Error) kv =>
          let lens := mkLens dSet kv.1 kv.2 acc.1
          (lens, lens.2))
        (s, s.2) =
      (entries.foldl
        (fun (s : ResourceData × List Error) kv =>
          ((dSet kv.1 kv.2 s.1).2, s.2 ++ (dSet kv.1 kv.2 s.1).1.toList)) s,
       (entries.foldl
        (fun (s : ResourceData × List Error) kv =>
          ((dSet kv.1 kv.2 s.1).2, s.2 ++ (dSet kv.1 kv.2 s.1).1.toList)) s).2) := by
  induction entries generalizing s with
  | nil => rfl
  | cons kv rest ih =>
    have hstep : mkLens dSet kv.1 kv.2 s =
        ((dSet kv.1 kv.2 s.1).2, s.2 ++ (dSet kv.1 kv.2 s.1).1.toList) := by
      unfold mkLens
      rcases h : dSet kv.1 kv.2 s.1 with ⟨_ | err, d'⟩ <;> simp
    simp only [List.foldl_cons]
    rw [hstep]
    exact ih _

/-- The result of `universalPack` as a run of `d.Set` over the visited entries. -/
theorem universalPack_collects_eq (dSet : SetFunc) (visit : GoMap → List (String × GoValue))
    (payload : GoValue) (d : ResourceData) (values : GoMap)
    (hl : lookup payload = some values) :
    universalPack dSet visit payload d =
      some
        (if ((visit values).foldl
              (fun (s : ResourceData × List Error) kv =>
                ((dSet kv.1 kv.2 s.1).2, s.2 ++ (dSet kv.1 kv.2 s.1).1.toList))
              (d, [])).2 = [] then none
          else some (failedSavingState ((visit values).foldl
              (fun (s : ResourceData × List Error) kv =>
                ((dSet kv.1 kv.2 s.1).2, s.2 ++ (dSet kv.1 kv.2 s.1).1.toList))
              (d, [])).2),
          ((visit values).foldl
              (fun (s : ResourceData × List Error) kv =>
                ((dSet kv.1 kv.2 s.1).2, s.2 ++ (dSet kv.1 kv.2 s.1).1.toList))
              (d, [])).1) := by
  unfold universalPack
  simp only [hl]
  have hloop := universalPack_loop dSet (visit values) (d, [])
  simp only [] at hloop
  rw [hloop]
  by_cases hr : ((visit values).foldl
      (fun (s : ResourceData × List Error) kv =>
        ((dSet kv.1 kv.2 s.1).2, s.2 ++ (dSet kv.1 kv.2 s.1).1.toList))
      (d, [])).2 = []
  · simp [hr]
  · have hlen : 0 < ((visit values).foldl
        (fun (s : ResourceData × List Error) kv =>
          ((dSet kv.1 kv.2 s.1).2, s.2 ++ (dSet kv.1 kv.2 s.1).1.toList))
        (d, [])).2.length := List.length_pos.2 hr
    simp [hr, hlen]

theorem GoMap.keys_set (m : GoMap) (k : String) (v : GoValue) :
    (GoMap.set m k v).keys = if k ∈ m.keys then m.keys else m.keys ++ [k] := by
  induction m with
  | nil => simp [GoMap.set, GoMap.keys]
  | cons kv rest ih =>
    obtain ⟨k0, v0⟩ := kv
    simp only [GoMap.set]
    by_cases h : k0 = k
    · subst h
      simp [GoMap.keys]
    · have h' : ¬ k = k0 := fun e => h e.symm
      simp only [GoMap.keys, List.map_cons, List.mem_cons, h, h', if_false, false_or,
        List.cons_append] at ih ⊢
      rw [ih]
      split_ifs <;> rfl

theorem GoMap.nodup_keys_set (m : GoMap) (k : String) (v : GoValue)
    (h : m.keys.Nodup) : (GoMap.set m k v).keys.Nodup := by
  rw [GoMap.keys_set]
  split_ifs with hk
  · exact h
  · exact List.Nodup.append h (List.nodup_singleton k) (by simpa using hk)

theorem GoMap.nodup_keys_merge (values src : GoMap) (h : values.keys.Nodup) :
    (GoMap.merge values src).keys.Nodup := by
  unfold GoMap.merge
  induction src generalizing values with
  | nil => exact h
  | cons kv rest ih =>
    rw [List.foldl_cons]
    exact ih _ (GoMap.nodup_keys_set _ _ _ h)

theorem lookupLoop_nodup_keys (fs : List (StructField × GoValue)) (values m : GoMap)
    (h : values.keys.Nodup) (hm : lookupLoop fs values = some m) : m.keys.Nodup := by
  induction fs generalizing values with
  | nil =>
    rw [lookupLoop_nil, Option.some.injEq] at hm
    exact hm ▸ h
  | cons x rest ih =>
    obtain ⟨field, thing⟩ := x
    rw [lookupLoop_cons] at hm
    cases he : findInspector field thing with
    | none =>
      rw [he] at hm
      exact Option.noConfusion hm
    | some entries =>
      rw [he] at hm
      exact ih _ (GoMap.nodup_keys_merge _ _ h) hm

theorem lookup_nodup_keys (payload : GoValue) (m : GoMap) (hm : lookup payload = some m) :
    m.keys.Nodup := by
  unfold lookup at hm
  split at hm
  · exact lookupLoop_nodup_keys _ [] _ List.nodup_nil hm
  · exact lookupLoop_nodup_keys _ [] _ List.nodup_nil hm
  · exact Option.noConfusion hm

theorem GoMap.set_eq_self (m : GoMap) (k : String) (v : GoValue)
    (h : m.get? k = some v) : GoMap.set m k v = m := by
  induction m with
  | nil => simp [GoMap.get?] at h
  | cons kv rest ih =>
    obtain ⟨k0, v0⟩ := kv
    simp only [GoMap.get?] at h
    simp only [GoMap.set]
    split_ifs with hk
    · rw [if_pos hk, Option.some.injEq] at h
      rw [h, hk]
    · rw [if_neg hk] at h
      rw [ih h]

/-- The attribute map after the fitting writes among `entries`. -/
theorem schemaSet_foldl (fits : String → GoValue → Bool) (entries : List (String × GoValue))
    (s : ResourceData × List Error) :
    (entries.foldl
      (fun (s : ResourceData × List Error) kv =>
        ((schemaSet fits kv.1 kv.2 s.1).2, s.2 ++ (schemaSet fits kv.1 kv.2 s.1).1.toList))
      s).1 =
      { s.1 with
        attrs := entries.foldl
          (fun a kv => if fits kv.1 kv.2 then GoMap.set a kv.1 kv.2 else a) s.1.attrs } := by
  induction entries generalizing s with
  | nil => rfl
  | cons kv rest ih =>
    rw [List.foldl_cons, List.foldl_cons, ih]
    by_cases hf : fits kv.1 kv.2 = true <;> simp [schemaSet, hf]

theorem writes_preserve_other (fits : String → GoValue → Bool)
    (entries : List (String × GoValue)) (a : GoMap) (k : String)
    (hk : k ∉ entries.map Prod.fst) :
    (entries.foldl (fun a kv => if fits kv.1 kv.2 then GoMap.set a kv.1 kv.2 else a) a).get? k =
      a.get? k := by
  induction entries generalizing a with
  | nil => rfl
  | cons kv rest ih =>
    simp only [List.map_cons, List.mem_cons, not_or] at hk
    rw [List.foldl_cons, ih _ hk.2]
    split_ifs
    · rw [GoMap.get?_set, if_neg (fun e => hk.1 e.symm)]
    · rfl

theorem writes_stored (fits : String → GoValue → Bool) (entries : List (String × GoValue))
    (a : GoMap) (hnd : (entries.map Prod.fst).Nodup) (kv : String × GoValue)
    (hkv : kv ∈ entries) (hf : fits kv.1 kv.2 = true) :
    (entries.foldl (fun a kv => if fits kv.1 kv.2 then GoMap.set a kv.1 kv.2 else a) a).get?
      kv.1 = some kv.2 := by
  induction entries generalizing a with
  | nil => simp at hkv
  | cons e rest ih =>
    simp only [List.map_cons, List.nodup_cons] at hnd
    rw [List.foldl_cons]
    rcases List.mem_cons.1 hkv with rfl | hmem
    · rw [writes_preserve_other _ _ _ _ hnd.1, if_pos hf, GoMap.get?_set, if_pos rfl]
    · exact ih _ hnd.2 hmem

theorem writes_again (fits : String → GoValue → Bool) (entries : List (String × GoValue))
    (a : GoMap) (h : ∀ kv ∈ entries, fits kv.1 kv.2 = true → a.get? kv.1 = some kv.2) :
    entries.foldl (fun a kv => if fits kv.1 kv.2 then GoMap.set a kv.1 kv.2 else a) a = a := by
  induction entries with
  | nil => rfl
  | cons e rest ih =>
    rw [List.foldl_cons]
    have hrest := ih (fun kv hkv => h kv (List.mem_cons_of_mem _ hkv))
    split_ifs with hf
    · rw [GoMap.set_eq_self _ _ _ (h e (List.mem_cons_self _ _) hf)]
      exact hrest
    · exact hrest

theorem Backoff_retries (conditions : List RetryConditionFunc) (operation : Nat → Attempt)
    (retries attempt n : Nat) (hn : n ≤ retries)
    (hsig : ∀ i < n, needsRetry conditions (operation (attempt + i)) = true)
    (hstop : n < retries → needsRetry conditions (operation (attempt + n)) = false) :
    Backoff conditions operation retries attempt =
      ((List.range n).map (fun i => operation (attempt + i)), operation (attempt + n)) := by
  induction retries generalizing attempt n with
  | zero =>
    have h0 : n = 0 := Nat.le_zero.1 hn
    subst h0
    simp [Backoff]
  | succ r ih =>
    cases n with
    | zero =>
      have hs := hstop (Nat.succ_pos r)
      simp only [Nat.add_zero] at hs
      simp [Backoff, hs]
    | succ m =>
      have h0 := hsig 0 (Nat.succ_pos m)
      simp only [Nat.add_zero] at h0
      have hrec := ih (attempt + 1) m (Nat.le_of_succ_le_succ hn)
        (fun i hi => by
          have := hsig (i + 1) (Nat.succ_lt_succ hi)
          rwa [Nat.add_assoc, Nat.add_comm 1 i])
        (fun hm => by
          have := hstop (Nat.succ_lt_succ hm)
          rwa [Nat.add_assoc, Nat.add_comm 1 m])
      simp only [Backoff, h0, if_true, hrec]
      rw [List.range_succ_eq_map, List.map_cons, List.map_map]
      refine Prod.ext ?_ ?_
      · simp only [Nat.add_zero, List.cons.injEq, true_and]
        apply List.map_congr_left
        intro i _
        simp only [Function.comp_apply]
        rw [Nat.add_assoc, Nat.add_comm 1 i]
      · simp only
        rw [Nat.add_assoc, Nat.add_comm 1 m]

theorem needsRetry_merge (attempt : Attempt) :
    needsRetry [retryOnMergeError] attempt = true ↔
      ∃ pre post : String,
        attempt.1.Body = pre ++ "Could not merge and save new descriptor" ++ post := by
  simp only [needsRetry, List.any_cons, List.any_nil, Bool.or_false, retryOnMergeError]
  exact merge_pattern_matches attempt.1.Body

/-- The attempts made for a request that carries the merge-race retry condition: `n`
retries when the first `n` answers bear the signature and, unless the budget is used up,
the next one does not. -/
theorem restyAttempts_merge {P : Type} (server : Nat → Sent P → Response) (call : Sent P)
    (hc : call.request.retryConditions = [retryOnMergeError]) (n : Nat) (hn : n ≤ 5)
    (hsig : ∀ i < n, ∃ pre post : String,
      (server i call).Body = pre ++ "Could not merge and save new descriptor" ++ post)
    (hstop : n < 5 → ¬ ∃ pre post : String,
      (server n call).Body = pre ++ "Could not merge and save new descriptor" ++ post) :
    restyAttempts server call =
      ((List.range n).map (fun i =>
          (server i call,
            buildResty.OnAfterResponse call.method call.url (some (server i call)))),
        (server n call,
          buildResty.OnAfterResponse call.method call.url (some (server n call)))) := by
  unfold restyAttempts
  rw [hc]
  have h := Backoff_retries [retryOnMergeError]
    (fun n =>
      (server n call, buildResty.OnAfterResponse call.method call.url (some (server n call))))
    buildResty.RetryCount 0 n hn
    (fun i hi => by
      rw [needsRetry_merge]
      simpa using hsig i hi)
    (fun hlt => by
      rw [← Bool.not_eq_true, needsRetry_merge]
      simpa using hstop hlt)
  simpa using h

/-- Create after a successful unpack, in terms of the outcome of its PUT. -/
theorem mkRepoCreate_of_unpack {P : Type} (unpack : UnpackFunc P) (read : ContextFunc P)
    (m : Client P) (w : World P) (p : P) (k : String) (hu : unpack w.d = .ok (p, k)) :
    mkRepoCreate unpack read m w =
      match (m w.log ⟨.PUT, "artifactory/api/repositories/" ++ k,
        ⟨[retryOnMergeError], some p, none⟩⟩).err with
      | none => read m { d := { w.d with id := k }, log := w.log ++
          [.http ⟨.PUT, "artifactory/api/repositories/" ++ k,
            ⟨[retryOnMergeError], some p, none⟩⟩] }
      | some err => ([err], { d := w.d, log := w.log ++
          [.http ⟨.PUT, "artifactory/api/repositories/" ++ k,
            ⟨[retryOnMergeError], some p, none⟩⟩] }) := by
  cases herr : (m w.log ⟨.PUT, "artifactory/api/repositories/" ++ k,
      ⟨[retryOnMergeError], some p, none⟩⟩).err with
  | none =>
    simp [mkRepoCreate, hu, World.execute, Request.R, Request.AddRetryCondition,
      Request.SetBody, repositoriesEndpoint, ResourceData.SetId, herr]
  | some err =>
    simp [mkRepoCreate, hu, World.execute, Request.R, Request.AddRetryCondition,
      Request.SetBody, repositoriesEndpoint, herr, diag.FromErr]

/-- Update after a successful unpack, in terms of the outcome of its POST. -/
theorem mkRepoUpdate_of_unpack {P : Type} (unpack : UnpackFunc P) (read : ContextFunc P)
    (m : Client P) (w : World P) (p : P) (k : String) (hu : unpack w.d = .ok (p, k)) :
    mkRepoUpdate unpack read m w =
      match (m w.log ⟨.POST, "artifactory/api/repositories/" ++ w.d.id,
        ⟨[retryOnMergeError], some p, none⟩⟩).err with
      | none => read m { d := { w.d with id := k }, log := w.log ++
          [.http ⟨.POST, "artifactory/api/repositories/" ++ w.d.id,
            ⟨[retryOnMergeError], some p, none⟩⟩] }
      | some err => ([err], { d := w.d, log := w.log ++
          [.http ⟨.POST, "artifactory/api/repositories/" ++ w.d.id,
            ⟨[retryOnMergeError], some p, none⟩⟩] }) := by
  cases herr : (m w.log ⟨.POST, "artifactory/api/repositories/" ++ w.d.id,
      ⟨[retryOnMergeError], some p, none⟩⟩).err with
  | none =>
    simp [mkRepoUpdate, hu, World.execute, Request.R, Request.AddRetryCondition,
      Request.SetBody, repositoriesEndpoint, ResourceData.SetId, ResourceData.Id, herr]
  | some err =>
    simp [mkRepoUpdate, hu, World.execute, Request.R, Request.AddRetryCondition,
      Request.SetBody, repositoriesEndpoint, ResourceData.Id, herr, diag.FromErr]

/-- A body shorter than the merge-race text does not carry it. -/
theorem no_signature_of_short (body : String) (h : body.length < 39) :
    ¬ ∃ pre post : String,
      body = pre ++ "Could not merge and save new descriptor" ++ post := by
  rintro ⟨pre, post, hb⟩
  have hl := congrArg String.length hb
  simp only [String.length_append] at hl
  have h39 : "Could not merge and save new descriptor".length = 39 := by decide
  omega

/-- Acceptance by a case-sensitive `StringInSlice` is membership in the slice. -/
theorem accepts_stringInSlice (valid : List String) (s : String) :
    accepts (validation.StringInSlice valid false) s = true ↔ s ∈ valid := by
  unfold accepts validation.StringInSlice
  by_cases h : s ∈ valid
  · have hany : (valid.any fun str => s == str || (false && strings.EqualFold s str)) = true := by
      rw [List.any_eq_true]
      exact ⟨s, h, by simp⟩
    simp [hany, h]
  · have hany : (valid.any fun str => s == str || (false && strings.EqualFold s str)) = false := by
      rw [← Bool.not_eq_true, List.any_eq_true]
      rintro ⟨x, hx, hxs⟩
      simp only [Bool.false_and, Bool.or_false, beq_iff_eq] at hxs
      exact h (hxs ▸ hx)
    simp [hany, h]

theorem GoMap.set_of_not_mem (m : GoMap) (k : String) (v : GoValue) (h : k ∉ m.keys) :
    GoMap.set m k v = m ++ [(k, v)] := by
  induction m with
  | nil => rfl
  | cons kv rest ih =>
    obtain ⟨k0, v0⟩ := kv
    simp only [GoMap.keys, List.map_cons, List.mem_cons, not_or] at h
    have hne : ¬ k0 = k := fun e => h.1 e.symm
    simp only [GoMap.set, hne, if_false, List.cons_append]
    rw [ih h.2]

/-- Assigning entries with fresh, distinct keys appends them. -/
theorem GoMap.merge_eq_append (values src : GoMap) (h : (values ++ src).keys.Nodup) :
    GoMap.merge values src = values ++ src := by
  unfold GoMap.merge
  induction src generalizing values with
  | nil => simp
  | cons kv rest ih =>
    obtain ⟨k, v⟩ := kv
    have hk : k ∉ values.keys := by
      simp only [GoMap.keys, List.map_append, List.map_cons] at h
      have h1 := (List.nodup_append.1 h).2.2
      intro hmem
      exact h1 hmem (List.mem_cons_self _ _)
    rw [List.foldl_cons, GoMap.set_of_not_mem _ _ _ hk]
    have h2 : ((values ++ [(k, v)]) ++ rest).keys.Nodup := by
      simpa [List.append_assoc] using h
    rw [ih _ h2, List.append_assoc]
    rfl

theorem GoMap.merge_nil_left (m : GoMap) (h : m.keys.Nodup) : GoMap.merge [] m = m := by
  have := GoMap.merge_eq_append [] m (by simpa using h)
  simpa using this

theorem GoMap.mem_keys_iff (m : GoMap) (k : String) :
    k ∈ m.keys ↔ (m.get? k).isSome = true := by
  induction m with
  | nil => simp [GoMap.keys, GoMap.get?]
  | cons kv rest ih =>
    obtain ⟨k0, v0⟩ := kv
    simp only [GoMap.keys, List.map_cons, List.mem_cons, GoMap.get?] at ih ⊢
    by_cases h : k0 = k
    · simp [h]
    · have h' : ¬ k = k0 := fun e => h e.symm
      simp [h, h', ih]

/-- A key no entry carries is left as it was by a run of assignments. -/
theorem foldl_pick_of_not_mem (es : List (String × GoValue)) (k : String)
    (init : Option GoValue) (h : ∀ kv ∈ es, kv.1 ≠ k) :
    es.foldl (fun cur kv => if kv.1 = k then some kv.2 else cur) init = init := by
  induction es generalizing init with
  | nil => rfl
  | cons kv rest ih =>
    rw [List.foldl_cons, if_neg (h kv (List.mem_cons_self _ _))]
    exact ih _ (fun kv' hkv' => h kv' (List.mem_cons_of_mem _ hkv'))

/-- A run of assignments that leaves nothing under a key has no entry with that key. -/
theorem foldl_pick_eq_none (es : List (String × GoValue)) (k : String)
    (init : Option GoValue)
    (h : es.foldl (fun cur kv => if kv.1 = k then some kv.2 else cur) init = none) :
    ∀ kv ∈ es, kv.1 ≠ k := by
  induction es generalizing init with
  | nil => intro kv hkv; cases hkv
  | cons kv0 rest ih =>
    rw [List.foldl_cons] at h
    have hrest := ih _ h
    intro kv hkv
    rcases List.mem_cons.1 hkv with rfl | hmem
    · intro hk
      rw [if_pos hk, foldl_pick_of_not_mem rest k _ hrest] at h
      exact Option.noConfusion h
    · exact hrest kv hmem

theorem GoMap.merge_merge (values a b : GoMap) :
    GoMap.merge (GoMap.merge values a) b = GoMap.merge values (a ++ b) := by
  unfold GoMap.merge
  rw [List.foldl_append]

/-- The loop of `lookup` assigns the entries of the fields, in order. -/
theorem lookupLoop_eq_fieldEntries (fs : List (StructField × GoValue)) (values : GoMap) :
    lookupLoop fs values = (fieldEntries fs).map (GoMap.merge values) := by
  induction fs generalizing values with
  | nil => simp [lookupLoop_nil, fieldEntries, GoMap.merge_nil]
  | cons x rest ih =>
    obtain ⟨field, thing⟩ := x
    rw [lookupLoop_cons]
    simp only [fieldEntries]
    cases he : findInspector field thing with
    | none => simp
    | some entries =>
      simp only [ih]
      cases hr : fieldEntries rest with
      | none => simp
      | some more => simp [GoMap.merge_merge]

theorem fieldEntries_append (xs ys : List (StructField × GoValue)) :
    fieldEntries (xs ++ ys) =
      match fieldEntries xs, fieldEntries ys with
      | some a, some b => some (a ++ b)
      | _, _ => none := by
  induction xs with
  | nil =>
    rw [List.nil_append]
    cases fieldEntries ys <;> rfl
  | cons x rest ih =>
    obtain ⟨field, thing⟩ := x
    rw [List.cons_append]
    simp only [fieldEntries]
    rw [ih]
    cases findInspector field thing <;> cases fieldEntries rest <;> cases fieldEntries ys <;>
      simp

/-- The map `lookup` builds for a local base payload, entry by entry. -/
theorem lookup_local_eq (r : LocalRepositoryBaseParams) :
    lookup r.reflect = some (GoMap.ofOptions [
      ("key", some (.string r.Key)),
      ("package_type", some (.string r.PackageType)),
      ("description", some (.string r.Description)),
      ("notes", some (.string r.Notes)),
      ("includes_pattern", some (.string r.IncludesPattern)),
      ("excludes_pattern", some (.string r.ExcludesPattern)),
      ("repo_layout_ref", some (.string r.RepoLayoutRef)),
      ("blacked_out", r.BlackedOut.map GoValue.bool),
      ("xray_index", r.XrayIndex.map GoValue.bool),
      ("property_sets", some (.ifaces (r.PropertySets.map GoValue.string))),
      ("archive_browsing_enabled", r.ArchiveBrowsingEnabled.map GoValue.bool),
      ("index_compression_formats",
        some (.ifaces (r.OptionalIndexCompressionFormats.map GoValue.string))),
      ("download_direct", r.DownloadRedirect.map GoValue.bool)
    ]) := by
  simp only [lookup, LocalRepositoryBaseParams.reflect, lookupLoop_cons, lookupLoop_nil]
  simp only [findInspector_boolPtr, ne_eq, String.reduceEq, not_false_eq_true]
  simp only [findInspector, checkForHcl, ne_eq, String.reduceEq, not_false_eq_true, if_true,
    if_false, not_true_eq_false, castToInterfaceArr]
  simp only [GoMap.merge_opt, GoMap.merge_single, GoMap.merge_nil]
  rfl

/-- The map `lookup` builds for a virtual base payload, entry by entry. -/
theorem lookup_virtual_eq (r : VirtualRepositoryBaseParams) :
    lookup r.reflect = some (GoMap.ofOptions [
      ("key", some (.string r.Key)),
      ("package_type", some (.string r.PackageType)),
      ("description", some (.string r.Description)),
      ("notes", some (.string r.Notes)),
      ("includes_pattern", some (.string r.IncludesPattern)),
      ("excludes_pattern", some (.string r.ExcludesPattern)),
      ("repo_layout_ref", some (.string r.RepoLayoutRef)),
      ("repositories", some (.ifaces (r.Repositories.map GoValue.string))),
      ("artifactory_requests_can_retrieve_remote_artifacts",
        some (.bool r.ArtifactoryRequestsCanRetrieveRemoteArtifacts)),
      ("default_deployment_repo", some (.string r.DefaultDeploymentRepo))
    ]) := by
  simp only [lookup, VirtualRepositoryBaseParams.reflect, lookupLoop_cons, lookupLoop_nil]
  simp only [findInspector, checkForHcl, ne_eq, String.reduceEq, not_false_eq_true, if_true,
    if_false, not_true_eq_false, castToInterfaceArr]
  simp only [GoMap.merge_single, GoMap.merge_nil]
  rfl

/-- The map `lookup` builds for a Cargo payload: the map of the base parameters with the
two own entries assigned after it. -/
theorem lookup_cargo_eq (c : CargoRemoteRepo) (base : GoMap)
    (hb : lookup c.RemoteRepositoryBaseParams.reflect = some base) :
    lookup c.reflect =
      some (GoMap.set (GoMap.set base "git_registry_url" (.string c.RegistryUrl))
        "anonymous_access" (.bool c.AnonymousAccess)) := by
  have hnd := lookup_nodup_keys _ _ hb
  have hb' : lookupLoop (c.RemoteRepositoryBaseParams.reflect).fields [] = some base := by
    simpa [lookup, RemoteRepositoryBaseParams.reflect, GoValue.fields] using hb
  have hins : findInspector ⟨"RemoteRepositoryBaseParams", ""⟩
      c.RemoteRepositoryBaseParams.reflect = some base := by
    simpa [findInspector, RemoteRepositoryBaseParams.reflect, GoValue.fields] using hb'
  simp only [lookup, CargoRemoteRepo.reflect, lookupLoop_cons, lookupLoop_nil, hins,
    GoMap.merge_nil_left base hnd]
  simp [findInspector, checkForHcl, GoMap.merge, GoMap.set]

/-- The map of a struct with one more field, from the entries of the fields before and
after it. -/
theorem lookup_with_field (pre post : List (StructField × GoValue)) (field : StructField)
    (thing : GoValue) (rest es : GoMap)
    (hrest : lookup (.struct (pre ++ post)) = some rest)
    (hes : findInspector field thing = some es) :
    ∃ cp cq : List (String × GoValue), rest = GoMap.merge [] (cp ++ cq) ∧
      lookup (.struct (pre ++ (field, thing) :: post)) =
        some (GoMap.merge [] (cp ++ es ++ cq)) := by
  simp only [lookup, lookupLoop_eq_fieldEntries, fieldEntries_append] at hrest ⊢
  cases hp : fieldEntries pre with
  | none => simp [hp] at hrest
  | some cp =>
    cases hq : fieldEntries post with
    | none => simp [hp, hq] at hrest
    | some cq =>
      simp only [hp, hq, Option.map_some', Option.some.injEq] at hrest
      refine ⟨cp, cq, hrest.symm, ?_⟩
      simp [fieldEntries, hes, hq, List.append_assoc]

/-- What the map holds after one entry is put between entries that do not carry its
key. -/
theorem GoMap.get?_merge_insert (cp cq : List (String × GoValue)) (k0 : String) (v : GoValue)
    (h : ∀ kv ∈ cp ++ cq, kv.1 ≠ k0) (k : String) :
    (GoMap.merge [] (cp ++ [(k0, v)] ++ cq)).get? k =
      if k = k0 then some v else (GoMap.merge [] (cp ++ cq)).get? k := by
  rw [GoMap.get?_merge, GoMap.get?_merge, List.foldl_append, List.foldl_append,
    List.foldl_append]
  by_cases hk : k = k0
  · subst hk
    have hq : ∀ kv ∈ cq, kv.1 ≠ k := fun kv hkv => h kv (List.mem_append_right _ hkv)
    simp only [List.foldl_cons, List.foldl_nil, if_true]
    rw [foldl_pick_of_not_mem cq k _ hq]
  · have hne : ¬ k0 = k := fun e => hk e.symm
    simp only [List.foldl_cons, List.foldl_nil, hne, if_false, hk]

/-- Every key of the packed remote base parameters is declared in the remote base
schema. -/
theorem lookup_remote_keys_declared (r : RemoteRepositoryBaseParams) (m : GoMap)
    (h : lookup r.reflect = some m) : ∀ k ∈ m.keys, k ∈ declared baseRemoteSchema := by
  rw [lookup_remote_eq, Option.some.injEq] at h
  subst h
  intro k hk
  have h1 := GoMap.keys_ofOptions_subset _ _ hk
  have h2 : ∀ t ∈ ["key", "package_type", "url", "username", "password", "proxy",
      "description", "notes", "includes_pattern", "excludes_pattern", "repo_layout_ref",
      "hard_fail", "offline", "blacked_out", "xray_index", "propagate_query_params",
      "priority_resolution", "store_artifacts_locally", "socket_timeout_millis",
      "local_address", "retrieval_cache_period_seconds", "missed_cache_period_seconds",
      "unused_artifacts_cleanup_period_enabled", "unused_artifacts_cleanup_period_hours",
      "assumed_offline_period_secs", "share_configuration", "synchronize_properties",
      "block_mismatching_mime_types", "property_sets", "allow_any_host_auth",
      "enable_cookie_management", "bypass_head_requests", "client_tls_certificate",
      "content_synchronisation"], t ∈ declared baseRemoteSchema := by
    decide
  exact h2 k h1

/-- Every key of the packed virtual base parameters is declared in the virtual base
schema. -/
theorem lookup_virtual_keys_declared (r : VirtualRepositoryBaseParams) (m : GoMap)
    (h : lookup r.reflect = some m) : ∀ k ∈ m.keys, k ∈ declared baseVirtualRepoSchema := by
  rw [lookup_virtual_eq, Option.some.injEq] at h
  subst h
  intro k hk
  have h1 := GoMap.keys_ofOptions_subset _ _ hk
  have h2 : ∀ t ∈ ["key", "package_type", "description", "notes", "includes_pattern",
      "excludes_pattern", "repo_layout_ref", "repositories",
      "artifactory_requests_can_retrieve_remote_artifacts", "default_deployment_repo"],
      t ∈ declared baseVirtualRepoSchema := by
    decide
  exact h2 k h1

/-- Every key of the packed local base parameters other than `index_compression_formats`
is declared in the local base schema. -/
theorem lookup_local_keys_declared (r : LocalRepositoryBaseParams) (m : GoMap)
    (h : lookup r.reflect = some m) :
    ∀ k ∈ m.keys, k ≠ "index_compression_formats" → k ∈ declared baseLocalRepoSchema := by
  rw [lookup_local_eq, Option.some.injEq] at h
  subst h
  intro k hk
  have h1 := GoMap.keys_ofOptions_subset _ _ hk
  have h2 : ∀ t ∈ ["key", "package_type", "description", "notes", "includes_pattern",
      "excludes_pattern", "repo_layout_ref", "blacked_out", "xray_index", "property_sets",
      "archive_browsing_enabled", "index_compression_formats", "download_direct"],
      t ≠ "index_compression_formats" → t ∈ declared baseLocalRepoSchema := by
    decide
  exact h2 k h1

/-! ## Claims -/

/-- C1: `repoKeyValidator` accepts a string exactly when its first character is not a
decimal digit and none of its characters is a blank or one of
``!@#$%^&*()_+={}[]:;<>,/?~`|\``; the key `0bad` is rejected and `my-repo` is accepted. -/
theorem repoKeyValidator_accepts_iff :
    (∀ s : String, accepts repoKeyValidator s = true ↔
      (∀ c, s.data.head? = some c → c.isDigit = false) ∧
      (∀ c ∈ s.data, c ∉ [' ', '!', '@', '#', '$', '%', '^', '&', '*', '(', ')', '_', '+', '=',
        '\x7b', '\x7d', '[', ']', ':', ';', '<', '>', ',', '/', '?', '~', '\x60', '|', '\\'])) ∧
    accepts repoKeyValidator "0bad" = false ∧
    accepts repoKeyValidator "my-repo" = true := by
  have key : ∀ s : String, accepts repoKeyValidator s = true ↔
      (∀ c, s.data.head? = some c → c.isDigit = false) ∧
      (∀ c ∈ s.data, c ∉ [' ', '!', '@', '#', '$', '%', '^', '&', '*', '(', ')', '_', '+', '=',
        '\x7b', '\x7d', '[', ']', ':', ';', '<', '>', ',', '/', '?', '~', '\x60', '|', '\\']) := by
    intro s
    rw [accepts_repoKeyValidator, Bool.and_eq_true, Bool.not_eq_true', Bool.not_eq_true',
      containsAny_eq_false_iff]
    have hm : (regexp.MustCompile "^[0-9].*").MatchString s = false ↔
        ∀ c, s.data.head? = some c → c.isDigit = false := by
      rw [← Bool.not_eq_true, key_pattern_matches]
      constructor
      · intro h c hc
        cases hd : c.isDigit with
        | false => rfl
        | true => exact absurd ⟨c, hc, hd⟩ h
      · rintro h ⟨c, hc, hd⟩
        rw [h c hc] at hd
        exact Bool.noConfusion hd
    rw [hm]
  refine ⟨key, ?_, ?_⟩
  · rw [← Bool.not_eq_true, key]
    rintro ⟨h, -⟩
    exact Bool.noConfusion (h '0' rfl)
  · rw [key]
    constructor
    · intro c hc
      cases hc
      rfl
    · decide

/-- C2: the read built by `mkRepoRead` issues `GET artifactory/api/repositories/<id>`. When
the GET fails with a 404 response the id becomes empty, no error is returned and pack is
not called; when it fails otherwise (another status, or no response) that error is
returned and the resource data is untouched; when it succeeds the result is that of
pack on the decoded payload. Behind the response hook of `buildResty` every 404 answer
is such a failure. -/
theorem mkRepoRead_outcome {P : Type} (pack : PackFunc P) (construct : Constructor P)
    (m : Client P) (w : World P) :
    let call : Sent P :=
      ⟨.GET, "artifactory/api/repositories/" ++ w.d.id, ⟨[], none, some (construct ())⟩⟩
    let ex := m w.log call
    let payload := ex.result.getD (construct ())
    (∀ err resp, ex.err = some err → ex.resp = some resp → resp.StatusCode = 404 →
      mkRepoRead pack construct m w =
        ([], { d := { w.d with id := "" }, log := w.log ++ [.http call] })) ∧
    (∀ err, ex.err = some err → (∀ resp, ex.resp = some resp → resp.StatusCode ≠ 404) →
      mkRepoRead pack construct m w =
        ([err], { d := w.d, log := w.log ++ [.http call] })) ∧
    (ex.err = none →
      mkRepoRead pack construct m w =
        (diag.FromErr (pack payload w.d).1,
          { d := (pack payload w.d).2, log := w.log ++ [.http call, .pack payload] })) ∧
    (∀ (server : Method → String → Response) (decode : Response → Option P),
      (server .GET ("artifactory/api/repositories/" ++ w.d.id)).StatusCode = 404 →
      mkRepoRead pack construct (servedBy server decode) w =
        ([], { d := { w.d with id := "" }, log := w.log ++ [.http call] })) := by
  intro call ex payload
  refine ⟨?_, ?_, ?_, ?_⟩
  · intro err resp herr hresp hcode
    simp only [ex, call] at herr hresp
    simp [mkRepoRead, World.execute, Request.R, Request.SetResult, repositoriesEndpoint,
      ResourceData.Id, ResourceData.SetId, herr, hresp, respIsNotFound, hcode,
      http.StatusNotFound, call]
  · intro err herr hresp
    have hnf : respIsNotFound ex.resp = false := by
      cases hr : ex.resp with
      | none => rfl
      | some resp => simpa [respIsNotFound, http.StatusNotFound] using hresp resp hr
    simp only [ex, call] at herr hnf
    simp [mkRepoRead, World.execute, Request.R, Request.SetResult, repositoriesEndpoint,
      ResourceData.Id, herr, hnf, diag.FromErr, call]
  · intro herr
    simp only [ex, call] at herr
    simp [mkRepoRead, World.execute, Request.R, Request.SetResult, repositoriesEndpoint,
      ResourceData.Id, herr, payload, ex, call]
  · intro server decode hcode
    simp [mkRepoRead, World.execute, Request.R, Request.SetResult, repositoriesEndpoint,
      ResourceData.Id, ResourceData.SetId, servedBy, buildResty.OnAfterResponse,
      respIsNotFound, hcode, http.StatusNotFound, http.StatusBadRequest, call]

/-- Witness of C2 on a state with id `my-repo`: a server without the repository clears
the id, a server that answers 500 leaves it and surfaces the error. -/
theorem mkRepoRead_outcome_witness :
    mkRepoRead samplePack sampleConstruct (servedBy sampleGoneServer fun _ => none) sampleStale =
      ([], { d := { id := "", attrs := [] },
             log := [.http ⟨.GET, "artifactory/api/repositories/my-repo",
               ⟨[], none, some ""⟩⟩] }) ∧
    mkRepoRead samplePack sampleConstruct (servedBy sampleBrokenServer fun _ => none) sampleStale =
      (["\n500 GET artifactory/api/repositories/my-repo\nboom"],
        { d := { id := "my-repo", attrs := [] },
          log := [.http ⟨.GET, "artifactory/api/repositories/my-repo",
            ⟨[], none, some ""⟩⟩] }) :=
  ⟨(mkRepoRead_outcome samplePack sampleConstruct (servedBy sampleGoneServer fun _ => none)
      sampleStale).1 _ _ rfl rfl rfl,
   (mkRepoRead_outcome samplePack sampleConstruct (servedBy sampleBrokenServer fun _ => none)
      sampleStale).2.1 _ rfl (by
        intro resp hresp
        cases hresp
        decide)⟩

/-- C3: `deleteRepo` issues `DELETE artifactory/api/repositories/<id>`. When the DELETE
fails with a 404 response no error is returned and the id becomes empty; when it fails
in any other way (another status, or no response) that error is returned and the
resource data is untouched. -/
theorem deleteRepo_outcome {P : Type} (m : Client P) (w : World P) :
    let call : Sent P := ⟨.DELETE, "artifactory/api/repositories/" ++ w.d.id, ⟨[], none, none⟩⟩
    let ex := m w.log call
    (∀ err resp, ex.err = some err → ex.resp = some resp → resp.StatusCode = 404 →
      deleteRepo m w = ([], { d := { w.d with id := "" }, log := w.log ++ [.http call] })) ∧
    (∀ err, ex.err = some err → (∀ resp, ex.resp = some resp → resp.StatusCode ≠ 404) →
      deleteRepo m w = ([err], { d := w.d, log := w.log ++ [.http call] })) := by
  intro call ex
  refine ⟨?_, ?_⟩
  · intro err resp herr hresp hcode
    simp only [ex, call] at herr hresp
    simp [deleteRepo, World.execute, Request.R, repositoriesEndpoint, ResourceData.Id,
      ResourceData.SetId, herr, hresp, respIsNotFound, hcode, http.StatusNotFound, call]
  · intro err herr hresp
    have hnf : respIsNotFound ex.resp = false := by
      cases hr : ex.resp with
      | none => rfl
      | some resp => simpa [respIsNotFound, http.StatusNotFound] using hresp resp hr
    simp only [ex, call] at herr hnf
    simp [deleteRepo, World.execute, Request.R, repositoriesEndpoint, ResourceData.Id,
      herr, hnf, diag.FromErr, call]

/-- Witness of C3 on a state with id `my-repo`: a server without the repository clears
the id, a server that answers 500 leaves it and surfaces the error. -/
theorem deleteRepo_outcome_witness :
    deleteRepo (servedBy sampleGoneServer fun _ => none) sampleStale =
      ([], { d := { id := "", attrs := [] },
             log := [.http ⟨.DELETE, "artifactory/api/repositories/my-repo",
               ⟨[], none, none⟩⟩] }) ∧
    deleteRepo (servedBy sampleBrokenServer fun _ => none) sampleStale =
      (["\n500 DELETE artifactory/api/repositories/my-repo\nboom"],
        { d := { id := "my-repo", attrs := [] },
          log := [.http ⟨.DELETE, "artifactory/api/repositories/my-repo",
            ⟨[], none, none⟩⟩] }) :=
  ⟨(deleteRepo_outcome (servedBy sampleGoneServer fun _ => none) sampleStale).1 _ _ rfl rfl rfl,
   (deleteRepo_outcome (servedBy sampleBrokenServer fun _ => none) sampleStale).2 _ rfl (by
        intro resp hresp
        cases hresp
        decide)⟩

/-- C4: when unpack gives payload `p` and key `k`, the create built by `mkRepoCreate`
executes `PUT artifactory/api/repositories/<k>` with body `p` and the merge-race retry
condition as its only retry condition; if the PUT succeeds, the read-back runs on the
state whose id is `k` and whose log ends with that PUT, and its result is returned
(if the PUT fails, its error is returned and no read-back runs). -/
theorem mkRepoCreate_put_then_read {P : Type} (unpack : UnpackFunc P) (read : ContextFunc P)
    (m : Client P) (w : World P) (p : P) (k : String) (hu : unpack w.d = .ok (p, k)) :
    let call : Sent P :=
      ⟨.PUT, "artifactory/api/repositories/" ++ k, ⟨[retryOnMergeError], some p, none⟩⟩
    mkRepoCreate unpack read m w =
      match (m w.log call).err with
      | none => read m { d := { w.d with id := k }, log := w.log ++ [.http call] }
      | some err => ([err], { d := w.d, log := w.log ++ [.http call] }) := by
  intro call
  cases herr : (m w.log call).err with
  | none =>
    simp only [call] at herr
    simp [mkRepoCreate, hu, World.execute, Request.R, Request.AddRetryCondition,
      Request.SetBody, repositoriesEndpoint, ResourceData.SetId, herr, call]
  | some err =>
    simp only [call] at herr
    simp [mkRepoCreate, hu, World.execute, Request.R, Request.AddRetryCondition,
      Request.SetBody, repositoriesEndpoint, herr, diag.FromErr, call]

/-- Witness of C4: the key `my-repo` against a server that accepts the PUT. -/
theorem mkRepoCreate_put_then_read_witness :
    sampleUnpack sampleNew.d = .ok ("my-repo", "my-repo") ∧
    mkRepoCreate sampleUnpack sampleProbe (servedBy sampleOkServer fun _ => none) sampleNew =
      ([], { d := { id := "my-repo", attrs := [("key", .string "my-repo")] },
             log := [.http ⟨.PUT, "artifactory/api/repositories/my-repo",
               ⟨[retryOnMergeError], some "my-repo", none⟩⟩] }) :=
  ⟨rfl, mkRepoCreate_put_then_read sampleUnpack sampleProbe
    (servedBy sampleOkServer fun _ => none) sampleNew "my-repo" "my-repo" rfl⟩

/-- C5, as stated, fails: the key `my-repo` is unpacked and the PUT succeeds, but the
read-back finds no repository (404), so create ends without error and with an empty
id. -/
theorem create_readback_id_counterexample :
    sampleUnpack sampleNew.d = .ok ("my-repo", "my-repo") ∧
    ((servedBy sampleGoneServer fun _ => none) sampleNew.log
      ⟨.PUT, "artifactory/api/repositories/my-repo",
        ⟨[retryOnMergeError], some "my-repo", none⟩⟩).err = none ∧
    (mkRepoCreate sampleUnpack (mkRepoRead samplePack sampleConstruct)
      (servedBy sampleGoneServer fun _ => none) sampleNew).1 = [] ∧
    (mkRepoCreate sampleUnpack (mkRepoRead samplePack sampleConstruct)
      (servedBy sampleGoneServer fun _ => none) sampleNew).2.d.id = "" ∧
    (mkRepoCreate sampleUnpack (mkRepoRead samplePack sampleConstruct)
      (servedBy sampleGoneServer fun _ => none) sampleNew).2.d.id ≠ "my-repo" := by
  refine ⟨rfl, rfl, rfl, rfl, ?_⟩
  decide

/-- C5, amended: when unpack gives key `k`, the PUT succeeds and pack leaves the id alone,
the state after create and its read-back has id `k`, unless the GET of the read-back
fails with a 404 response, in which case the id is empty and create still returns no
error: the diagnostics are empty, pack is not run and the attributes are as before. -/
theorem create_readback_id {P : Type} (unpack : UnpackFunc P) (pack : PackFunc P)
    (construct : Constructor P) (m : Client P) (w : World P) (p : P) (k : String)
    (hu : unpack w.d = .ok (p, k))
    (hput : (m w.log ⟨.PUT, "artifactory/api/repositories/" ++ k,
      ⟨[retryOnMergeError], some p, none⟩⟩).err = none)
    (hpack : ∀ q d, (pack q d).2.id = d.id) :
    let put : Sent P :=
      ⟨.PUT, "artifactory/api/repositories/" ++ k, ⟨[retryOnMergeError], some p, none⟩⟩
    let get : Sent P :=
      ⟨.GET, "artifactory/api/repositories/" ++ k, ⟨[], none, some (construct ())⟩⟩
    let ex := m (w.log ++ [.http put]) get
    ((∃ err resp, ex.err = some err ∧ ex.resp = some resp ∧ resp.StatusCode = 404) →
      (mkRepoCreate unpack (mkRepoRead pack construct) m w).1 = [] ∧
      (mkRepoCreate unpack (mkRepoRead pack construct) m w).2.d.id = "" ∧
      mkRepoCreate unpack (mkRepoRead pack construct) m w =
        ([], { d := { w.d with id := "" }, log := w.log ++ [.http put] ++ [.http get] })) ∧
    (¬ (∃ err resp, ex.err = some err ∧ ex.resp = some resp ∧ resp.StatusCode = 404) →
      (mkRepoCreate unpack (mkRepoRead pack construct) m w).2.d.id = k) := by
  intro put get ex
  have hcreate : mkRepoCreate unpack (mkRepoRead pack construct) m w =
      mkRepoRead pack construct m { d := { w.d with id := k }, log := w.log ++ [.http put] } := by
    simp [mkRepoCreate, hu, World.execute, Request.R, Request.AddRetryCondition,
      Request.SetBody, repositoriesEndpoint, ResourceData.SetId, hput, put]
  rw [hcreate]
  have hex : ex = m (w.log ++ [.http put])
      ⟨.GET, repositoriesEndpoint ++ k, Request.SetResult Request.R (construct ())⟩ := rfl
  refine ⟨?_, ?_⟩
  · rintro ⟨err, resp, herr, hresp, hcode⟩
    have herr1 : (m (w.log ++ [.http put]) ⟨.GET, "artifactory/api/repositories/" ++ k,
        ⟨[], none, some (construct ())⟩⟩).err = some err := herr
    have hresp1 : (m (w.log ++ [.http put]) ⟨.GET, "artifactory/api/repositories/" ++ k,
        ⟨[], none, some (construct ())⟩⟩).resp = some resp := hresp
    have hread : mkRepoRead pack construct m
        { d := { w.d with id := k }, log := w.log ++ [.http put] } =
        ([], { d := { w.d with id := "" }, log := w.log ++ [.http put] ++ [.http get] }) := by
      simp [mkRepoRead, World.execute, ResourceData.Id, ResourceData.SetId, herr1, hresp1,
        respIsNotFound, hcode, http.StatusNotFound, get, repositoriesEndpoint, Request.R,
        Request.SetResult]
    rw [hread]
    exact ⟨rfl, rfl, rfl⟩
  · intro hno
    cases herr : ex.err with
    | none =>
      rw [hex] at herr
      simp [mkRepoRead, World.execute, ResourceData.Id, herr, hpack]
    | some err =>
      have hnf : respIsNotFound ex.resp = false := by
        cases hr : ex.resp with
        | none => rfl
        | some resp =>
          have hne : resp.StatusCode ≠ 404 := fun hc => hno ⟨err, resp, herr, hr, hc⟩
          simpa [respIsNotFound, http.StatusNotFound] using hne
      rw [hex] at herr hnf
      simp [mkRepoRead, World.execute, ResourceData.Id, herr, hnf]

/-- Witness of C5 amended: the key `my-repo` against a server that answers 200 throughout,
where the id is `my-repo`, and against a server that accepts the PUT and answers the GET
with 404, where create returns no error and leaves the id empty. -/
theorem create_readback_id_witness :
    (mkRepoCreate sampleUnpack (mkRepoRead samplePack sampleConstruct)
      (servedBy sampleOkServer fun _ => some "my-repo") sampleNew).2.d.id = "my-repo" ∧
    mkRepoCreate sampleUnpack (mkRepoRead samplePack sampleConstruct)
        (servedBy sampleGoneServer fun _ => none) sampleNew =
      ([], { d := { id := "", attrs := [("key", .string "my-repo")] },
             log := [.http ⟨.PUT, "artifactory/api/repositories/my-repo",
                 ⟨[retryOnMergeError], some "my-repo", none⟩⟩,
               .http ⟨.GET, "artifactory/api/repositories/my-repo", ⟨[], none, some ""⟩⟩] }) :=
  ⟨(create_readback_id sampleUnpack samplePack sampleConstruct
      (servedBy sampleOkServer fun _ => some "my-repo") sampleNew "my-repo" "my-repo"
      rfl rfl (fun _ _ => rfl)).2 (by
        rintro ⟨err, resp, herr, -, -⟩
        exact Option.noConfusion herr),
    ((create_readback_id sampleUnpack samplePack sampleConstruct
      (servedBy sampleGoneServer fun _ => none) sampleNew "my-repo" "my-repo"
      rfl rfl (fun _ _ => rfl)).1 ⟨_, _, rfl, rfl, rfl⟩).2.2⟩

/-- C6, as stated, fails: the resource has id `old-repo`, unpack derives the key
`new-repo`, the POST to `.../old-repo` succeeds, and the read-back starts on a state whose
id is `new-repo`. -/
theorem update_id_counterexample :
    sampleRenamed.d.id = "old-repo" ∧
    sampleUnpack sampleRenamed.d = .ok ("new-repo", "new-repo") ∧
    mkRepoUpdate sampleUnpack sampleProbe (servedBy sampleOkServer fun _ => none) sampleRenamed =
      ([], { d := { id := "new-repo", attrs := [("key", .string "new-repo")] },
             log := [.http ⟨.POST, "artifactory/api/repositories/old-repo",
               ⟨[retryOnMergeError], some "new-repo", none⟩⟩] }) ∧
    (mkRepoUpdate sampleUnpack sampleProbe (servedBy sampleOkServer fun _ => none)
      sampleRenamed).2.d.id ≠ sampleRenamed.d.id := by
  refine ⟨rfl, rfl, rfl, ?_⟩
  decide

/-- C6, amended: when unpack gives payload `p` and key `k` on a state with id `i`, the
update built by `mkRepoUpdate` executes `POST artifactory/api/repositories/<i>` with body
`p` and the merge-race retry condition as its only retry condition; after a successful
POST the read-back starts on the state whose id is `k`, the key unpack returned, which
is `i` whenever unpack derives the key `i`. -/
theorem mkRepoUpdate_post_then_read {P : Type} (unpack : UnpackFunc P) (read : ContextFunc P)
    (m : Client P) (w : World P) (p : P) (k : String) (hu : unpack w.d = .ok (p, k)) :
    let call : Sent P :=
      ⟨.POST, "artifactory/api/repositories/" ++ w.d.id, ⟨[retryOnMergeError], some p, none⟩⟩
    mkRepoUpdate unpack read m w =
      (match (m w.log call).err with
      | none => read m { d := { w.d with id := k }, log := w.log ++ [.http call] }
      | some err => ([err], { d := w.d, log := w.log ++ [.http call] })) ∧
    (k = w.d.id → ({ w.d with id := k } : ResourceData) = w.d) := by
  intro call
  refine ⟨?_, fun hk => by rw [hk]⟩
  cases herr : (m w.log call).err with
  | none =>
    simp only [call] at herr
    simp [mkRepoUpdate, hu, World.execute, Request.R, Request.AddRetryCondition,
      Request.SetBody, repositoriesEndpoint, ResourceData.SetId, ResourceData.Id, herr, call]
  | some err =>
    simp only [call] at herr
    simp [mkRepoUpdate, hu, World.execute, Request.R, Request.AddRetryCondition,
      Request.SetBody, repositoriesEndpoint, ResourceData.Id, herr, diag.FromErr, call]

/-- Witness of C6 amended: a resource whose id and key are both `my-repo`. -/
theorem mkRepoUpdate_post_then_read_witness :
    mkRepoUpdate sampleUnpack sampleProbe (servedBy sampleOkServer fun _ => none)
        { d := { id := "my-repo", attrs := [("key", .string "my-repo")] }, log := [] } =
      ([], { d := { id := "my-repo", attrs := [("key", .string "my-repo")] },
             log := [.http ⟨.POST, "artifactory/api/repositories/my-repo",
               ⟨[retryOnMergeError], some "my-repo", none⟩⟩] }) :=
  (mkRepoUpdate_post_then_read sampleUnpack sampleProbe (servedBy sampleOkServer fun _ => none)
    { d := { id := "my-repo", attrs := [("key", .string "my-repo")] }, log := [] }
    "my-repo" "my-repo" rfl).1

/-- C7: for create and update alike, a failing unpack returns its error with the state
untouched and no request executed; a failing PUT or POST returns the request error with
the resource data untouched, and the only event added is that request (no read-back,
whatever the read function). -/
theorem create_update_failures {P : Type} (unpack : UnpackFunc P) (read : ContextFunc P)
    (m : Client P) (w : World P) :
    (∀ e, unpack w.d = .error e →
      mkRepoCreate unpack read m w = ([e], w) ∧ mkRepoUpdate unpack read m w = ([e], w)) ∧
    (∀ p k err, unpack w.d = .ok (p, k) →
      (m w.log ⟨.PUT, "artifactory/api/repositories/" ++ k,
        ⟨[retryOnMergeError], some p, none⟩⟩).err = some err →
      mkRepoCreate unpack read m w =
        ([err], { d := w.d, log := w.log ++ [.http ⟨.PUT, "artifactory/api/repositories/" ++ k,
          ⟨[retryOnMergeError], some p, none⟩⟩] })) ∧
    (∀ p k err, unpack w.d = .ok (p, k) →
      (m w.log ⟨.POST, "artifactory/api/repositories/" ++ w.d.id,
        ⟨[retryOnMergeError], some p, none⟩⟩).err = some err →
      mkRepoUpdate unpack read m w =
        ([err], { d := w.d, log := w.log ++ [.http
          ⟨.POST, "artifactory/api/repositories/" ++ w.d.id,
            ⟨[retryOnMergeError], some p, none⟩⟩] })) := by
  refine ⟨?_, ?_, ?_⟩
  · intro e he
    simp [mkRepoCreate, mkRepoUpdate, he, diag.FromErr]
  · intro p k err hu herr
    simp [mkRepoCreate, hu, World.execute, Request.R, Request.AddRetryCondition,
      Request.SetBody, repositoriesEndpoint, herr, diag.FromErr]
  · intro p k err hu herr
    simp [mkRepoUpdate, hu, World.execute, Request.R, Request.AddRetryCondition,
      Request.SetBody, repositoriesEndpoint, ResourceData.Id, herr, diag.FromErr]

/-- Witness of C7: without a `key` attribute unpack fails and nothing is sent; against a
server that answers 500 the PUT fails and the state keeps its empty id. -/
theorem create_update_failures_witness :
    mkRepoCreate sampleUnpack (mkRepoRead samplePack sampleConstruct)
        (servedBy sampleOkServer fun _ => none) sampleStale =
      (["key is not set"], sampleStale) ∧
    mkRepoCreate sampleUnpack (mkRepoRead samplePack sampleConstruct)
        (servedBy sampleBrokenServer fun _ => none) sampleNew =
      (["\n500 PUT artifactory/api/repositories/my-repo\nboom"],
        { d := sampleNew.d,
          log := [.http ⟨.PUT, "artifactory/api/repositories/my-repo",
            ⟨[retryOnMergeError], some "my-repo", none⟩⟩] }) :=
  ⟨((create_update_failures sampleUnpack (mkRepoRead samplePack sampleConstruct)
      (servedBy sampleOkServer fun _ => none) sampleStale).1 _ rfl).1,
   (create_update_failures sampleUnpack (mkRepoRead samplePack sampleConstruct)
      (servedBy sampleBrokenServer fun _ => none) sampleNew).2.1 _ _ _ rfl rfl⟩

/-- C8: `retryOnMergeError` answers true exactly when the response body contains the text
`Could not merge and save new descriptor`, wherever it stands and whatever surrounds it
(newlines included); the status code and the error argument play no part. -/
theorem retryOnMergeError_iff :
    (∀ (response : Response) (err : Option Error),
      retryOnMergeError response err = true ↔
        ∃ pre post : String,
          response.Body = pre ++ "Could not merge and save new descriptor" ++ post) ∧
    (∀ (body : String) (s1 s2 : Int) (e1 e2 : Option Error),
      retryOnMergeError ⟨s1, body⟩ e1 = retryOnMergeError ⟨s2, body⟩ e2) ∧
    retryOnMergeError
      ⟨400, "first line\nCould not merge and save new descriptor [x]\nlast line"⟩ none = true ∧
    retryOnMergeError ⟨400, "Could not merge\nand save new descriptor"⟩ none = false := by
  have key : ∀ (response : Response) (err : Option Error),
      retryOnMergeError response err = true ↔
        ∃ pre post : String,
          response.Body = pre ++ "Could not merge and save new descriptor" ++ post := by
    intro response err
    simp only [retryOnMergeError]
    exact merge_pattern_matches response.Body
  refine ⟨key, fun _ _ _ _ _ => rfl, ?_, ?_⟩
  · rw [key]
    exact ⟨"first line\n", " [x]\nlast line", rfl⟩
  · rfl

/-- C9: for every remote base payload whose `ContentSynchronisation` is present, `lookup`
maps `content_synchronisation` to the one-element list holding the map with the single
entry `enabled`; `packBaseRemoteRepo` writes the same value when the eleven optional
flags it dereferences are all present, and panics before that write on `sampleRemote`,
whose flags are absent while its content synchronisation is enabled. -/
theorem content_synchronisation_packed :
    (∀ (r : RemoteRepositoryBaseParams) (cs : ContentSynchronisation),
      r.ContentSynchronisation = some cs →
      ∃ m, lookup r.reflect = some m ∧
        m.get? "content_synchronisation" =
          some (.ifaces [.map [("enabled", .bool cs.Enabled)]])) ∧
    (∀ (r : RemoteRepositoryBaseParams) (cs : ContentSynchronisation),
      r.ContentSynchronisation = some cs →
      (r.HardFail.isSome ∧ r.Offline.isSome ∧ r.BlackedOut.isSome ∧ r.XrayIndex.isSome ∧
        r.StoreArtifactsLocally.isSome ∧ r.ShareConfiguration.isSome ∧
        r.SynchronizeProperties.isSome ∧ r.BlockMismatchingMimeTypes.isSome ∧
        r.AllowAnyHostAuth.isSome ∧ r.EnableCookieManagement.isSome ∧
        r.BypassHeadRequests.isSome) →
      ∃ writes, packBaseRemoteRepo recordingLens r [] = some writes ∧
        writes.filter (fun kv => kv.1 == "content_synchronisation") =
          [("content_synchronisation", .ifaces [.map [("enabled", .bool cs.Enabled)]])]) ∧
    (sampleRemote.ContentSynchronisation = some ⟨true, ⟨false⟩, ⟨false⟩, ⟨false⟩⟩ ∧
      sampleRemote.HardFail = none ∧
      ∀ (σ : Type) (setValue : Lens σ) (d : σ),
        packBaseRemoteRepo setValue sampleRemote d = none) := by
  refine ⟨?_, ?_, rfl, rfl, ?_⟩
  · intro r cs hcs
    refine ⟨_, lookup_remote_eq r, ?_⟩
    simp [GoMap.get?_ofOptions, hcs]
  · rintro r cs hcs ⟨h1, h2, h3, h4, h5, h6, h7, h8, h9, h10, h11⟩
    obtain ⟨b1, h1⟩ := Option.isSome_iff_exists.1 h1
    obtain ⟨b2, h2⟩ := Option.isSome_iff_exists.1 h2
    obtain ⟨b3, h3⟩ := Option.isSome_iff_exists.1 h3
    obtain ⟨b4, h4⟩ := Option.isSome_iff_exists.1 h4
    obtain ⟨b5, h5⟩ := Option.isSome_iff_exists.1 h5
    obtain ⟨b6, h6⟩ := Option.isSome_iff_exists.1 h6
    obtain ⟨b7, h7⟩ := Option.isSome_iff_exists.1 h7
    obtain ⟨b8, h8⟩ := Option.isSome_iff_exists.1 h8
    obtain ⟨b9, h9⟩ := Option.isSome_iff_exists.1 h9
    obtain ⟨b10, h10⟩ := Option.isSome_iff_exists.1 h10
    obtain ⟨b11, h11⟩ := Option.isSome_iff_exists.1 h11
    simp [packBaseRemoteRepo, runStmts, Lens.call, Lens.callDeref, recordingLens, hcs, h1, h2,
      h3, h4, h5, h6, h7, h8, h9, h10, h11, List.filter]
  · intro σ setValue d
    simp [packBaseRemoteRepo, runStmts, Lens.call, Lens.callDeref, sampleRemote]

/-- C10: for every remote base payload the map of `lookup` holds, for each string, int or
bool field with an `hcl` tag, the field's raw value under that tag; every key of the map is
the tag of a tagged field; and the map is the same whatever `Rclass` and
`FailedRetrievalCachePeriodSecs` hold, so neither contributes a key. -/
theorem lookup_remote_scalars (r : RemoteRepositoryBaseParams) :
    ∃ m, lookup r.reflect = some m ∧
      (∀ p ∈ r.reflect.fields, p.2.isScalar = true → p.1.hcl ≠ "" →
        m.get? p.1.hcl = some p.2) ∧
      (∀ k ∈ m.keys, ∃ p ∈ r.reflect.fields, p.1.hcl = k ∧ k ≠ "") ∧
      (∀ (rclass : String) (secs : Int),
        lookup ({ r with Rclass := rclass,
                         FailedRetrievalCachePeriodSecs := secs }).reflect = some m) ∧
      m.get? "rclass" = none ∧ m.get? "Rclass" = none ∧
      m.get? "failed_retrieval_cache_period_secs" = none ∧
      m.get? "FailedRetrievalCachePeriodSecs" = none := by
  refine ⟨_, lookup_remote_eq r, ?_, ?_, ?_, ?_, ?_, ?_, ?_⟩
  · simp [GoMap.get?_ofOptions, RemoteRepositoryBaseParams.reflect, GoValue.fields,
      GoValue.isScalar, boolPtr]
  · intro k hk
    have h1 := GoMap.keys_ofOptions_subset _ _ hk
    have h2 : ∀ t ∈ (r.reflect.fields.map fun p => p.1.hcl).filter (fun t => t ≠ ""),
        ∃ p ∈ r.reflect.fields, p.1.hcl = t ∧ t ≠ "" := by
      intro t ht
      obtain ⟨hmem, hne⟩ := List.mem_filter.1 ht
      obtain ⟨p, hp, rfl⟩ := List.mem_map.1 hmem
      exact ⟨p, hp, rfl, by simpa using hne⟩
    exact h2 k h1
  · intro rclass secs
    rw [lookup_remote_eq]
  · simp [GoMap.get?_ofOptions]
  · simp [GoMap.get?_ofOptions]
  · simp [GoMap.get?_ofOptions]
  · simp [GoMap.get?_ofOptions]

/-- C13: `addAuthToResty` picks one mechanism by the precedence token, API key, basic
auth: a non-empty access token sets the bearer token and nothing else; otherwise a
non-empty API key sets the `X-JFrog-Art-Api` header and nothing else; otherwise a
non-empty username with a non-empty password sets basic auth and nothing else; and the
error `no authentication details supplied` comes with no client exactly when the token
and the key are empty and the username or the password is empty. -/
theorem addAuthToResty_precedence (client : RestyClient)
    (username password apiKey accessToken : String) :
    (accessToken ≠ "" →
      addAuthToResty client username password apiKey accessToken =
        (some { client with Token := accessToken }, none)) ∧
    (accessToken = "" → apiKey ≠ "" →
      addAuthToResty client username password apiKey accessToken =
        (some { client with
          Header := ("X-JFrog-Art-Api", apiKey) ::
            client.Header.filter (fun kv => kv.1 != "X-JFrog-Art-Api") }, none)) ∧
    (accessToken = "" → apiKey = "" → username ≠ "" → password ≠ "" →
      addAuthToResty client username password apiKey accessToken =
        (some { client with UserInfo := some (username, password) }, none)) ∧
    (addAuthToResty client username password apiKey accessToken =
        (none, some "no authentication details supplied") ↔
      accessToken = "" ∧ apiKey = "" ∧ (username = "" ∨ password = "")) ∧
    ((addAuthToResty client username password apiKey accessToken).2.isSome = true ↔
      accessToken = "" ∧ apiKey = "" ∧ (username = "" ∨ password = "")) := by
  refine ⟨?_, ?_, ?_, ?_, ?_⟩
  · intro ht
    simp [addAuthToResty, ht, RestyClient.SetAuthToken]
  · intro ht hk
    simp [addAuthToResty, ht, hk, RestyClient.SetHeader]
  · intro ht hk hu hp
    simp [addAuthToResty, ht, hk, hu, hp, RestyClient.SetBasicAuth]
  · by_cases ht : accessToken = "" <;> by_cases hk : apiKey = "" <;>
      by_cases hu : username = "" <;> by_cases hp : password = "" <;>
      simp [addAuthToResty, ht, hk, hu, hp]
  · by_cases ht : accessToken = "" <;> by_cases hk : apiKey = "" <;>
      by_cases hu : username = "" <;> by_cases hp : password = "" <;>
      simp [addAuthToResty, ht, hk, hu, hp]

/-- Witness of C13: with everything supplied the token wins; with a username and no
password nothing is set and the error is returned. -/
theorem addAuthToResty_precedence_witness :
    addAuthToResty sampleBareClient "admin" "secret" "key-1" "token-1" =
      (some { Token := "token-1", Header := [("content-type", "application/json")],
              UserInfo := none }, none) ∧
    addAuthToResty sampleBareClient "admin" "" "" "" =
      (none, some "no authentication details supplied") :=
  ⟨(addAuthToResty_precedence sampleBareClient "admin" "secret" "key-1" "token-1").1
      (by decide),
   (addAuthToResty_precedence sampleBareClient "admin" "" "" "").2.2.2.1.2
      ⟨rfl, rfl, Or.inr rfl⟩⟩

/-- C16, as stated, fails: the key `my<TAB>repo` is accepted although it contains a
whitespace character. -/
theorem repoKeyValidator_whitespace_counterexample :
    accepts repoKeyValidator "my\trepo" = true ∧
    '\t' ∈ "my\trepo".data ∧ '\t'.isWhitespace = true := by
  refine ⟨?_, ?_, ?_⟩
  · rw [repoKeyValidator_accepts_chars]
    decide
  · decide
  · decide

/-- C16, amended: a key accepted by `repoKeyValidator` does not start with a decimal
digit, contains no space and none of the characters ``!@#$%^&*()_+={}[]:;<>,/?~`|\``. -/
theorem repoKeyValidator_accepted_key (s : String)
    (h : accepts repoKeyValidator s = true) :
    (∀ c, s.data.head? = some c → c.isDigit = false) ∧
    ' ' ∉ s.data ∧
    (∀ c ∈ ['!', '@', '#', '$', '%', '^', '&', '*', '(', ')', '_', '+', '=', '\x7b', '\x7d',
      '[', ']', ':', ';', '<', '>', ',', '/', '?', '~', '\x60', '|', '\\'], c ∉ s.data) := by
  obtain ⟨hd, hc⟩ := (repoKeyValidator_accepts_chars s).1 h
  refine ⟨hd, ?_, ?_⟩
  · intro hmem
    exact hc ' ' hmem (by decide)
  · intro c hlist hmem
    have hsub : ∀ c ∈ ['!', '@', '#', '$', '%', '^', '&', '*', '(', ')', '_', '+', '=', '\x7b',
        '\x7d', '[', ']', ':', ';', '<', '>', ',', '/', '?', '~', '\x60', '|', '\\'],
        c ∈ " !@#$%^&*()_+=\x7b\x7d[]:;<>,/?~`|\\".data := by
      decide
    exact hc c hmem (hsub c hlist)

/-- Witness of C16 amended: the accepted key `my-repo`; the keys with a tab, a newline
or a carriage return in them are accepted as well. -/
theorem repoKeyValidator_accepted_key_witness :
    ((∀ c, "my-repo".data.head? = some c → c.isDigit = false) ∧
      ' ' ∉ "my-repo".data ∧
      (∀ c ∈ ['!', '@', '#', '$', '%', '^', '&', '*', '(', ')', '_', '+', '=', '\x7b', '\x7d',
        '[', ']', ':', ';', '<', '>', ',', '/', '?', '~', '\x60', '|', '\\'],
        c ∉ "my-repo".data)) ∧
    accepts repoKeyValidator "a\tb" = true ∧
    accepts repoKeyValidator "a\nb" = true ∧
    accepts repoKeyValidator "a\rb" = true :=
  ⟨repoKeyValidator_accepted_key "my-repo"
      ((repoKeyValidator_accepts_chars "my-repo").2 (by decide)),
   (repoKeyValidator_accepts_chars "a\tb").2 (by decide),
   (repoKeyValidator_accepts_chars "a\nb").2 (by decide),
   (repoKeyValidator_accepts_chars "a\rb").2 (by decide)⟩

/-- C18: `repoExists` executes `HEAD artifactory/api/repositories/<id>` with `retry400` as
its only retry condition, which holds exactly when the response status is 400; it
answers true exactly when the request returned no error, and false together with the
error otherwise. -/
theorem repoExists_outcome {P : Type} (m : Client P) (w : World P) :
    let call : Sent P :=
      ⟨.HEAD, "artifactory/api/repositories/" ++ w.d.id, ⟨[retry400], none, none⟩⟩
    let ex := m w.log call
    repoExists m w = ((ex.err.isNone, ex.err), { d := w.d, log := w.log ++ [.http call] }) ∧
    (∀ (response : Response) (err : Option Error),
      retry400 response err = true ↔ response.StatusCode = 400) ∧
    ((repoExists m w).1.1 = true ↔ ex.err = none) ∧
    (∀ e, ex.err = some e → (repoExists m w).1 = (false, some e)) := by
  intro call ex
  have h : repoExists m w =
      ((ex.err.isNone, ex.err), { d := w.d, log := w.log ++ [.http call] }) := by
    simp [repoExists, checkRepo, World.execute, Request.R, Request.AddRetryCondition,
      repositoriesEndpoint, ResourceData.Id, ex, call]
  refine ⟨h, ?_, ?_, ?_⟩
  · intro response err
    simp [retry400]
  · rw [h]
    simp
  · intro e he
    rw [h]
    simp [he]

/-- Witness of C18 on a state with id `my-repo`: a server that answers 200 means the
repository exists, a server that answers 404 means an error. -/
theorem repoExists_outcome_witness :
    (repoExists (servedBy sampleOkServer fun _ => none) sampleStale).1 = (true, none) ∧
    (repoExists (servedBy sampleBrokenServer fun _ => none) sampleStale).1 =
      (false, some "\n500 HEAD artifactory/api/repositories/my-repo\nboom") :=
  ⟨congrArg Prod.fst (repoExists_outcome (servedBy sampleOkServer fun _ => none) sampleStale).1,
   (repoExists_outcome (servedBy sampleBrokenServer fun _ => none) sampleStale).2.2.2 _ rfl⟩

/-- C12: the round trip fails on the key. For every configuration and every declaration
of the Docker parameters, the map `lookup` builds from the payload of
`unmarshalLocalRepository` carries the empty string under `key`, `package_type`,
`description`, `notes`, `includes_pattern`, `excludes_pattern` and `repo_layout_ref`: the
zero-valued base parameters embedded in the RPM parameters are flattened last. The
configuration declaring the accepted key `my-repo` is unpacked with id `my-repo` and
packed with key `""`. -/
theorem unmarshal_then_lookup_loses_key :
    (∀ (dockerView : DockerLocalRepositoryParams → GoValue) (hasChange : String → Bool)
        (data : ResourceData) (repo : MessyLocalRepo) (id : String) (m : GoMap),
      unmarshalLocalRepository hasChange data = .ok (repo, id) →
      lookup (repo.reflect dockerView) = some m →
      m.get? "key" = some (.string "") ∧ m.get? "package_type" = some (.string "") ∧
      m.get? "description" = some (.string "") ∧ m.get? "notes" = some (.string "") ∧
      m.get? "includes_pattern" = some (.string "") ∧
      m.get? "excludes_pattern" = some (.string "") ∧
      m.get? "repo_layout_ref" = some (.string "")) ∧
    accepts repoKeyValidator "my-repo" = true ∧
    sampleLocalConfig.attrs.get? "key" = some (.string "my-repo") ∧
    (∃ repo m, unmarshalLocalRepository (fun _ => true) sampleLocalConfig = .ok (repo, "my-repo") ∧
      repo.LocalRepositoryBaseParams.Key = "my-repo" ∧
      lookup (repo.reflect sampleDockerView) = some m ∧
      m.get? "key" = some (.string "") ∧ m.get? "key" ≠ some (.string "my-repo")) := by
  have general : ∀ (dockerView : DockerLocalRepositoryParams → GoValue)
      (hasChange : String → Bool) (data : ResourceData) (repo : MessyLocalRepo) (id : String)
      (m : GoMap),
      unmarshalLocalRepository hasChange data = .ok (repo, id) →
      lookup (repo.reflect dockerView) = some m →
      m.get? "key" = some (.string "") ∧ m.get? "package_type" = some (.string "") ∧
      m.get? "description" = some (.string "") ∧ m.get? "notes" = some (.string "") ∧
      m.get? "includes_pattern" = some (.string "") ∧
      m.get? "excludes_pattern" = some (.string "") ∧
      m.get? "repo_layout_ref" = some (.string "") := by
    intro dockerView hasChange data repo id m hu hl
    have hrpm : repo.RpmLocalRepositoryParams.LocalRepositoryBaseParams =
        LocalRepositoryBaseParams.zero := by
      simp only [unmarshalLocalRepository, Except.ok.injEq, Prod.mk.injEq] at hu
      rw [← hu.1]
      rfl
    have hsplit : repo.reflect dockerView = .struct (
        [(⟨"LocalRepositoryBaseParams", ""⟩, repo.LocalRepositoryBaseParams.reflect),
         (⟨"CommonMavenGradleLocalRepositoryParams", ""⟩,
           repo.CommonMavenGradleLocalRepositoryParams.reflect),
         (⟨"DebianLocalRepositoryParams", ""⟩, repo.DebianLocalRepositoryParams.reflect),
         (⟨"DockerLocalRepositoryParams", ""⟩, dockerView repo.DockerLocalRepositoryParams)] ++
        [(⟨"RpmLocalRepositoryParams", ""⟩, repo.RpmLocalRepositoryParams.reflect),
         (⟨"ForceNugetAuthentication", ""⟩, .bool repo.ForceNugetAuthentication)]) := rfl
    rw [hsplit] at hl
    simp only [lookup] at hl
    rw [lookupLoop_append] at hl
    cases hpre : lookupLoop
        [(⟨"LocalRepositoryBaseParams", ""⟩, repo.LocalRepositoryBaseParams.reflect),
         (⟨"CommonMavenGradleLocalRepositoryParams", ""⟩,
           repo.CommonMavenGradleLocalRepositoryParams.reflect),
         (⟨"DebianLocalRepositoryParams", ""⟩, repo.DebianLocalRepositoryParams.reflect),
         (⟨"DockerLocalRepositoryParams", ""⟩, dockerView repo.DockerLocalRepositoryParams)]
        [] with
    | none =>
      rw [hpre] at hl
      exact Option.noConfusion hl
    | some values =>
      rw [hpre, Option.some_bind, lookupLoop_rpm_tail _ _ _ hrpm, Option.some.injEq] at hl
      subst hl
      simp [GoMap.get?_merge]
  refine ⟨general, ?_, rfl, ?_⟩
  · rw [repoKeyValidator_accepts_chars]
    decide
  · have hsome : (lookup (MessyLocalRepo.reflect sampleDockerView sampleLocalPayload)).isSome =
        true := rfl
    obtain ⟨m, hm⟩ := Option.isSome_iff_exists.1 hsome
    have hu : unmarshalLocalRepository (fun _ => true) sampleLocalConfig =
        .ok (sampleLocalPayload, "my-repo") := rfl
    have hk := (general sampleDockerView (fun _ => true) sampleLocalConfig _ _ m hu hm).1
    refine ⟨_, m, hu, rfl, hm, hk, ?_⟩
    rw [hk]
    simp

/-- C14: the configured `docker_api_version` never reaches the payload. The accessor is
asked for `docker_api_verision`, which no schema declares, so on every state without an
attribute of that name the payload carries `V2`; declaring `docker_api_version = "V1"`
gives `V2` too. -/
theorem docker_api_version_ignored :
    (∀ (hasChange : String → Bool) (data : ResourceData),
      data.attrs.get? "docker_api_verision" = none →
      ∃ repo id, unmarshalLocalRepository hasChange data = .ok (repo, id) ∧
        repo.DockerLocalRepositoryParams.DockerApiVersion = "V2") ∧
    sampleDockerConfig.attrs.get? "docker_api_version" = some (.string "V1") ∧
    (∃ repo, unmarshalLocalRepository (fun _ => true) sampleDockerConfig =
        .ok (repo, "docker-local") ∧
      repo.DockerLocalRepositoryParams.DockerApiVersion = "V2" ∧
      repo.DockerLocalRepositoryParams.DockerApiVersion ≠ "V1") := by
  refine ⟨?_, rfl, ?_⟩
  · intro hasChange data hmiss
    refine ⟨_, _, rfl, ?_⟩
    simp [Accessor.getString, Accessor.suppressed, hmiss]
  · refine ⟨_, rfl, rfl, ?_⟩
    decide

/-- C15: the legacy local constructor returns the zero payload with `Rclass` set to
`local`, the remote Cargo constructor the zero payload with `Rclass` set to `remote` and
`PackageType` to `cargo`; the legacy virtual constructor returns the zero payload as it
is, with `Rclass` empty and not `virtual`. -/
theorem constructors_stamp_rclass :
    ((resourceArtifactoryLocalRepository.construct ()).LocalRepositoryBaseParams.Rclass =
        "local" ∧
      { resourceArtifactoryLocalRepository.construct () with
        LocalRepositoryBaseParams :=
          { (resourceArtifactoryLocalRepository.construct ()).LocalRepositoryBaseParams with
            Rclass := "" } } = MessyLocalRepo.zero) ∧
    ((resourceArtifactoryRemoteCargoRepository.construct ()).RemoteRepositoryBaseParams.Rclass =
        "remote" ∧
      (resourceArtifactoryRemoteCargoRepository.construct ()).RemoteRepositoryBaseParams.PackageType =
        "cargo" ∧
      (resourceArtifactoryRemoteCargoRepository.construct ()).RegistryUrl = "" ∧
      (resourceArtifactoryRemoteCargoRepository.construct ()).AnonymousAccess = false ∧
      { (resourceArtifactoryRemoteCargoRepository.construct ()).RemoteRepositoryBaseParams with
        Rclass := "", PackageType := "" } = RemoteRepositoryBaseParams.zero) ∧
    (readFunc.construct () = MessyVirtualRepo.zero ∧
      (readFunc.construct ()).Rclass = "" ∧
      (readFunc.construct ()).Rclass ≠ "virtual") := by
  refine ⟨⟨rfl, rfl⟩, ⟨rfl, rfl, rfl, rfl, rfl⟩, rfl, rfl, ?_⟩
  decide

/-- C17: for every remote resource state on which `unpackBaseRemoteRepo` returns, each
attribute read in only-if-changed mode gives the zero value (empty string, 0, absent
bool) when it is unchanged and its current value when it has changed, while `key` and
`url` always give their current value; and it returns whenever the
`content_synchronisation` attribute is unset or a one-block list with a boolean
`enabled`. -/
theorem unpackBaseRemoteRepo_only_if_changed (hasChange : String → Bool) (s : ResourceData) :
    (∀ r, unpackBaseRemoteRepo hasChange s = some r →
      r.Key = (match s.attrs.get? "key" with | some (.string v) => v | _ => "") ∧
      r.Url = (match s.attrs.get? "url" with | some (.string v) => v | _ => "") ∧
      (∀ p ∈ [("username", r.Username), ("password", r.Password), ("proxy", r.Proxy),
          ("description", r.Description), ("notes", r.Notes),
          ("includes_pattern", r.IncludesPattern), ("excludes_pattern", r.ExcludesPattern),
          ("repo_layout_ref", r.RepoLayoutRef), ("local_address", r.LocalAddress),
          ("client_tls_certificate", r.ClientTlsCertificate)],
        p.2 = if hasChange p.1 then
            (match s.attrs.get? p.1 with | some (.string v) => v | _ => "")
          else "") ∧
      (∀ p ∈ [("hard_fail", r.HardFail), ("offline", r.Offline), ("blacked_out", r.BlackedOut),
          ("xray_index", r.XrayIndex), ("store_artifacts_locally", r.StoreArtifactsLocally),
          ("unused_artifacts_cleanup_period_enabled", r.UnusedArtifactsCleanupEnabled),
          ("share_configuration", r.ShareConfiguration),
          ("synchronize_properties", r.SynchronizeProperties),
          ("block_mismatching_mime_types", r.BlockMismatchingMimeTypes),
          ("allow_any_host_auth", r.AllowAnyHostAuth),
          ("enable_cookie_management", r.EnableCookieManagement),
          ("bypass_head_requests", r.BypassHeadRequests)],
        p.2 = if hasChange p.1 then
            (match s.attrs.get? p.1 with | some (.bool v) => some v | _ => none)
          else none) ∧
      (∀ p ∈ [("socket_timeout_millis", r.SocketTimeoutMillis),
          ("retrieval_cache_period_seconds", r.RetrievalCachePeriodSecs),
          ("missed_cache_period_seconds", r.MissedRetrievalCachePeriodSecs),
          ("unused_artifacts_cleanup_period_hours", r.UnusedArtifactsCleanupPeriodHours),
          ("assumed_offline_period_secs", r.AssumedOfflinePeriodSecs)],
        p.2 = if hasChange p.1 then
            (match s.attrs.get? p.1 with | some (.int v) => v | _ => 0)
          else 0)) ∧
    (s.attrs.get? "content_synchronisation" = none →
      (unpackBaseRemoteRepo hasChange s).isSome = true) ∧
    (∀ enabled : Bool,
      s.attrs.get? "content_synchronisation" =
        some (.ifaces [.map [("enabled", .bool enabled)]]) →
      (unpackBaseRemoteRepo hasChange s).isSome = true) := by
  refine ⟨?_, ?_, ?_⟩
  · intro r hr
    have hbase : ∃ cs, r =
        { Rclass := "remote",
          Key := Accessor.getString ⟨s, hasChange⟩ "key" false,
          PackageType := "invalid",
          Url := Accessor.getString ⟨s, hasChange⟩ "url" false,
          Username := Accessor.getString ⟨s, hasChange⟩ "username" true,
          Password := Accessor.getString ⟨s, hasChange⟩ "password" true,
          Proxy := Accessor.getString ⟨s, hasChange⟩ "proxy" true,
          Description := Accessor.getString ⟨s, hasChange⟩ "description" true,
          Notes := Accessor.getString ⟨s, hasChange⟩ "notes" true,
          IncludesPattern := Accessor.getString ⟨s, hasChange⟩ "includes_pattern" true,
          ExcludesPattern := Accessor.getString ⟨s, hasChange⟩ "excludes_pattern" true,
          RepoLayoutRef := Accessor.getString ⟨s, hasChange⟩ "repo_layout_ref" true,
          HardFail := Accessor.getBoolRef ⟨s, hasChange⟩ "hard_fail" true,
          Offline := Accessor.getBoolRef ⟨s, hasChange⟩ "offline" true,
          BlackedOut := Accessor.getBoolRef ⟨s, hasChange⟩ "blacked_out" true,
          XrayIndex := Accessor.getBoolRef ⟨s, hasChange⟩ "xray_index" true,
          StoreArtifactsLocally :=
            Accessor.getBoolRef ⟨s, hasChange⟩ "store_artifacts_locally" true,
          SocketTimeoutMillis := Accessor.getInt ⟨s, hasChange⟩ "socket_timeout_millis" true,
          LocalAddress := Accessor.getString ⟨s, hasChange⟩ "local_address" true,
          RetrievalCachePeriodSecs :=
            Accessor.getInt ⟨s, hasChange⟩ "retrieval_cache_period_seconds" true,
          MissedRetrievalCachePeriodSecs :=
            Accessor.getInt ⟨s, hasChange⟩ "missed_cache_period_seconds" true,
          UnusedArtifactsCleanupEnabled :=
            Accessor.getBoolRef ⟨s, hasChange⟩ "unused_artifacts_cleanup_period_enabled" true,
          UnusedArtifactsCleanupPeriodHours :=
            Accessor.getInt ⟨s, hasChange⟩ "unused_artifacts_cleanup_period_hours" true,
          AssumedOfflinePeriodSecs :=
            Accessor.getInt ⟨s, hasChange⟩ "assumed_offline_period_secs" true,
          ShareConfiguration := Accessor.getBoolRef ⟨s, hasChange⟩ "share_configuration" true,
          SynchronizeProperties :=
            Accessor.getBoolRef ⟨s, hasChange⟩ "synchronize_properties" true,
          BlockMismatchingMimeTypes :=
            Accessor.getBoolRef ⟨s, hasChange⟩ "block_mismatching_mime_types" true,
          PropertySets := Accessor.getSet ⟨s, hasChange⟩ "property_sets",
          AllowAnyHostAuth := Accessor.getBoolRef ⟨s, hasChange⟩ "allow_any_host_auth" true,
          EnableCookieManagement :=
            Accessor.getBoolRef ⟨s, hasChange⟩ "enable_cookie_management" true,
          BypassHeadRequests := Accessor.getBoolRef ⟨s, hasChange⟩ "bypass_head_requests" true,
          ClientTlsCertificate :=
            Accessor.getString ⟨s, hasChange⟩ "client_tls_certificate" true,
          PropagateQueryParams := false,
          PriorityResolution := false,
          FailedRetrievalCachePeriodSecs := 0,
          ContentSynchronisation := cs } := by
      unfold unpackBaseRemoteRepo at hr
      simp only at hr
      split at hr
      · split at hr
        · split at hr
          · exact ⟨_, (Option.some.inj hr).symm⟩
          · exact Option.noConfusion hr
        · exact Option.noConfusion hr
      · exact ⟨_, (Option.some.inj hr).symm⟩
    obtain ⟨cs, rfl⟩ := hbase
    refine ⟨?_, ?_, ?_, ?_, ?_⟩
    · simp [Accessor.getString, Accessor.suppressed]
    · simp [Accessor.getString, Accessor.suppressed]
    · simp only [List.forall_mem_cons, List.not_mem_nil, false_imp_iff, implies_true, and_true]
      simp only [Accessor.getString, Accessor.suppressed, Bool.true_and, Bool.not_eq_true']
      refine ⟨?_, ?_, ?_, ?_, ?_, ?_, ?_, ?_, ?_, ?_⟩ <;>
        (split_ifs <;> simp_all)
    · simp only [List.forall_mem_cons, List.not_mem_nil, false_imp_iff, implies_true, and_true]
      simp only [Accessor.getBoolRef, Accessor.suppressed, Bool.true_and, Bool.not_eq_true']
      refine ⟨?_, ?_, ?_, ?_, ?_, ?_, ?_, ?_, ?_, ?_, ?_, ?_⟩ <;>
        (split_ifs <;> simp_all)
    · simp only [List.forall_mem_cons, List.not_mem_nil, false_imp_iff, implies_true, and_true]
      simp only [Accessor.getInt, Accessor.suppressed, Bool.true_and, Bool.not_eq_true']
      refine ⟨?_, ?_, ?_, ?_, ?_⟩ <;>
        (split_ifs <;> simp_all)
  · intro hcs
    simp [unpackBaseRemoteRepo, Accessor.GetOk, hcs]
  · intro enabled hcs
    simp [unpackBaseRemoteRepo, Accessor.GetOk, hcs, GoValue.isZero, GoMap.get?]

/-- Witness of C17: user name and timeout are set; only the user name has changed. -/
theorem unpackBaseRemoteRepo_only_if_changed_witness :
    ∃ r, unpackBaseRemoteRepo (fun k => k == "username") sampleRemoteConfig = some r ∧
      r.Key = "remote-repo" ∧ r.Url = "https://example.org/repo" ∧
      r.Username = "reader" ∧ r.SocketTimeoutMillis = 0 ∧ r.Offline = none :=
  ⟨_, rfl,
    ((unpackBaseRemoteRepo_only_if_changed (fun k => k == "username") sampleRemoteConfig).1
      _ rfl).1, rfl, rfl, rfl, rfl⟩

/-- C11: when `lookup` gives the map `values`, `universalPack` runs `d.Set` on every entry
the loop visits, whether or not earlier writes failed, and the loop visits every entry of
`values`; it returns an error exactly when at least one write failed, and that one error
is built from the failures of all writes, in the order they were made. -/
theorem universalPack_collects (dSet : SetFunc) (visit : GoMap → List (String × GoValue))
    (payload : GoValue) (d : ResourceData) (values : GoMap)
    (hl : lookup payload = some values) (hv : (visit values).Perm values) :
    let run :=
      (visit values).foldl
        (fun (s : ResourceData × List Error) kv =>
          ((dSet kv.1 kv.2 s.1).2, s.2 ++ (dSet kv.1 kv.2 s.1).1.toList))
        (d, [])
    universalPack dSet visit payload d =
      some (if run.2 = [] then none else some (failedSavingState run.2), run.1) ∧
    ((∃ r err, universalPack dSet visit payload d = some r ∧ r.1 = some err) ↔ run.2 ≠ []) ∧
    (∀ kv ∈ values, kv ∈ visit values) := by
  intro run
  have h : universalPack dSet visit payload d =
      some (if run.2 = [] then none else some (failedSavingState run.2), run.1) :=
    universalPack_collects_eq dSet visit payload d values hl
  refine ⟨h, ?_, fun kv hkv => (hv.mem_iff).2 hkv⟩
  rw [h]
  by_cases hr : run.2 = []
  · simp [hr]
  · simp [hr]

/-- Witness of C11: of three keys only `beta` is declared; the writes of `alpha` and
`gamma` fail and are both reported, and `beta` is written all the same. -/
theorem universalPack_collects_witness :
    universalPack (schemaSet sampleBetaOnly) (fun m => m) sampleTriple sampleStale.d =
      some (some "failed saving state [\"Invalid address to set: alpha\" \"Invalid address to set: gamma\"]",
        { id := "my-repo", attrs := [("beta", .string "b")] }) :=
  (universalPack_collects (schemaSet sampleBetaOnly) (fun m => m) sampleTriple sampleStale.d
    [("alpha", .string "a"), ("beta", .string "b"), ("gamma", .string "c")] rfl
    (List.Perm.refl _)).1

/-- C20: `lookup` is a function of the payload, so two computations give the same map; and
writing a payload with `universalPack` into the state an earlier `universalPack` of the
same payload left changes nothing, whatever the orders in which the two loops visit the
entries. -/
theorem universalPack_idempotent (fits : String → GoValue → Bool)
    (visit1 visit2 : GoMap → List (String × GoValue))
    (hv1 : ∀ m, (visit1 m).Perm m) (hv2 : ∀ m, (visit2 m).Perm m)
    (payload : GoValue) (d : ResourceData) :
    (∀ m1 m2, lookup payload = some m1 → lookup payload = some m2 → m1 = m2) ∧
    (∀ r, universalPack (schemaSet fits) visit1 payload d = some r →
      ∃ r', universalPack (schemaSet fits) visit2 payload r.2 = some r' ∧ r'.2 = r.2) := by
  refine ⟨fun m1 m2 h1 h2 => Option.some.inj (h1.symm.trans h2), ?_⟩
  intro r hr
  cases hl : lookup payload with
  | none =>
    simp [universalPack, hl] at hr
  | some values =>
    have hnd : values.keys.Nodup := lookup_nodup_keys payload values hl
    have h1 := (universalPack_collects_eq (schemaSet fits) visit1 payload d values hl)
    have h2 := fun d' => (universalPack_collects_eq (schemaSet fits) visit2 payload d' values hl)
    rw [h1, Option.some.injEq] at hr
    subst hr
    refine ⟨_, h2 _, ?_⟩
    simp only [schemaSet_foldl]
    have hnd1 : ((visit1 values).map Prod.fst).Nodup :=
      ((hv1 values).map Prod.fst).nodup_iff.2 hnd
    have hkeep : List.foldl (fun a kv => if fits kv.1 kv.2 then GoMap.set a kv.1 kv.2 else a)
        (List.foldl (fun a kv => if fits kv.1 kv.2 then GoMap.set a kv.1 kv.2 else a)
          d.attrs (visit1 values)) (visit2 values) =
        List.foldl (fun a kv => if fits kv.1 kv.2 then GoMap.set a kv.1 kv.2 else a)
          d.attrs (visit1 values) := by
      apply writes_again
      intro kv hkv hf
      have hmem : kv ∈ visit1 values :=
        (hv1 values).mem_iff.2 ((hv2 values).mem_iff.1 hkv)
      exact writes_stored fits (visit1 values) d.attrs hnd1 kv hmem hf
    simp [hkeep]

/-- Witness of C20: the three-field payload written twice into a state that declares only
`beta`, the second time in reverse order. -/
theorem universalPack_idempotent_witness :
    ∃ r', universalPack (schemaSet sampleBetaOnly) List.reverse sampleTriple
        { id := "my-repo", attrs := [("beta", .string "b")] } = some r' ∧
      r'.2 = { id := "my-repo", attrs := [("beta", .string "b")] } :=
  (universalPack_idempotent sampleBetaOnly (fun m => m) List.reverse
    (fun m => List.Perm.refl m) (fun m => List.reverse_perm m) sampleTriple sampleStale.d).2
    _ rfl

/-- C19, as stated, fails. A create whose first two answers carry the merge-race text is
retried twice, not exactly once, and then succeeds; and when every answer carries the text
and names its attempt, the error create returns after the five retries is that of the
last attempt, which is not the error of the first. -/
theorem merge_race_retry_counterexample :
    (∃ pre post : String,
      (sampleFlakyServer 0 ⟨.PUT, "artifactory/api/repositories/my-repo",
        ⟨[retryOnMergeError], some "my-repo", none⟩⟩).Body =
        pre ++ "Could not merge and save new descriptor" ++ post) ∧
    (restyAttempts sampleFlakyServer ⟨.PUT, "artifactory/api/repositories/my-repo",
      ⟨[retryOnMergeError], some "my-repo", none⟩⟩).1.length = 2 ∧
    (restyAttempts sampleFlakyServer ⟨.PUT, "artifactory/api/repositories/my-repo",
      ⟨[retryOnMergeError], some "my-repo", none⟩⟩).1.length ≠ 1 ∧
    (restyAttempts sampleCountingServer ⟨.PUT, "artifactory/api/repositories/my-repo",
      ⟨[retryOnMergeError], some "my-repo", none⟩⟩).1.length = 5 ∧
    (mkRepoCreate sampleUnpack sampleProbe (retryingClient sampleCountingServer fun _ => none)
      sampleNew).1 =
      ["\n500 PUT artifactory/api/repositories/my-repo\n" ++
        "Could not merge and save new descriptor, attempt 5"] ∧
    (mkRepoCreate sampleUnpack sampleProbe (retryingClient sampleCountingServer fun _ => none)
      sampleNew).1 ≠
      (buildResty.OnAfterResponse .PUT "artifactory/api/repositories/my-repo"
        (some (sampleCountingServer 0 ⟨.PUT, "artifactory/api/repositories/my-repo",
          ⟨[retryOnMergeError], some "my-repo", none⟩⟩))).toList := by
  have hflaky := restyAttempts_merge sampleFlakyServer
    ⟨.PUT, "artifactory/api/repositories/my-repo", ⟨[retryOnMergeError], some "my-repo", none⟩⟩
    rfl 2 (by decide)
    (fun i hi => by
      refine ⟨"", "", ?_⟩
      have h : (sampleFlakyServer i ⟨.PUT, "artifactory/api/repositories/my-repo",
          ⟨[retryOnMergeError], some "my-repo", none⟩⟩).Body =
          "Could not merge and save new descriptor" := by
        simp [sampleFlakyServer, hi]
      rw [h]
      rfl)
    (fun _ => no_signature_of_short _ (by decide))
  have hcount := restyAttempts_merge sampleCountingServer
    ⟨.PUT, "artifactory/api/repositories/my-repo", ⟨[retryOnMergeError], some "my-repo", none⟩⟩
    rfl 5 (by decide)
    (fun i _ => ⟨"", ", attempt " ++ toString i, by
      show "Could not merge and save new descriptor, attempt " ++ toString i = _
      have hlit : "Could not merge and save new descriptor, attempt " =
          "" ++ "Could not merge and save new descriptor" ++ ", attempt " := by decide
      rw [hlit, String.append_assoc]⟩)
    (fun h => absurd h (by decide))
  have hcreate := mkRepoCreate_of_unpack sampleUnpack sampleProbe
    (retryingClient sampleCountingServer fun _ => none) sampleNew "my-repo" "my-repo" rfl
  have herr : ((retryingClient sampleCountingServer fun _ => none) sampleNew.log
      ⟨.PUT, "artifactory/api/repositories/" ++ "my-repo",
        ⟨[retryOnMergeError], some "my-repo", none⟩⟩).err =
      some ("\n500 PUT artifactory/api/repositories/my-repo\n" ++
        "Could not merge and save new descriptor, attempt 5") := by
    show (restyAttempts sampleCountingServer ⟨.PUT, "artifactory/api/repositories/my-repo",
      ⟨[retryOnMergeError], some "my-repo", none⟩⟩).2.2 = _
    rw [hcount]
    decide
  rw [herr] at hcreate
  refine ⟨⟨"", "", rfl⟩, ?_, ?_, ?_, ?_, ?_⟩
  · rw [hflaky]; rfl
  · rw [hflaky]; decide
  · rw [hcount]; rfl
  · rw [hcreate]
  · rw [hcreate]; decide

/-- C19, amended: when unpack gives payload `p` and key `k`, create executes its PUT (and
update its POST) through the retry loop of the client, every attempt sending the same
request with body `p`. If the first `n ≤ 5` answers carry the merge-race text and, unless
`n = 5` uses up the retry count 5, the next answer does not, then exactly `n` retries are
made, and the operation goes on from the last attempt alone: the error the client made
of its answer is returned unchanged as the only diagnostic, with no read-back, and an
answer without error is followed by the read-back. -/
theorem merge_race_retry_budget {P : Type} (unpack : UnpackFunc P) (read : ContextFunc P)
    (server : Nat → Sent P → Response) (decode : Response → Option P) (w : World P)
    (p : P) (k : String) (hu : unpack w.d = .ok (p, k)) (n : Nat) (hn : n ≤ 5) :
    let put : Sent P :=
      ⟨.PUT, "artifactory/api/repositories/" ++ k, ⟨[retryOnMergeError], some p, none⟩⟩
    let post : Sent P :=
      ⟨.POST, "artifactory/api/repositories/" ++ w.d.id, ⟨[retryOnMergeError], some p, none⟩⟩
    let answer : Sent P → Nat → Attempt := fun call i =>
      (server i call, buildResty.OnAfterResponse call.method call.url (some (server i call)))
    let signed : Sent P → Nat → Prop := fun call i =>
      ∃ pre suf : String,
        (server i call).Body = pre ++ "Could not merge and save new descriptor" ++ suf
    ((∀ i < n, signed put i) → (n < 5 → ¬ signed put n) →
      restyAttempts server put = ((List.range n).map (answer put), answer put n) ∧
      (restyAttempts server put).1.length = n ∧
      mkRepoCreate unpack read (retryingClient server decode) w =
        match (answer put n).2 with
        | none => read (retryingClient server decode)
            { d := { w.d with id := k }, log := w.log ++ [.http put] }
        | some err => ([err], { d := w.d, log := w.log ++ [.http put] })) ∧
    ((∀ i < n, signed post i) → (n < 5 → ¬ signed post n) →
      restyAttempts server post = ((List.range n).map (answer post), answer post n) ∧
      (restyAttempts server post).1.length = n ∧
      mkRepoUpdate unpack read (retryingClient server decode) w =
        match (answer post n).2 with
        | none => read (retryingClient server decode)
            { d := { w.d with id := k }, log := w.log ++ [.http post] }
        | some err => ([err], { d := w.d, log := w.log ++ [.http post] })) := by
  intro put post answer signed
  refine ⟨?_, ?_⟩
  · intro hsig hstop
    have hat := restyAttempts_merge server put rfl n hn hsig hstop
    refine ⟨hat, ?_, ?_⟩
    · rw [hat]; simp
    · rw [mkRepoCreate_of_unpack unpack read (retryingClient server decode) w p k hu]
      have herr : (retryingClient server decode w.log put).err = (answer put n).2 := by
        show (restyAttempts server put).2.2 = _
        rw [hat]
      simp only [put] at herr
      rw [herr]
  · intro hsig hstop
    have hat := restyAttempts_merge server post rfl n hn hsig hstop
    refine ⟨hat, ?_, ?_⟩
    · rw [hat]; simp
    · rw [mkRepoUpdate_of_unpack unpack read (retryingClient server decode) w p k hu]
      have herr : (retryingClient server decode w.log post).err = (answer post n).2 := by
        show (restyAttempts server post).2.2 = _
        rw [hat]
      simp only [post] at herr
      rw [herr]

/-- Witness of C19 amended: a server that answers every attempt of the PUT for `my-repo`
with the merge-race failure. Five retries are made and create returns the error of the
answer, with no read-back. -/
theorem merge_race_retry_budget_witness :
    sampleUnpack sampleNew.d = .ok ("my-repo", "my-repo") ∧
    (restyAttempts sampleMergeRaceServer ⟨.PUT, "artifactory/api/repositories/my-repo",
      ⟨[retryOnMergeError], some "my-repo", none⟩⟩).1.length = 5 ∧
    mkRepoCreate sampleUnpack sampleProbe (retryingClient sampleMergeRaceServer fun _ => none)
        sampleNew =
      (["\n500 PUT artifactory/api/repositories/my-repo\n" ++
          "Could not merge and save new descriptor"],
        { d := { id := "", attrs := [("key", .string "my-repo")] },
          log := [.http ⟨.PUT, "artifactory/api/repositories/my-repo",
            ⟨[retryOnMergeError], some "my-repo", none⟩⟩] }) :=
  ⟨rfl,
    ((merge_race_retry_budget sampleUnpack sampleProbe sampleMergeRaceServer (fun _ => none)
      sampleNew "my-repo" "my-repo" rfl 5 (by decide)).1
      (fun _ _ => ⟨"", "", rfl⟩) (fun h => absurd h (by decide))).2.1,
    ((merge_race_retry_budget sampleUnpack sampleProbe sampleMergeRaceServer (fun _ => none)
      sampleNew "my-repo" "my-repo" rfl 5 (by decide)).1
      (fun _ _ => ⟨"", "", rfl⟩) (fun h => absurd h (by decide))).2.2⟩

/-- C21: `repoTypeValidator` accepts a string exactly when it is, letter for letter, an
entry of `repoTypesSupported`; the list has 29 entries, no two of them equal; `generic` is
accepted, `Generic` and the empty string are rejected. -/
theorem repoTypeValidator_accepts_iff :
    (∀ s : String, accepts repoTypeValidator s = true ↔ s ∈ repoTypesSupported) ∧
    repoTypesSupported.length = 29 ∧
    repoTypesSupported.Nodup ∧
    accepts repoTypeValidator "generic" = true ∧
    accepts repoTypeValidator "Generic" = false ∧
    accepts repoTypeValidator "" = false := by
  have hiff : ∀ s : String, accepts repoTypeValidator s = true ↔ s ∈ repoTypesSupported :=
    fun s => accepts_stringInSlice repoTypesSupported s
  refine ⟨hiff, rfl, ?_, ?_, ?_, ?_⟩
  · decide
  · rw [hiff]
    decide
  · rw [← Bool.not_eq_true, hiff]
    decide
  · rw [← Bool.not_eq_true, hiff]
    decide

/-- C24: `packBaseRemoteRepo` is not total. Whatever the setter and its state, it completes
exactly when all eleven optional flags it dereferences are present; on the payload
`sampleRemote`, a well-formed value in which they are all absent, it panics, and with
`HardFail` alone absent it panics as well. -/
theorem packBaseRemoteRepo_completes_iff :
    (∀ (σ : Type) (setValue : Lens σ) (d : σ) (repo : RemoteRepositoryBaseParams),
      (packBaseRemoteRepo setValue repo d).isSome = true ↔
        repo.HardFail.isSome = true ∧ repo.Offline.isSome = true ∧
        repo.BlackedOut.isSome = true ∧ repo.XrayIndex.isSome = true ∧
        repo.StoreArtifactsLocally.isSome = true ∧ repo.ShareConfiguration.isSome = true ∧
        repo.SynchronizeProperties.isSome = true ∧
        repo.BlockMismatchingMimeTypes.isSome = true ∧
        repo.AllowAnyHostAuth.isSome = true ∧ repo.EnableCookieManagement.isSome = true ∧
        repo.BypassHeadRequests.isSome = true) ∧
    (∀ (σ : Type) (setValue : Lens σ) (d : σ), packBaseRemoteRepo setValue sampleRemote d = none) ∧
    packBaseRemoteRepo recordingLens
      { sampleRemote with
        Offline := some false, BlackedOut := some false, XrayIndex := some false,
        StoreArtifactsLocally := some true, ShareConfiguration := some false,
        SynchronizeProperties := some false, BlockMismatchingMimeTypes := some true,
        AllowAnyHostAuth := some false, EnableCookieManagement := some false,
        BypassHeadRequests := some false } [] = none := by
  refine ⟨?_, ?_, ?_⟩
  · intro σ setValue d repo
    cases h1 : repo.HardFail with
    | none => simp [packBaseRemoteRepo, runStmts, Lens.call, Lens.callDeref, h1]
    | some b1 =>
    cases h2 : repo.Offline with
    | none => simp [packBaseRemoteRepo, runStmts, Lens.call, Lens.callDeref, h1, h2]
    | some b2 =>
    cases h3 : repo.BlackedOut with
    | none => simp [packBaseRemoteRepo, runStmts, Lens.call, Lens.callDeref, h1, h2, h3]
    | some b3 =>
    cases h4 : repo.XrayIndex with
    | none => simp [packBaseRemoteRepo, runStmts, Lens.call, Lens.callDeref, h1, h2, h3, h4]
    | some b4 =>
    cases h5 : repo.StoreArtifactsLocally with
    | none => simp [packBaseRemoteRepo, runStmts, Lens.call, Lens.callDeref, h1, h2, h3, h4, h5]
    | some b5 =>
    cases h6 : repo.ShareConfiguration with
    | none =>
      simp [packBaseRemoteRepo, runStmts, Lens.call, Lens.callDeref, h1, h2, h3, h4, h5, h6]
    | some b6 =>
    cases h7 : repo.SynchronizeProperties with
    | none =>
      simp [packBaseRemoteRepo, runStmts, Lens.call, Lens.callDeref, h1, h2, h3, h4, h5, h6, h7]
    | some b7 =>
    cases h8 : repo.BlockMismatchingMimeTypes with
    | none =>
      simp [packBaseRemoteRepo, runStmts, Lens.call, Lens.callDeref, h1, h2, h3, h4, h5, h6, h7,
        h8]
    | some b8 =>
    cases h9 : repo.AllowAnyHostAuth with
    | none =>
      simp [packBaseRemoteRepo, runStmts, Lens.call, Lens.callDeref, h1, h2, h3, h4, h5, h6, h7,
        h8, h9]
    | some b9 =>
    cases h10 : repo.EnableCookieManagement with
    | none =>
      simp [packBaseRemoteRepo, runStmts, Lens.call, Lens.callDeref, h1, h2, h3, h4, h5, h6, h7,
        h8, h9, h10]
    | some b10 =>
    cases h11 : repo.BypassHeadRequests with
    | none =>
      simp [packBaseRemoteRepo, runStmts, Lens.call, Lens.callDeref, h1, h2, h3, h4, h5, h6, h7,
        h8, h9, h10, h11]
    | some b11 =>
      cases hcs : repo.ContentSynchronisation <;>
        simp [packBaseRemoteRepo, runStmts, Lens.call, Lens.callDeref, h1, h2, h3, h4, h5, h6,
          h7, h8, h9, h10, h11, hcs]
  · intro σ setValue d
    simp [packBaseRemoteRepo, runStmts, Lens.call, Lens.callDeref, sampleRemote]
  · simp [packBaseRemoteRepo, runStmts, Lens.call, Lens.callDeref, sampleRemote]

/-- C22: for every Cargo payload `lookup` returns the map of the embedded base parameters
with the two own entries added: its keys are the base keys together with
`git_registry_url` and `anonymous_access` (neither is a base key), every base key keeps
the value it has in the map of the base parameters, and the two own keys carry
`RegistryUrl` and `AnonymousAccess`. -/
theorem lookup_cargo_flattened (c : CargoRemoteRepo) :
    ∃ base m, lookup c.RemoteRepositoryBaseParams.reflect = some base ∧
      lookup c.reflect = some m ∧
      (∀ k, k ∈ m.keys ↔ k ∈ base.keys ∨ k = "git_registry_url" ∨ k = "anonymous_access") ∧
      "git_registry_url" ∉ base.keys ∧ "anonymous_access" ∉ base.keys ∧
      (∀ k ∈ base.keys, m.get? k = base.get? k) ∧
      m.get? "git_registry_url" = some (.string c.RegistryUrl) ∧
      m.get? "anonymous_access" = some (.bool c.AnonymousAccess) := by
  have hb := lookup_remote_eq c.RemoteRepositoryBaseParams
  have hu : "git_registry_url" ∉ (GoMap.ofOptions _).keys := fun h =>
    absurd (lookup_remote_keys_declared _ _ hb _ h) (by decide)
  have ha : "anonymous_access" ∉ (GoMap.ofOptions _).keys := fun h =>
    absurd (lookup_remote_keys_declared _ _ hb _ h) (by decide)
  refine ⟨_, _, hb, lookup_cargo_eq c _ hb, ?_, hu, ha, ?_, ?_, ?_⟩
  · intro k
    rw [GoMap.mem_keys_set, GoMap.mem_keys_set]
    tauto
  · intro k hk
    have h1 : ¬ "anonymous_access" = k := fun e => ha (e ▸ hk)
    have h2 : ¬ "git_registry_url" = k := fun e => hu (e ▸ hk)
    rw [GoMap.get?_set, GoMap.get?_set, if_neg h1, if_neg h2]
  · rw [GoMap.get?_set, GoMap.get?_set]
    simp
  · rw [GoMap.get?_set]
    simp

/-- C23: for every remote and every virtual base payload each key of the map of `lookup`
is an attribute the base schema of its class declares. For every local base payload the
map carries the key `index_compression_formats`, the tag of
`OptionalIndexCompressionFormats`, which `baseLocalRepoSchema` does not declare (it
declares `optional_index_compression_formats`); every other key is declared. Writing the
zero local payload into a state of that schema fails on this key. -/
theorem packed_keys_declared :
    (∀ (r : RemoteRepositoryBaseParams), ∃ m, lookup r.reflect = some m ∧
      ∀ k ∈ m.keys, k ∈ declared baseRemoteSchema) ∧
    (∀ (v : VirtualRepositoryBaseParams), ∃ m, lookup v.reflect = some m ∧
      ∀ k ∈ m.keys, k ∈ declared baseVirtualRepoSchema) ∧
    (∀ (l : LocalRepositoryBaseParams), ∃ m, lookup l.reflect = some m ∧
      "index_compression_formats" ∈ m.keys ∧
      (∀ k ∈ m.keys, k ≠ "index_compression_formats" → k ∈ declared baseLocalRepoSchema)) ∧
    "index_compression_formats" ∉ declared baseLocalRepoSchema ∧
    "optional_index_compression_formats" ∈ declared baseLocalRepoSchema ∧
    (universalPack (schemaSet (declaredIn baseLocalRepoSchema)) (fun m => m)
        LocalRepositoryBaseParams.zero.reflect { id := "", attrs := [] }).map Prod.fst =
      some (some
        "failed saving state [\"Invalid address to set: index_compression_formats\"]") := by
  refine ⟨?_, ?_, ?_, ?_, ?_, ?_⟩
  · intro r
    exact ⟨_, lookup_remote_eq r, lookup_remote_keys_declared r _ (lookup_remote_eq r)⟩
  · intro v
    exact ⟨_, lookup_virtual_eq v, lookup_virtual_keys_declared v _ (lookup_virtual_eq v)⟩
  · intro l
    refine ⟨_, lookup_local_eq l, ?_, lookup_local_keys_declared l _ (lookup_local_eq l)⟩
    rw [GoMap.mem_keys_ofOptions]
    exact ⟨("index_compression_formats",
      some (.ifaces (l.OptionalIndexCompressionFormats.map GoValue.string))), by simp, rfl, rfl⟩
  · decide
  · decide
  · rfl

/-- C25, as stated, fails in two ways. The remote payload `sampleRemote` has its
`ContentSynchronisation` pointer set, and `lookup` gives under `content_synchronisation`
a one-element list holding the map of the pointed-to struct, not the pointed-to value.
In the legacy local payload `sampleShadowed` the flag `BlackedOut` of the base parameters
is absent, yet the map has an entry under `blacked_out`, produced by the field of the
same tag embedded in the RPM parameters. -/
theorem lookup_pointer_field_counterexample :
    sampleRemote.ContentSynchronisation = some ⟨true, ⟨false⟩, ⟨false⟩, ⟨false⟩⟩ ∧
    (lookup sampleRemote.reflect).bind (fun m => m.get? "content_synchronisation") =
      some (.ifaces [.map [("enabled", .bool true)]]) ∧
    (lookup sampleRemote.reflect).bind (fun m => m.get? "content_synchronisation") ≠
      some (ContentSynchronisation.reflect ⟨true, ⟨false⟩, ⟨false⟩, ⟨false⟩⟩) ∧
    sampleShadowed.LocalRepositoryBaseParams.BlackedOut = none ∧
    (lookup (sampleShadowed.reflect sampleDockerView)).bind (fun m => m.get? "blacked_out") =
      some (.bool true) := by
  have h : (lookup sampleRemote.reflect).bind (fun m => m.get? "content_synchronisation") =
      some (.ifaces [.map [("enabled", .bool true)]]) := by
    rw [lookup_remote_eq]
    simp [GoMap.get?_ofOptions, sampleRemote]
  refine ⟨rfl, h, ?_, rfl, rfl⟩
  rw [h]
  simp [ContentSynchronisation.reflect]

/-- C25, amended: take a payload and an `hcl`-tagged pointer field of it whose attribute
no other field of the payload produces. When the field is nil, `lookup` returns the map
of the other fields, with no entry under the attribute. When it points to a value that is
not a struct, the map holds that value itself under the attribute and is otherwise the
same; when it points to a struct, the map holds a one-element list with the map of that
struct. An absent flag, an explicit false and an explicit true give three different
maps. -/
theorem lookup_pointer_field (pre post : List (StructField × GoValue)) (field : StructField)
    (rest : GoMap) (htag : field.hcl ≠ "")
    (hrest : lookup (.struct (pre ++ post)) = some rest)
    (hfree : rest.get? field.hcl = none) :
    lookup (.struct (pre ++ (field, .ptr none) :: post)) = some rest ∧
    (∀ v : GoValue, v.Kind ≠ Kind.Struct →
      ∃ m, lookup (.struct (pre ++ (field, .ptr (some v)) :: post)) = some m ∧
        m.get? field.hcl = some v ∧ ∀ k, k ≠ field.hcl → m.get? k = rest.get? k) ∧
    (∀ fs inner, lookup (.struct fs) = some inner →
      ∃ m, lookup (.struct (pre ++ (field, .ptr (some (.struct fs))) :: post)) = some m ∧
        m.get? field.hcl = some (.ifaces [.map inner]) ∧
        ∀ k, k ≠ field.hcl → m.get? k = rest.get? k) ∧
    (∀ mf mt,
      lookup (.struct (pre ++ (field, .ptr (some (.bool false))) :: post)) = some mf →
      lookup (.struct (pre ++ (field, .ptr (some (.bool true))) :: post)) = some mt →
      rest ≠ mf ∧ rest ≠ mt ∧ mf ≠ mt) := by
  have present : ∀ (target w : GoValue),
      findInspector field (.ptr (some target)) = some [(field.hcl, w)] →
      ∃ m, lookup (.struct (pre ++ (field, .ptr (some target)) :: post)) = some m ∧
        m.get? field.hcl = some w ∧ ∀ k, k ≠ field.hcl → m.get? k = rest.get? k := by
    intro target w hes
    obtain ⟨cp, cq, hr, hl⟩ := lookup_with_field pre post field _ rest _ hrest hes
    have hno : ∀ kv ∈ cp ++ cq, kv.1 ≠ field.hcl := by
      rw [hr, GoMap.get?_merge] at hfree
      exact foldl_pick_eq_none _ _ _ hfree
    refine ⟨_, hl, ?_, ?_⟩
    · rw [GoMap.get?_merge_insert cp cq _ _ hno, if_pos rfl]
    · intro k hk
      rw [GoMap.get?_merge_insert cp cq _ _ hno, if_neg hk, hr]
  have scalar : ∀ v : GoValue, v.Kind ≠ Kind.Struct →
      findInspector field (.ptr (some v)) = some [(field.hcl, v)] := by
    intro v hv
    cases v <;> simp [findInspector, checkForHcl, htag, GoValue.Kind] at hv ⊢
  refine ⟨?_, ?_, ?_, ?_⟩
  · have hes : findInspector field (.ptr none) = some [] := by
      simp [findInspector, checkForHcl, htag]
    obtain ⟨cp, cq, hr, hl⟩ := lookup_with_field pre post field _ rest _ hrest hes
    rw [hl, hr, List.append_nil]
  · intro v hv
    exact present v v (scalar v hv)
  · intro fs inner hin
    apply present
    simp only [lookup] at hin
    simp [findInspector, checkForHcl, htag, hin]
  · intro mf mt hf ht
    obtain ⟨m1, h1, hv1, -⟩ := present (.bool false) (.bool false) (scalar _ (by decide))
    obtain ⟨m2, h2, hv2, -⟩ := present (.bool true) (.bool true) (scalar _ (by decide))
    rw [hf, Option.some.injEq] at h1
    rw [ht, Option.some.injEq] at h2
    subst h1 h2
    refine ⟨?_, ?_, ?_⟩
    · intro e
      rw [e, hv1] at hfree
      exact Option.noConfusion hfree
    · intro e
      rw [e, hv2] at hfree
      exact Option.noConfusion hfree
    · intro e
      rw [e, hv2] at hv1
      simp at hv1

/-- Witness of C25 amended: a payload with a key, the flag `Offline` and a URL. With the
flag absent the map holds the key and the URL only; with the flag set to false it holds
false under `offline`. -/
theorem lookup_pointer_field_witness :
    lookup (.struct [(⟨"Key", "key"⟩, .string "remote-repo"), (⟨"Offline", "offline"⟩, .ptr none),
        (⟨"Url", "url"⟩, .string "https://example.org/repo")]) =
      some [("key", .string "remote-repo"), ("url", .string "https://example.org/repo")] ∧
    ∃ m, lookup (.struct [(⟨"Key", "key"⟩, .string "remote-repo"),
        (⟨"Offline", "offline"⟩, .ptr (some (.bool false))),
        (⟨"Url", "url"⟩, .string "https://example.org/repo")]) = some m ∧
      m.get? "offline" = some (.bool false) :=
  ⟨(lookup_pointer_field [(⟨"Key", "key"⟩, .string "remote-repo")]
      [(⟨"Url", "url"⟩, .string "https://example.org/repo")] ⟨"Offline", "offline"⟩
      [("key", .string "remote-repo"), ("url", .string "https://example.org/repo")]
      (by decide) rfl rfl).1,
    let ⟨m, h1, h2, _⟩ := (lookup_pointer_field [(⟨"Key", "key"⟩, .string "remote-repo")]
      [(⟨"Url", "url"⟩, .string "https://example.org/repo")] ⟨"Offline", "offline"⟩
      [("key", .string "remote-repo"), ("url", .string "https://example.org/repo")]
      (by decide) rfl rfl).2.1 (.bool false) (by decide)
    ⟨m, h1, h2⟩⟩

end Artifactory
